import Mathlib

/-!
# glue CNI plugin: address partitioning and attachment protocol

A shallow embedding of `cni-plugins/glue/glue.go` (and of the identical
`getNetInfo` of `glued/device.go`).  Go values are modelled as follows:

* `uint32` is a `Nat` reduced modulo `2 ^ 32` after every operation that can
  leave the range;
* a byte slice (`net.IP`, `net.IPMask`, `[]byte`) is a `List Nat`;
* a call that can return an error or abort with a run-time panic returns an
  `Outcome`.
-/

namespace Glue

/-! ## Go outcomes -/

/-- Outcome of a Go call: a normal return, a returned non-nil `error`, or a
run-time panic (nil dereference, failed type assertion). -/
inductive Outcome (α : Type) where
  | ok (a : α)
  | error (msg : String)
  | crash
  deriving DecidableEq, Repr

/-- Sequencing of Go calls: an error or a panic of the first call ends the run. -/
def Outcome.bind {α β : Type} (x : Outcome α) (f : α → Outcome β) : Outcome β :=
  match x with
  | .ok a => f a
  | .error e => .error e
  | .crash => .crash

/-! ## The parts of Go package `net` that the plugin uses -/

/-- Go `net.IP`: a byte slice of length 4 or 16 (`[]` is the nil slice). -/
abbrev IP := List Nat

/-- Go `net.IPMask`. -/
abbrev IPMask := List Nat

/-- Go `net.IPNet`. -/
structure IPNet where
  IP : IP
  Mask : IPMask
  deriving DecidableEq, Repr

/-- The 12-byte header of an IPv4 address stored in 16 bytes. -/
def v4InV6Prefix : List Nat := [0, 0, 0, 0, 0, 0, 0, 0, 0, 0, 0xff, 0xff]

/-- Go `net.IPv4(a, b, c, d)`: the 16-byte form of an IPv4 address. -/
def IPv4 (a b c d : Nat) : IP := v4InV6Prefix ++ [a, b, c, d]

/-- One byte of `net.CIDRMask`: `0xff` while at least 8 ones remain,
otherwise `^byte(0xff >> n)`. -/
def cidrMaskByte (n : Nat) : Nat :=
  if n ≥ 8 then 0xff else 0xff - (0xff >>> n)

/-- The loop of `net.CIDRMask`: `l` bytes with `n` leading ones left to place. -/
def cidrMaskLoop : Nat → Nat → List Nat
  | 0, _ => []
  | l + 1, n => cidrMaskByte n :: cidrMaskLoop l (n - 8)

/-- Go `net.CIDRMask(ones, bits)`; the nil mask for an unsupported request. -/
def CIDRMask (ones bits : Nat) : IPMask :=
  if bits ≠ 32 ∧ bits ≠ 128 then []
  else if ones > bits then []
  else cidrMaskLoop (bits / 8) ones

/-- Go `IP.Mask(mask)`: the byte-wise AND after bringing both operands to a
common length; nil when the lengths still differ. -/
def IP.Mask (ip : IP) (mask : IPMask) : IP :=
  let mask := if mask.length = 16 ∧ ip.length = 4 ∧ (mask.take 12).all (· == 0xff)
    then mask.drop 12 else mask
  let ip := if mask.length = 4 ∧ ip.length = 16 ∧ ip.take 12 = v4InV6Prefix
    then ip.drop 12 else ip
  if ip.length ≠ mask.length then []
  else List.zipWith (· &&& ·) ip mask

/-- Go `IP.To4()`: the 4-byte form of an IPv4 address, nil for anything else. -/
def IP.To4 (ip : IP) : IP :=
  if ip.length = 4 then ip
  else if ip.length = 16 ∧ ip.take 12 = v4InV6Prefix then ip.drop 12
  else []

/-- ASCII decimal digit test. -/
def isDigit (c : Char) : Bool := decide ('0'.toNat ≤ c.toNat ∧ c.toNat ≤ '9'.toNat)

/-- Value of an ASCII decimal digit. -/
def digitVal (c : Char) : Nat := c.toNat - '0'.toNat

/-- The loop of Go `netip.parseIPv4Fields` over the remaining text.  `val` and
`digLen` are the value and the digit count of the octet being read, `fields`
the octets completed so far.  `digLen = 0` at a dot is Go's
`i == 0 || s[i-1] == '.'`; an empty rest at a dot is Go's `i == len(s)-1`. -/
def parseIPv4Fields : List Char → Nat → Nat → List Nat → Option (List Nat)
  | [], val, _, fields => if fields.length < 3 then none else some (fields ++ [val])
  | c :: rest, val, digLen, fields =>
    if isDigit c then
      if digLen = 1 ∧ val = 0 then none
      else if val * 10 + digitVal c > 255 then none
      else parseIPv4Fields rest (val * 10 + digitVal c) (digLen + 1) fields
    else if c = '.' then
      if digLen = 0 ∨ rest.isEmpty then none
      else if fields.length = 3 then none
      else parseIPv4Fields rest 0 0 (fields ++ [val])
    else none

/-- A parsed `netip.Addr` without zone: an IPv4 address or the 16 bytes of an
IPv6 address. -/
inductive Addr where
  | v4 (a b c d : Nat)
  | v6 (bytes : List Nat)
  deriving DecidableEq, Repr

/-- Go `netip.Addr.BitLen`. -/
def Addr.BitLen : Addr → Nat
  | .v4 _ _ _ _ => 32
  | .v6 _ => 128

/-- Go `netip.Addr.As16`. -/
def Addr.As16 : Addr → IP
  | .v4 a b c d => IPv4 a b c d
  | .v6 bytes => bytes

/-- Go `netip.parseIPv4`. -/
def parseIPv4 (s : List Char) : Option Addr :=
  match parseIPv4Fields s 0 0 [] with
  | some [a, b, c, d] => some (.v4 a b c d)
  | _ => none

/-- The dispatch loop of Go `netip.ParseAddr`: the first of `.`, `:` and `%`
in the text selects the IPv4 parser, the IPv6 parser or a failure.  The IPv6
text parser is not part of this development and is the argument `p6`, which
returns the 16 address bytes of a zone-less IPv6 literal. -/
def parseAddrFrom (p6 : List Char → Option (List Nat)) (s : List Char) :
    List Char → Option Addr
  | [] => none
  | c :: rest =>
    if c = '.' then parseIPv4 s
    else if c = ':' then (p6 s).map Addr.v6
    else if c = '%' then none
    else parseAddrFrom p6 s rest

/-- Go `netip.ParseAddr`, restricted to results without a zone. -/
def ParseAddr (p6 : List Char → Option (List Nat)) (s : List Char) : Option Addr :=
  parseAddrFrom p6 s s

/-- The loop of Go `net.dtoi`: decimal value of the leading digits, the number
of characters consumed, and failure once the value reaches `0xFFFFFF`. -/
def dtoiLoop : List Char → Nat → Nat → Nat × Nat × Bool
  | [], n, i => if i = 0 then (0, 0, false) else (n, i, true)
  | c :: rest, n, i =>
    if isDigit c then
      if n * 10 + digitVal c ≥ 0xFFFFFF then (0xFFFFFF, i, false)
      else dtoiLoop rest (n * 10 + digitVal c) (i + 1)
    else if i = 0 then (0, 0, false) else (n, i, true)

/-- Go `net.dtoi`. -/
def dtoi (s : List Char) : Nat × Nat × Bool := dtoiLoop s 0 0

/-- Split a text at its first `/` (Go `bytealg.IndexByteString(s, '/')`). -/
def splitSlash : List Char → Option (List Char × List Char)
  | [] => none
  | c :: rest =>
    if c = '/' then some ([], rest)
    else (splitSlash rest).map (fun p => (c :: p.1, p.2))

/-- Go `net.ParseCIDR`, returning the `*IPNet` (`none` is the nil pointer that
accompanies a non-nil error). -/
def ParseCIDR (p6 : List Char → Option (List Nat)) (s : String) : Option IPNet :=
  match splitSlash s.toList with
  | none => none
  | some (addr, mask) =>
    match ParseAddr p6 addr with
    | none => none
    | some ipAddr =>
      let r := dtoi mask
      if !r.2.2 ∨ r.2.1 ≠ mask.length ∨ r.1 > ipAddr.BitLen then none
      else
        let m := CIDRMask r.1 ipAddr.BitLen
        some { IP := IP.Mask ipAddr.As16 m, Mask := m }

/-! ## `glue.go`: topology record and address plan -/

/-- The anonymous struct of the `Master` field of `GlueSubnetConf`
(`Typ` is the Go field `Type`). -/
structure MasterConf where
  Typ : String
  Master : String
  Mode : String
  deriving DecidableEq, Repr

/-- Go struct `GlueSubnetConf`. -/
structure GlueSubnetConf where
  PodCIDR : String
  ServiceCIDR : String
  NodeCIDR : String
  Master : MasterConf
  DefaultNeighMac : String
  deriving DecidableEq, Repr

/-- Wrap-around `uint32` addition. -/
def add32 (a b : Nat) : Nat := (a + b) % 2 ^ 32

/-- Wrap-around `uint32` subtraction. -/
def sub32 (a b : Nat) : Nat := (a + 2 ^ 32 - b % 2 ^ 32) % 2 ^ 32

/-- Go unary `^` on a `uint32`: the bitwise complement. -/
def not32 (a : Nat) : Nat := (a % 2 ^ 32) ^^^ 0xFFFFFFFF

/-- `Ipv4ToUint32` of `glue.go`: the first four bytes read big-endian; indexing
a slice of fewer than four bytes panics. -/
def Ipv4ToUint32 (ip : List Nat) : Outcome Nat :=
  match ip with
  | b0 :: b1 :: b2 :: b3 :: _ =>
    .ok (((b0 % 256) <<< 24) ||| ((b1 % 256) <<< 16) ||| ((b2 % 256) <<< 8) ||| (b3 % 256))
  | _ => .crash

/-- `Uint32ToIpv4` of `glue.go`. -/
def Uint32ToIpv4 (i : Nat) : IP :=
  IPv4 ((i >>> 24) % 256) ((i >>> 16) % 256) ((i >>> 8) % 256) (i % 256)

/-- The five addresses returned by `getNetInfo`, in the order of its results. -/
structure NetInfo where
  rangStart : IP
  rangeEnd : IP
  nodeIP : IP
  ipvlangw : IP
  ipvlansvcgw : IP
  deriving DecidableEq, Repr

/-- `getNetInfo` of `glue.go` (lines 146-192; `glued/device.go` lines 70-116
carry the same text).  The error of the second `ParseCIDR` is discarded, so a
`PodCIDR` that does not parse leaves `podIpv4Net` nil and `podIpv4Net.IP`
panics. -/
def getNetInfo (p6 : List Char → Option (List Nat)) (subnet : GlueSubnetConf) :
    Outcome NetInfo :=
  match ParseCIDR p6 subnet.NodeCIDR with
  | none => .error "parse node CIDR failed"
  | some nodeIpv4Net =>
    let podParsed := ParseCIDR p6 subnet.PodCIDR
    (Ipv4ToUint32 nodeIpv4Net.IP).bind fun nodeIpv4Int =>
    (Ipv4ToUint32 nodeIpv4Net.Mask).bind fun nodeMaskRaw =>
    let nodeMaskInt := not32 nodeMaskRaw
    match podParsed with
    | none => .crash
    | some podIpv4Net =>
      (Ipv4ToUint32 podIpv4Net.IP).bind fun podIpv4Int =>
      (Ipv4ToUint32 podIpv4Net.Mask).bind fun podMaskRaw =>
      let podMaskInt := not32 podMaskRaw
      let rangeStartOff := if nodeIpv4Int = podIpv4Int then add32 1 1 else 1
      let rangeEndOff :=
        if add32 nodeIpv4Int nodeMaskInt = add32 podIpv4Int podMaskInt then
          if subnet.Master.Typ = "macvlan" then sub32 nodeMaskInt 1
          else sub32 nodeMaskInt 3
        else nodeMaskInt
      let ipvlanGW := Uint32ToIpv4 (sub32 (add32 podIpv4Int podMaskInt) 1)
      let ipvlanSvcGW := Uint32ToIpv4 (sub32 (add32 podIpv4Int podMaskInt) 2)
      .ok { rangStart := Uint32ToIpv4 (add32 nodeIpv4Int rangeStartOff)
            rangeEnd := Uint32ToIpv4 (add32 nodeIpv4Int rangeEndOff)
            nodeIP := Uint32ToIpv4 (sub32 (add32 nodeIpv4Int rangeStartOff) 1)
            ipvlangw := ipvlanGW
            ipvlansvcgw := ipvlanSvcGW }

/-! ## The reference plan of the specification (section 4.1) -/

/-- The 32-bit number whose big-endian bytes are `bs`. -/
def beUint32 (bs : List Nat) : Nat :=
  match bs with
  | [a, b, c, d] => a * 2 ^ 24 + b * 2 ^ 16 + c * 2 ^ 8 + d
  | _ => 0

/-- The address with 32-bit value `x`, in the 16-byte form of `net.IPv4`. -/
def ipOfUint32 (x : Nat) : IP :=
  IPv4 (x / 2 ^ 24 % 256) (x / 2 ^ 16 % 256) (x / 2 ^ 8 % 256) (x % 256)

/-- Network address of a parsed IPv4 block, as a 32-bit number. -/
def netBase (n : IPNet) : Nat := beUint32 n.IP

/-- Inverted netmask (host-bit span) of a parsed IPv4 block. -/
def netSpan (n : IPNet) : Nat := 2 ^ 32 - 1 - beUint32 n.Mask

/-- The node address plan as 32-bit numbers. -/
structure Plan where
  RangeStart : Nat
  RangeEnd : Nat
  NodeAddress : Nat
  PodGateway : Nat
  ServiceGateway : Nat
  deriving DecidableEq, Repr

/-- The algorithm of section 4.1 of the specification, word for word, every
sum and difference reduced modulo `2 ^ 32`. -/
def referencePlan (nodeBase nodeSpan podBase podSpan : Nat) (masterType : String) : Plan :=
  let startOffset := if nodeBase = podBase then 2 else 1
  let lastBlock := (nodeBase + nodeSpan) % 2 ^ 32 = (podBase + podSpan) % 2 ^ 32
  let endOffset :=
    if lastBlock then
      (if masterType = "macvlan" then (nodeSpan + 2 ^ 32 - 1) % 2 ^ 32
       else (nodeSpan + 2 ^ 32 - 3) % 2 ^ 32)
    else nodeSpan
  { RangeStart := (nodeBase + startOffset) % 2 ^ 32
    RangeEnd := (nodeBase + endOffset) % 2 ^ 32
    NodeAddress := ((nodeBase + startOffset) % 2 ^ 32 + 2 ^ 32 - 1) % 2 ^ 32
    PodGateway := ((podBase + podSpan) % 2 ^ 32 + 2 ^ 32 - 1) % 2 ^ 32
    ServiceGateway := ((podBase + podSpan) % 2 ^ 32 + 2 ^ 32 - 2) % 2 ^ 32 }

/-- The addresses of a plan in the form `getNetInfo` returns them. -/
def Plan.toNetInfo (p : Plan) : NetInfo :=
  { rangStart := ipOfUint32 p.RangeStart
    rangeEnd := ipOfUint32 p.RangeEnd
    nodeIP := ipOfUint32 p.NodeAddress
    ipvlangw := ipOfUint32 p.PodGateway
    ipvlansvcgw := ipOfUint32 p.ServiceGateway }

/-- The 32-bit value of an address returned by `getNetInfo`. -/
def ipValue (ip : IP) : Nat := beUint32 (IP.To4 ip)

/-- Go `IP.String` for the addresses this program prints: dotted decimal for
an IPv4 address in either form.  The other branches of `IP.String`, unreachable
from `Uint32ToIpv4`, are `"<nil>"` for the nil slice and `"?"` for the rest. -/
def IP.String (ip : IP) : String :=
  match IP.To4 ip with
  | [a, b, c, d] => toString a ++ "." ++ toString b ++ "." ++ toString c ++ "." ++ toString d
  | _ => if ip.length = 0 then "<nil>" else "?"

/-! ## `glue.go`: plugin configuration, delegate configuration, records -/

/-- Go `[]byte`. -/
abbrev Bytes := List Nat

/-- Go `types.Route`; `GW = []` is the nil gateway. -/
structure Route where
  Dst : IPNet
  GW : IP
  deriving DecidableEq, Repr

/-- One entry of the `ranges` list of the host-local IPAM configuration (the
map literal with those four keys in `genDelegateInfo`). -/
structure IPAMRange where
  subnet : String
  rangeStart : String
  rangeEnd : String
  gateway : String
  deriving DecidableEq, Repr

/-- The `ipam` map built by `genDelegateInfo`: keys `type`, `ranges`, `routes`. -/
structure IPAMConf where
  typ : String
  ranges : List (List IPAMRange)
  routes : List Route
  deriving DecidableEq, Repr

/-- A value of the `Delegate` map (`interface{}`): a string, the IPAM map, or
any other JSON value taken over from the plugin configuration. -/
inductive JVal where
  | str (s : String)
  | ipam (c : IPAMConf)
  | raw (b : Bytes)
  deriving DecidableEq, Repr

/-- Go `map[string]interface{}` of the `Delegate` field. -/
abbrev Delegate := String → Option JVal

/-- Go `m[k] = v`. -/
def Delegate.set (m : Delegate) (k : String) (v : JVal) : Delegate :=
  fun x => if x = k then some v else m x

/-- Go `make(map[string]interface{})`. -/
def Delegate.empty : Delegate := fun _ => none

/-- Go `m[k]` on a map that may be nil: a nil map has no entries. -/
def Delegate.lookup (m : Option Delegate) (k : String) : Option JVal :=
  match m with
  | none => none
  | some d => d k

/-- Go struct `NetConf` of `glue.go`, with the fields of the embedded
`types.NetConf` that the plugin reads.  `Delegate = none` is the nil map. -/
structure NetConf where
  CNIVersion : String
  Name : String
  Delegate : Option Delegate
  SubnetFile : String
  DataDir : String

/-- Constant `defaultSubnetFile`. -/
def defaultSubnetFile : String := "/run/glue/subnet.json"

/-- Constant `defaultDataDir`. -/
def defaultDataDir : String := "/var/lib/cni/glue"

/-- Go `skel.CmdArgs`, the fields the plugin reads. -/
structure CmdArgs where
  ContainerID : String
  Netns : String
  StdinData : Bytes
  deriving DecidableEq, Repr

/-- A static neighbour entry installed in a container network namespace
(`netlink.Neigh` with `NUD_PERMANENT`). -/
structure NeighEntry where
  netns : String
  linkIndex : Nat
  ip : IP
  hw : Bytes
  deriving DecidableEq, Repr

/-- Calls to the outside world that change it, in the order they are made. -/
inductive Event where
  | mkdirAll (dir : String)
  | writeFile (path : String) (data : Bytes)
  | remove (path : String)
  | delegateAdd (typ : String) (conf : Bytes)
  | delegateDel (typ : String) (conf : Bytes)
  | neighAdd (netns : String) (linkIndex : Nat) (ip : IP) (hw : Bytes)
  | printResult (version : String)
  deriving DecidableEq, Repr

/-- The state outside the plugin process: file contents by path (the record
store and the topology file), the neighbour entries installed so far, and the
calls made so far. -/
structure World where
  files : String → Option Bytes
  neighs : List NeighEntry
  trace : List Event

/-- Behaviour of the collaborators that are not part of this repository: the
JSON codec, the file system's failures, the delegate driver, netlink.  A field
named `...Err` gives the error of a call, `none` meaning success. -/
structure Env where
  p6 : List Char → Option (List Nat)
  decodeNetConf : Bytes → NetConf → Except String NetConf
  decodeSubnet : Bytes → Except String GlueSubnetConf
  decodeType : Bytes → Except String String
  marshal : Option Delegate → Bytes
  join : String → String → String
  readErr : String → Option String
  mkdirAllErr : String → Option String
  writeErr : String → Option String
  removeErr : String → Option String
  delegateAdd : String → Bytes → Except String Bytes
  delegateDel : String → Bytes → Option String
  printResultErr : Bytes → String → Option String
  getNSErr : String → Option String
  parseMAC : String → Option Bytes
  linkByName : String → String → Except String Nat
  neighAddErr : NeighEntry → Option String

/-- Record one call. -/
def World.log (w : World) (e : Event) : World := { w with trace := w.trace ++ [e] }

/-- Result of Go `ioutil.ReadFile`: the contents, an error for which
`os.IsNotExist` holds, or another error. -/
inductive ReadResult where
  | data (b : Bytes)
  | notExist (msg : String)
  | failed (msg : String)
  deriving DecidableEq, Repr

/-- Go `ioutil.ReadFile`: a missing file gives the not-exist error, a file that
is there can still fail to be read. -/
def ReadFile (env : Env) (w : World) (path : String) : ReadResult :=
  match w.files path with
  | none => .notExist ("open " ++ path ++ ": no such file or directory")
  | some b =>
    match env.readErr path with
    | some e => .failed e
    | none => .data b

/-- Go `os.Remove`, its error discarded by every caller in `glue.go`: the file
is gone afterwards unless the removal fails. -/
def osRemove (env : Env) (w : World) (path : String) : World :=
  let w1 := w.log (.remove path)
  match env.removeErr path with
  | some _ => w1
  | none => { w1 with files := fun p => if p = path then none else w1.files p }

/-- `loadNetConf` of `glue.go`: decode onto the defaults, make the `Delegate`
map if it is nil, and store `cniVersion` in it. -/
def loadNetConf (env : Env) (bytes : Bytes) : Outcome NetConf :=
  match env.decodeNetConf bytes
      { CNIVersion := "", Name := "", Delegate := none,
        SubnetFile := defaultSubnetFile, DataDir := defaultDataDir } with
  | .error e => .error ("failed to load netconf: " ++ e)
  | .ok n =>
    let d := match n.Delegate with
      | none => Delegate.empty
      | some d => d
    .ok { n with Delegate := some (d.set "cniVersion" (.str n.CNIVersion)) }

/-- `loadGlueSubnet` of `glue.go`. -/
def loadGlueSubnet (env : Env) (w : World) (path : String) : Outcome GlueSubnetConf :=
  match ReadFile env w path with
  | .notExist e => .error e
  | .failed e => .error e
  | .data netConfBytes =>
    match env.decodeSubnet netConfBytes with
    | .error e => .error ("failed to parse netconf: " ++ e)
    | .ok subnet =>
      if subnet.PodCIDR = "" ∨ subnet.NodeCIDR = "" then
        .error "get gule config fail, no PodCIDR/NodeCIDR found"
      else if subnet.Master.Typ = "" then
        .error "invalid glue subnet file, no 'type' field found"
      else if subnet.Master.Master = "" then
        .error "invalid glue subnet file, no 'master' field found"
      else if subnet.DefaultNeighMac = "" then
        .ok { subnet with DefaultNeighMac := "08:60:83:00:00:00" }
      else .ok subnet

/-- `genDelegateInfo` of `glue.go`: fills `n.Delegate` and returns the
neighbour map (at most one entry, kept as a list).  Storing into a nil
`Delegate` map panics; on the ipvlan branch the error of `ParseCIDR` of
`ServiceCIDR` is discarded and `*svcNet` panics when the pointer is nil. -/
def genDelegateInfo (p6 : List Char → Option (List Nat)) (n : NetConf)
    (subnet : GlueSubnetConf) : Outcome (NetConf × List (String × String)) :=
  match n.Delegate with
  | none => .crash
  | some d0 =>
    let d1 := (((d0.set "name" (.str n.Name)).set "type" (.str subnet.Master.Typ)).set
      "master" (.str subnet.Master.Master)).set "cniVersion" (.str n.CNIVersion)
    let d2 := if subnet.Master.Mode ≠ "" then d1.set "mode" (.str subnet.Master.Mode) else d1
    (getNetInfo p6 subnet).bind fun ni =>
    let rangesSlice : List (List IPAMRange) :=
      if subnet.Master.Typ = "macvlan" then
        [[{ subnet := subnet.PodCIDR, rangeStart := ni.rangStart.String,
            rangeEnd := ni.rangeEnd.String, gateway := ni.nodeIP.String }]]
      else
        [[{ subnet := subnet.PodCIDR, rangeStart := ni.rangStart.String,
            rangeEnd := ni.rangeEnd.String, gateway := ni.ipvlangw.String }]]
    let rtes : List Route := [{ Dst := { IP := IPv4 0 0 0 0, Mask := CIDRMask 0 32 }, GW := [] }]
    let rtesOut : Outcome (List Route) :=
      if subnet.Master.Typ = "ipvlan" then
        match ParseCIDR p6 subnet.ServiceCIDR with
        | none => .crash
        | some svcNet => .ok (rtes ++ [{ Dst := svcNet, GW := ni.ipvlansvcgw }])
      else .ok rtes
    rtesOut.bind fun rtes =>
    let ipam : IPAMConf := { typ := "host-local", ranges := rangesSlice, routes := rtes }
    let d3 := d2.set "ipam" (.ipam ipam)
    let nei : List (String × String) :=
      if subnet.Master.Typ = "ipvlan" then [(ni.ipvlansvcgw.String, subnet.DefaultNeighMac)]
      else []
    .ok ({ n with Delegate := some d3 }, nei)

/-- `saveContNetConf` of `glue.go`: `os.MkdirAll`, then `ioutil.WriteFile` at
`filepath.Join(dataDir, containerID)`. -/
def saveContNetConf (env : Env) (w : World) (containerID dataDir : String)
    (netconf : Bytes) : Outcome String × World :=
  let w1 := w.log (.mkdirAll dataDir)
  match env.mkdirAllErr dataDir with
  | some e => (.error e, w1)
  | none =>
    let path := env.join dataDir containerID
    let w2 := w1.log (.writeFile path netconf)
    match env.writeErr path with
    | some e => (.error e, w2)
    | none => (.ok path, { w2 with files := fun p => if p = path then some netconf else w2.files p })

/-- Go `fmt` verb `%q` on a text without special characters: the text in
double quotes. -/
def quoted (s : String) : String := "\"" ++ s ++ "\""

/-- Go `net.ParseIP`: the 16-byte form of a zone-less address, nil otherwise. -/
def ParseIP (p6 : List Char → Option (List Nat)) (s : String) : Option IP :=
  (ParseAddr p6 s.toList).map Addr.As16

/-- The loop of `updateNeigh` over the neighbour map, inside the namespace
`netns`: parse key and value, look up `eth0`, add a permanent entry. -/
def updateNeighLoop (env : Env) (netns : String) :
    List (String × String) → World → Outcome Unit × World
  | [], w => (.ok (), w)
  | (k, v) :: rest, w =>
    match ParseIP env.p6 k, env.parseMAC v with
    | some ip, some hw =>
      match env.linkByName netns "eth0" with
      | .error e => (.error ("failed to get ipvlan device " ++ quoted "eth0" ++ ": " ++ e), w)
      | .ok idx =>
        let neigh : NeighEntry := { netns := netns, linkIndex := idx, ip := ip, hw := hw }
        let w1 := w.log (.neighAdd netns idx ip hw)
        match env.neighAddErr neigh with
        | some _ =>
          (.error ("failed to add neigh key = " ++ k ++ ", value = " ++ v ++ "\n"), w1)
        | none => updateNeighLoop env netns rest { w1 with neighs := w1.neighs ++ [neigh] }
    | _, _ => (.error ("Parse neigh arg fail, key = " ++ k ++ ", value = " ++ v ++ "\n"), w)

/-- `updateNeigh` of `glue.go`. -/
def updateNeigh (env : Env) (w : World) (neighs : List (String × String))
    (args : CmdArgs) : Outcome Unit × World :=
  match env.getNSErr args.Netns with
  | some e => (.error ("failed to open netns " ++ quoted args.Netns ++ ": " ++ e), w)
  | none => updateNeighLoop env args.Netns neighs w

/-- `cmdAdd` of `glue.go`.  The result is the returned `error` (`ok ()` is nil)
and the world afterwards.  `n.Delegate["type"].(string)` panics when the entry
is not a string; the result of `updateNeigh` is discarded. -/
def cmdAdd (env : Env) (w : World) (args : CmdArgs) : Outcome Unit × World :=
  match loadNetConf env args.StdinData with
  | .error e => (.error e, w)
  | .crash => (.crash, w)
  | .ok n =>
    match loadGlueSubnet env w n.SubnetFile with
    | .error e => (.error e, w)
    | .crash => (.crash, w)
    | .ok subnet =>
      match genDelegateInfo env.p6 n subnet with
      | .error e => (.error ("failed to generate delegate info: " ++ e), w)
      | .crash => (.crash, w)
      | .ok (n, neighs) =>
        let buf := env.marshal n.Delegate
        match saveContNetConf env w args.ContainerID n.DataDir buf with
        | (.error e, w1) => (.error e, w1)
        | (.crash, w1) => (.crash, w1)
        | (.ok path, w1) =>
          match Delegate.lookup n.Delegate "type" with
          | some (.str typ) =>
            let w2 := w1.log (.delegateAdd typ buf)
            match env.delegateAdd typ buf with
            | .error e => (.error e, osRemove env w2 path)
            | .ok result =>
              let w3 := (updateNeigh env w2 neighs args).2
              let w4 := w3.log (.printResult n.CNIVersion)
              match env.printResultErr result n.CNIVersion with
              | some e => (.error e, w4)
              | none => (.ok (), w4)
          | _ => (.crash, w1)

/-- `consumeContNetConf` of `glue.go`: the path that the returned `cleanup`
closure removes, and the result of reading the record. -/
def consumeContNetConf (env : Env) (w : World) (containerID dataDir : String) :
    String × ReadResult :=
  let path := env.join dataDir containerID
  (path, ReadFile env w path)

/-- `cmdDel` of `glue.go`.  The deferred `cleanup(err)` reads the variable
`err`, which the final `return invoke.DelegateDel(...)` does not assign (the
result of `cmdDel` is unnamed): it is nil once the record has parsed, so the
record is removed after the delegate call whatever that call returned, and is
kept when the record does not parse. -/
def cmdDel (env : Env) (w : World) (args : CmdArgs) : Outcome Unit × World :=
  match loadNetConf env args.StdinData with
  | .error e => (.error e, w)
  | .crash => (.crash, w)
  | .ok n =>
    match consumeContNetConf env w args.ContainerID n.DataDir with
    | (_, .notExist _) => (.ok (), w)
    | (_, .failed e) => (.error e, w)
    | (path, .data netConfBytes) =>
      match env.decodeType netConfBytes with
      | .error e => (.error ("failed to parse netconf: " ++ e), w)
      | .ok typ =>
        let w1 := w.log (.delegateDel typ netConfBytes)
        let w2 := osRemove env w1 path
        match env.delegateDel typ netConfBytes with
        | some e => (.error e, w2)
        | none => (.ok (), w2)

/-- `cmdCheck` of `glue.go`. -/
def cmdCheck (_args : CmdArgs) : Outcome Unit := .ok ()

/-! ## Vocabulary of the partition properties (specification, section 8) -/

/-- An IPv6 text parser that accepts no text, for topologies written in IPv4
text only (the IPv4 branch of `ParseAddr` never consults the IPv6 parser). -/
def noIPv6 : List Char → Option (List Nat) := fun _ => none

/-- The text `s` parses as the IPv4 block `net`: `ParseCIDR` succeeds and the
mask has the four bytes of an IPv4 mask. -/
def ParsesIPv4 (p6 : List Char → Option (List Nat)) (s : String) (net : IPNet) : Prop :=
  ParseCIDR p6 s = some net ∧ net.Mask.length = 4

/-- The IPv4 block `net` has prefix length `l`. -/
def hasPrefixLen (net : IPNet) (l : Nat) : Prop := l ≤ 32 ∧ net.Mask = CIDRMask l 32

/-- The 32-bit address `x` belongs to the block `net`. -/
def inBlock (net : IPNet) (x : Nat) : Prop :=
  netBase net ≤ x ∧ x ≤ netBase net + netSpan net

/-- Every address of block `a` is an address of block `b`. -/
def blockSubset (a b : IPNet) : Prop :=
  netBase b ≤ netBase a ∧ netBase a + netSpan a ≤ netBase b + netSpan b

/-- The blocks `a` and `b` have no address in common. -/
def blocksDisjoint (a b : IPNet) : Prop :=
  netBase a + netSpan a < netBase b ∨ netBase b + netSpan b < netBase a

/-- Block `a` ends at the last address of block `b` (the "last node" test of
`getNetInfo`, without wrap-around). -/
def isLastBlock (a b : IPNet) : Prop :=
  netBase a + netSpan a = netBase b + netSpan b

/-- The 32-bit address `x` lies in the inclusive pod range of the plan. -/
def inRange (ni : NetInfo) (x : Nat) : Prop :=
  ipValue ni.rangStart ≤ x ∧ x ≤ ipValue ni.rangeEnd

instance (p6 : List Char → Option (List Nat)) (s : String) (net : IPNet) :
    Decidable (ParsesIPv4 p6 s net) := by
  unfold ParsesIPv4; exact inferInstance

instance (net : IPNet) (l : Nat) : Decidable (hasPrefixLen net l) := by
  unfold hasPrefixLen; exact inferInstance

instance (net : IPNet) (x : Nat) : Decidable (inBlock net x) := by
  unfold inBlock; exact inferInstance

instance (a b : IPNet) : Decidable (blockSubset a b) := by
  unfold blockSubset; exact inferInstance

instance (a b : IPNet) : Decidable (blocksDisjoint a b) := by
  unfold blocksDisjoint; exact inferInstance

instance (a b : IPNet) : Decidable (isLastBlock a b) := by
  unfold isLastBlock; exact inferInstance

instance (ni : NetInfo) (x : Nat) : Decidable (inRange ni x) := by
  unfold inRange; exact inferInstance

/-- The topology of the specification's boundary examples: the node block
`node` of the pod network 172.24.0.0/21 with master type `typ`. -/
def exampleTopology (node typ : String) : GlueSubnetConf :=
  { PodCIDR := "172.24.0.0/21", ServiceCIDR := "10.96.0.0/12", NodeCIDR := node,
    Master := { Typ := typ, Master := "enp0s8", Mode := "" }, DefaultNeighMac := "" }

/-- The parsed pod network 172.24.0.0/21. -/
def examplePodNet : IPNet := { IP := [172, 24, 0, 0], Mask := [255, 255, 248, 0] }

/-! ## Concrete collaborators for the examples -/

/-- The topology file of the examples: the last node block of 172.24.0.0/21
under ipvlan. -/
def exampleSubnet : GlueSubnetConf := exampleTopology "172.24.7.0/24" "ipvlan"

/-- Collaborators that decode every plugin configuration to the defaults named
`mynet`, every topology file to `exampleSubnet` and every record to type
`ipvlan`, and whose file system, delegate driver and netlink calls succeed. -/
def exampleEnv : Env :=
  { p6 := noIPv6
    decodeNetConf := fun _ n => .ok { n with CNIVersion := "0.3.1", Name := "mynet" }
    decodeSubnet := fun _ => .ok exampleSubnet
    decodeType := fun _ => .ok "ipvlan"
    marshal := fun _ => [123, 125]
    join := fun dir name => dir ++ "/" ++ name
    readErr := fun _ => none
    mkdirAllErr := fun _ => none
    writeErr := fun _ => none
    removeErr := fun _ => none
    delegateAdd := fun _ _ => .ok []
    delegateDel := fun _ _ => none
    printResultErr := fun _ _ => none
    getNSErr := fun _ => none
    parseMAC := fun _ => some [8, 96, 131, 0, 0, 0]
    linkByName := fun _ _ => .ok 2
    neighAddErr := fun _ => none }

/-- A world that holds the topology file and nothing else. -/
def exampleWorld : World :=
  { files := fun p => if p = defaultSubnetFile then some [] else none
    neighs := []
    trace := [] }

/-- The arguments of the examples: container `c1`. -/
def exampleArgs : CmdArgs := { ContainerID := "c1", Netns := "/proc/1/ns/net", StdinData := [] }

/-- Collaborators as in `exampleEnv`, except that the delegate add call fails
and the removal of a file fails. -/
def failingEnv : Env :=
  { exampleEnv with
    delegateAdd := fun _ _ => .error "delegate add failed"
    removeErr := fun _ => some "operation not permitted" }

/-- The plugin configuration that `loadNetConf exampleEnv` returns. -/
def exampleNetConf : NetConf :=
  { CNIVersion := "0.3.1", Name := "mynet",
    Delegate := some (Delegate.empty.set "cniVersion" (.str "0.3.1")),
    SubnetFile := defaultSubnetFile, DataDir := defaultDataDir }

/-- The topology that `loadGlueSubnet exampleEnv` returns: `exampleSubnet` with
the default neighbour MAC filled in. -/
def exampleLoadedSubnet : GlueSubnetConf :=
  { exampleSubnet with DefaultNeighMac := "08:60:83:00:00:00" }

/-- The delegate map that `genDelegateInfo` builds from `exampleNetConf` and
`exampleLoadedSubnet`. -/
def exampleDelegate : Delegate :=
  (((((Delegate.empty.set "cniVersion" (.str "0.3.1")).set "name" (.str "mynet")).set
    "type" (.str "ipvlan")).set "master" (.str "enp0s8")).set "cniVersion" (.str "0.3.1")).set
    "ipam" (.ipam
      { typ := "host-local"
        ranges := [[{ subnet := "172.24.0.0/21", rangeStart := "172.24.7.1",
                      rangeEnd := "172.24.7.252", gateway := "172.24.7.254" }]]
        routes := [{ Dst := { IP := IPv4 0 0 0 0, Mask := [0, 0, 0, 0] }, GW := [] },
                   { Dst := { IP := [10, 96, 0, 0], Mask := [255, 240, 0, 0] },
                     GW := IPv4 172 24 7 253 }] })

/-- Collaborators as in `exampleEnv`, except that the delegate add call fails. -/
def rejectingEnv : Env :=
  { exampleEnv with delegateAdd := fun _ _ => .error "delegate add failed" }

/-- The world after container `c1` has been attached in `exampleWorld`. -/
def attachedWorld : World := (cmdAdd exampleEnv exampleWorld exampleArgs).2

/-- The topology of `exampleSubnet` without a service network, as a topology
file that leaves out `serviceCIDR` decodes. -/
def noServiceSubnet : GlueSubnetConf := { exampleSubnet with ServiceCIDR := "" }

/-- Collaborators as in `exampleEnv`, except that the topology file decodes to
`noServiceSubnet`. -/
def noServiceEnv : Env := { exampleEnv with decodeSubnet := fun _ => .ok noServiceSubnet }

/-! ## `glued/tc-config.go`: the redirect filter -/

/-- Go `IPNet.Contains`: after `networkNumberAndMask` has brought address and
mask of the network to a common form, the address belongs to the network when
it agrees with the network number on every masked byte. -/
def IPNet.Contains (n : IPNet) (ip : List Nat) : Bool :=
  let nn4 := IP.To4 n.IP
  let nn := if nn4.length ≠ 0 then nn4 else n.IP
  if nn4.length = 0 ∧ n.IP.length ≠ 16 then false
  else if n.Mask.length = 4 ∧ nn.length ≠ 4 then false
  else if n.Mask.length ≠ 4 ∧ n.Mask.length ≠ 16 then false
  else
    let m := if n.Mask.length = 16 ∧ nn.length = 4 then n.Mask.drop 12 else n.Mask
    let x := IP.To4 ip
    let ip := if x.length ≠ 0 then x else ip
    if ip.length ≠ nn.length then false
    else List.zipWith (· &&& ·) nn m == List.zipWith (· &&& ·) ip m

/-- Go `binary.BigEndian.Uint32`: the first four bytes read big-endian; a slice
of fewer than four bytes panics. -/
def BigEndianUint32 (b : List Nat) : Outcome Nat :=
  match b with
  | b0 :: b1 :: b2 :: b3 :: _ =>
    .ok ((b3 % 256) ||| ((b2 % 256) <<< 8) ||| ((b1 % 256) <<< 16) ||| ((b0 % 256) <<< 24))
  | _ => .crash

/-- Go `netlink.FilterAttrs`. -/
structure FilterAttrs where
  LinkIndex : Nat
  Handle : Nat
  Parent : Nat
  Priority : Nat
  Protocol : Nat
  deriving DecidableEq, Repr

/-- Go `netlink.TcU32Key`. -/
structure TcU32Key where
  Mask : Nat
  Val : Nat
  Off : Nat
  OffMask : Nat
  deriving DecidableEq, Repr

/-- Go `netlink.TcU32Sel`. -/
structure TcU32Sel where
  Flags : Nat
  Nkeys : Nat
  Keys : List TcU32Key
  deriving DecidableEq, Repr

/-- Go `netlink.MirredAction`: the mirred action kind and the target interface. -/
structure MirredAction where
  MirredAction : Nat
  Ifindex : Nat
  deriving DecidableEq, Repr

/-- Go `netlink.U32`; `Sel = none` is the nil selector pointer. -/
structure U32 where
  Attrs : FilterAttrs
  Sel : Option TcU32Sel
  Actions : List MirredAction
  deriving DecidableEq, Repr

/-- Go `netlink.Filter`: a u32 filter or a filter of another kind. -/
inductive Filter where
  | u32 (f : U32)
  | generic (attrs : FilterAttrs) (kind : String)
  deriving DecidableEq, Repr

/-- Constant `unix.ETH_P_IP`. -/
def ETH_P_IP : Nat := 0x0800

/-- Constant `nl.TC_U32_TERMINAL`. -/
def TC_U32_TERMINAL : Nat := 1

/-- Constant `netlink.TCA_INGRESS_REDIR`. -/
def TCA_INGRESS_REDIR : Nat := 3

/-- Constant `netlink.HANDLE_CLSACT`. -/
def HANDLE_CLSACT : Nat := 0xFFFFFFF1

/-- Constant `netlink.HANDLE_MIN_EGRESS`. -/
def HANDLE_MIN_EGRESS : Nat := 0xFFFFFFF3

/-- The egress attachment point computed in `UpdateIpvlanTcConfig` and
`CleanTcConfig`: `HANDLE_CLSACT&0xffff0000 | HANDLE_MIN_EGRESS&0x0000ffff`. -/
def egressParent : Nat := (HANDLE_CLSACT &&& 0xffff0000) ||| (HANDLE_MIN_EGRESS &&& 0x0000ffff)

/-- `createTCU32Filter` of `tc-config.go`; a nil `ipnet` panics. -/
def createTCU32Filter (masterIndex : Nat) (ipnet : Option IPNet) : Outcome U32 :=
  match ipnet with
  | none => .crash
  | some ipnet =>
    let ip := IP.To4 (IP.Mask ipnet.IP ipnet.Mask)
    let mask := IP.To4 ipnet.Mask
    (BigEndianUint32 mask).bind fun maskInt =>
    (BigEndianUint32 ip).bind fun valInt =>
    .ok { Attrs := { LinkIndex := masterIndex, Handle := 0, Parent := 0, Priority := 40000,
                     Protocol := ETH_P_IP }
          Sel := some { Flags := TC_U32_TERMINAL, Nkeys := 1,
                        Keys := [{ Mask := maskInt, Val := valInt, Off := 16, OffMask := 0 }] }
          Actions := [] }

/-- `creatTCRedirectActions` of `tc-config.go`. -/
def creatTCRedirectActions (dstIndex : Nat) : List MirredAction :=
  [{ MirredAction := TCA_INGRESS_REDIR, Ifindex := dstIndex }]

/-- `filterMatch` of `tc-config.go`.  The first condition is evaluated left to
right: once link index and protocol agree, `len(... .Sel.Keys)` dereferences
both selectors and panics on a nil one; `Keys[0]` panics on an empty key
list. -/
def filterMatch (u32f : U32) (filter : Filter) : Outcome Bool :=
  match filter with
  | .generic _ _ => .ok false
  | .u32 tou32f =>
    if u32f.Attrs.LinkIndex ≠ tou32f.Attrs.LinkIndex ∨
        u32f.Attrs.Protocol ≠ tou32f.Attrs.Protocol then .ok false
    else
      match u32f.Sel, tou32f.Sel with
      | some sel, some tosel =>
        if sel.Keys.length ≠ tosel.Keys.length then .ok false
        else
          match sel.Keys, tosel.Keys with
          | k :: _, tk :: _ =>
            if k.Mask ≠ tk.Mask ∨ k.Off ≠ tk.Off ∨ k.Val ≠ tk.Val then .ok false
            else .ok true
          | _, _ => .crash
      | _, _ => .crash

/-! ## `glued`: devices, NAT rule and traffic control on the node -/

/-- Constant `DefaltGlueDeviceName` of `device.go`. -/
def DefaltGlueDeviceName : String := "glue"

/-- Constant `DefaultGluePREChainName` of `device.go`. -/
def DefaultGluePREChainName : String := "GLUE-PREROUTING"

/-- Go `netlink.MacvlanMode`. -/
inductive MacvlanMode where
  | DEFAULT | PRIVATE | VEPA | BRIDGE | PASSTHRU | SOURCE
  deriving DecidableEq, Repr

/-- Go `netlink.IPVlanMode`. -/
inductive IPVlanMode where
  | L2 | L3 | L3S
  deriving DecidableEq, Repr

/-- `mapMacvlanMode` of `device.go`. -/
def mapMacvlanMode (mode : String) : MacvlanMode :=
  if mode = "passthru" then .PASSTHRU
  else if mode = "private" then .PRIVATE
  else if mode = "vepa" then .VEPA
  else .BRIDGE

/-- `mapIPVlanMode` of `device.go`. -/
def mapIPVlanMode (mode : String) : IPVlanMode :=
  if mode = "l3" then .L3
  else if mode = "l3s" then .L3S
  else .L2

/-- The kind of a link: a plain device, or a `netlink.Macvlan` / `netlink.IPVlan`
with its mode. -/
inductive LinkKind where
  | device
  | macvlan (Mode : MacvlanMode)
  | ipvlan (Mode : IPVlanMode)
  deriving DecidableEq, Repr

/-- A link as the kernel holds it (`netlink.LinkAttrs` and the kind);
`Index = 0` in a link that has not been created yet. -/
structure LinkRec where
  Name : String
  Index : Nat
  ParentIndex : Nat
  Kind : LinkKind
  Promisc : Bool
  Up : Bool
  Addrs : List String
  deriving DecidableEq, Repr

/-- Calls of the daemon that change the host, in the order they are made. -/
inductive HostEvent where
  | linkDel (name : String)
  | linkAdd (link : LinkRec)
  | setPromiscOn (name : String)
  | addrAdd (name : String) (addr : String)
  | linkSetUp (name : String)
  | iptNewChain (table chain : String)
  | iptAppend (table chain : String) (rule : List String)
  | iptInsert (table chain : String) (pos : Nat) (rule : List String)
  | iptDelete (table chain : String) (rule : List String)
  | iptClearChain (table chain : String)
  | iptDeleteChain (table chain : String)
  | qdiscReplace (linkIndex : Nat) (kind : String)
  | filterDel (f : Filter)
  | filterAdd (f : Filter)
  | remove (path : String)
  | exit (code : Nat)
  deriving DecidableEq, Repr

/-- The host as the daemon sees it: links, qdiscs by link index, traffic-control
filters, chains and rules of the iptables `nat` table, the paths of the files
that exist, the exit status once the process has exited, and the calls made. -/
structure Host where
  links : List LinkRec
  qdiscs : List (Nat × String)
  filters : List Filter
  chains : List String
  rules : List (String × List String)
  files : List String
  exited : Option Nat
  trace : List HostEvent
  deriving DecidableEq, Repr

/-- Failures of the host's operations, which the daemon does not control.  A
field named `...Err` gives the error of a call, `none` meaning that the call
does not fail for an outside reason. -/
structure HostEnv where
  p6 : List Char → Option (List Nat)
  linkByNameErr : String → Option String
  linkDelErr : String → Option String
  linkAddErr : String → Option String
  setPromiscErr : String → Option String
  addrAddErr : String → Option String
  linkSetUpErr : String → Option String
  iptablesNewErr : Option String
  chainExistsErr : Option String
  newChainErr : Option String
  appendErr : Option String
  insertErr : Option String
  deleteErr : Option String
  clearChainErr : Option String
  deleteChainErr : Option String
  qdiscListErr : Option String
  qdiscReplaceErr : Option String
  filterListErr : Option String
  filterDelErr : Filter → Option String
  filterAddErr : Option String
  removeErr : String → Option String
  getenv : String → String

/-- Record one call. -/
def Host.log (h : Host) (e : HostEvent) : Host := { h with trace := h.trace ++ [e] }

/-- Go `netlink.LinkByName`. -/
def LinkByName (env : HostEnv) (h : Host) (name : String) : Except String LinkRec :=
  match env.linkByNameErr name with
  | some e => .error e
  | none =>
    match h.links.find? (fun l => l.Name = name) with
    | some l => .ok l
    | none => .error "Link not found"

/-- The link of a call whose error is discarded (`link, _ := ...`): `none` is
the nil interface value. -/
def linkOrNil (r : Except String LinkRec) : Option LinkRec :=
  match r with
  | .ok l => some l
  | .error _ => none

/-- The link a netlink call addresses: by index, or by name while the index is
still 0 (`ensureIndex`). -/
def sameLink (target l : LinkRec) : Bool :=
  if target.Index = 0 then l.Name = target.Name else l.Index = target.Index

/-- The index the kernel gives to a new link. -/
def freshIndex (links : List LinkRec) : Nat := (links.map (fun l => l.Index)).foldl max 0 + 1

/-- Go `netlink.LinkDel`. -/
def LinkDel (env : HostEnv) (h : Host) (link : LinkRec) : Outcome Unit × Host :=
  let h1 := h.log (.linkDel link.Name)
  match env.linkDelErr link.Name with
  | some e => (.error e, h1)
  | none => (.ok (), { h1 with links := h1.links.filter (fun l => !sameLink link l) })

/-- Go `netlink.LinkAdd`: fails when the name is taken. -/
def LinkAdd (env : HostEnv) (h : Host) (link : LinkRec) : Outcome Unit × Host :=
  let h1 := h.log (.linkAdd link)
  match env.linkAddErr link.Name with
  | some e => (.error e, h1)
  | none =>
    if h1.links.any (fun l => l.Name = link.Name) then (.error "file exists", h1)
    else (.ok (), { h1 with links := h1.links ++ [{ link with Index := freshIndex h1.links }] })

/-- Go `netlink.SetPromiscOn`. -/
def SetPromiscOn (env : HostEnv) (h : Host) (link : LinkRec) : Outcome Unit × Host :=
  let h1 := h.log (.setPromiscOn link.Name)
  match env.setPromiscErr link.Name with
  | some e => (.error e, h1)
  | none =>
    (.ok (), { h1 with links := h1.links.map (fun l =>
      if sameLink link l then { l with Promisc := true } else l) })

/-- Go `netlink.AddrAdd` with the address in text form. -/
def AddrAdd (env : HostEnv) (h : Host) (link : LinkRec) (addr : String) : Outcome Unit × Host :=
  let h1 := h.log (.addrAdd link.Name addr)
  match env.addrAddErr link.Name with
  | some e => (.error e, h1)
  | none =>
    (.ok (), { h1 with links := h1.links.map (fun l =>
      if sameLink link l then { l with Addrs := l.Addrs ++ [addr] } else l) })

/-- Go `netlink.LinkSetUp`. -/
def LinkSetUp (env : HostEnv) (h : Host) (link : LinkRec) : Outcome Unit × Host :=
  let h1 := h.log (.linkSetUp link.Name)
  match env.linkSetUpErr link.Name with
  | some e => (.error e, h1)
  | none =>
    (.ok (), { h1 with links := h1.links.map (fun l =>
      if sameLink link l then { l with Up := true } else l) })

/-- `CleanDevices` of `device.go`. -/
def CleanDevices (env : HostEnv) (h : Host) : Outcome Unit × Host :=
  match LinkByName env h DefaltGlueDeviceName with
  | .error _ => (.ok (), h)
  | .ok link => LinkDel env h link

/-- `AddDevice` of `device.go`.  Inside the macvlan branch the name `link` is
declared again for the new macvlan link, and `netlink.SetPromiscOn(link)` is
called with that link; its result is discarded. -/
def AddDevice (env : HostEnv) (h : Host) (conf : GlueSubnetConf) : Outcome Unit × Host :=
  match LinkByName env h conf.Master.Master with
  | .error e => (.error e, h)
  | .ok link =>
    let la : LinkRec :=
      { Name := DefaltGlueDeviceName, Index := 0, ParentIndex := link.Index, Kind := .device,
        Promisc := false, Up := false, Addrs := [] }
    if conf.Master.Typ = "macvlan" then
      let link : LinkRec := { la with Kind := .macvlan (mapMacvlanMode conf.Master.Mode) }
      match LinkAdd env h link with
      | (.error e, h1) => (.error e, h1)
      | (.crash, h1) => (.crash, h1)
      | (.ok _, h1) => (.ok (), (SetPromiscOn env h1 link).2)
    else if conf.Master.Typ = "ipvlan" then
      let link : LinkRec := { la with Kind := .ipvlan (mapIPVlanMode conf.Master.Mode) }
      match LinkAdd env h link with
      | (.error e, h1) => (.error e, h1)
      | (.crash, h1) => (.crash, h1)
      | (.ok _, h1) => (.ok (), h1)
    else (.error "Unsupported device type", h)

/-- `UpdateIptables` of `device.go`. -/
def UpdateIptables (env : HostEnv) (h : Host) (conf : GlueSubnetConf) : Outcome Unit × Host :=
  match env.iptablesNewErr with
  | some e => (.error e, h)
  | none =>
    if env.chainExistsErr = none ∧ DefaultGluePREChainName ∈ h.chains then (.ok (), h)
    else
      let h1 := h.log (.iptNewChain "nat" DefaultGluePREChainName)
      match env.newChainErr with
      | some e => (.error e, h1)
      | none =>
        if DefaultGluePREChainName ∈ h1.chains then (.error "Chain already exists.", h1)
        else
          let h2 := { h1 with chains := h1.chains ++ [DefaultGluePREChainName] }
          let rule := ["-s", conf.NodeCIDR, "-d", conf.ServiceCIDR, "-i", DefaltGlueDeviceName,
            "-j", "KUBE-MARK-MASQ"]
          let h3 := h2.log (.iptAppend "nat" DefaultGluePREChainName rule)
          match env.appendErr with
          | some e => (.error e, h3)
          | none =>
            let h4 := { h3 with rules := h3.rules ++ [(DefaultGluePREChainName, rule)] }
            let h5 := h4.log (.iptInsert "nat" "PREROUTING" 1 ["-j", DefaultGluePREChainName])
            match env.insertErr with
            | some e => (.error e, h5)
            | none =>
              (.ok (), { h5 with rules :=
                ("PREROUTING", ["-j", DefaultGluePREChainName]) :: h5.rules })

/-- `CleanIptables` of `device.go`: the results of the three calls are
discarded. -/
def CleanIptables (env : HostEnv) (h : Host) : Outcome Unit × Host :=
  match env.iptablesNewErr with
  | some e => (.error e, h)
  | none =>
    let h1 := h.log (.iptDelete "nat" "PREROUTING" ["-j", DefaultGluePREChainName])
    let h2 := match env.deleteErr with
      | some _ => h1
      | none => { h1 with rules := h1.rules.erase ("PREROUTING", ["-j", DefaultGluePREChainName]) }
    let h3 := h2.log (.iptClearChain "nat" DefaultGluePREChainName)
    let h4 := match env.clearChainErr with
      | some _ => h3
      | none =>
        if DefaultGluePREChainName ∈ h3.chains then
          { h3 with rules := h3.rules.filter (fun r => r.1 ≠ DefaultGluePREChainName) }
        else { h3 with chains := h3.chains ++ [DefaultGluePREChainName] }
    let h5 := h4.log (.iptDeleteChain "nat" DefaultGluePREChainName)
    let h6 := match env.deleteChainErr with
      | some _ => h5
      | none => { h5 with chains := h5.chains.filter (fun c => c ≠ DefaultGluePREChainName) }
    (.ok (), h6)

/-- The attributes of a filter. -/
def Filter.attrs : Filter → FilterAttrs
  | .u32 f => f.Attrs
  | .generic a _ => a

/-- What `netlink.FilterList(link, parent)` reports of a filter: it is on the
link at the attachment point, and a u32 filter is reported only together with
its selector. -/
def listed (link : LinkRec) (parent : Nat) (f : Filter) : Bool :=
  decide (f.attrs.LinkIndex = link.Index) && decide (f.attrs.Parent = parent) &&
    match f with
    | .u32 u => u.Sel.isSome
    | .generic _ _ => true

/-- Go `netlink.FilterList(link, parent)`. -/
def FilterList (env : HostEnv) (h : Host) (link : LinkRec) (parent : Nat) :
    Except String (List Filter) :=
  match env.filterListErr with
  | some e => .error e
  | none => .ok (h.filters.filter (listed link parent))

/-- Go `netlink.FilterDel`: the filter given is removed, as `FilterList`
returned it.  A request that equals no filter of the host, like the one of
`CleanTcConfig` that names neither handle nor priority, is recorded in the
trace and leaves the filters as they are. -/
def FilterDel (env : HostEnv) (h : Host) (f : Filter) : Outcome Unit × Host :=
  let h1 := h.log (.filterDel f)
  match env.filterDelErr f with
  | some e => (.error e, h1)
  | none => (.ok (), { h1 with filters := h1.filters.filter (fun g => g ≠ f) })

/-- Go `netlink.FilterAdd`. -/
def FilterAdd (env : HostEnv) (h : Host) (f : Filter) : Outcome Unit × Host :=
  let h1 := h.log (.filterAdd f)
  match env.filterAddErr with
  | some e => (.error e, h1)
  | none => (.ok (), { h1 with filters := h1.filters ++ [f] })

/-- `addClsact` of `tc-config.go`; `link = none` is the nil link, whose
`Attrs()` panics. -/
def addClsact (env : HostEnv) (h : Host) (link : Option LinkRec) : Outcome Unit × Host :=
  match env.qdiscListErr with
  | some e =>
    match link with
    | none => (.crash, h)
    | some l => (.error ("list qdisc for dev " ++ l.Name ++ " error, " ++ e), h)
  | none =>
    let qds := match link with
      | none => h.qdiscs
      | some l => h.qdiscs.filter (fun q => q.1 = l.Index)
    if qds.any (fun q => q.2 = "clsact") then (.ok (), h)
    else
      match link with
      | none => (.crash, h)
      | some l =>
        let h1 := h.log (.qdiscReplace l.Index "clsact")
        match env.qdiscReplaceErr with
        | some e => (.error ("replace clsact qdisc for dev " ++ l.Name ++ " error, " ++ e), h1)
        | none => (.ok (), { h1 with qdiscs := h1.qdiscs ++ [(l.Index, "clsact")] })

/-- The loop of `UpdateIpvlanTcConfig` over the listed filters: every filter
that matches the new one is deleted, the result of `FilterDel` discarded. -/
def deleteMatching (env : HostEnv) (u32Filter : U32) : List Filter → Host → Outcome Unit × Host
  | [], h => (.ok (), h)
  | filter :: rest, h =>
    match filterMatch u32Filter filter with
    | .crash => (.crash, h)
    | .error e => (.error e, h)
    | .ok true => deleteMatching env u32Filter rest (FilterDel env h filter).2
    | .ok false => deleteMatching env u32Filter rest h

/-- `UpdateIpvlanTcConfig` of `tc-config.go`.  The errors of both `LinkByName`
calls and of `ParseCIDR` are discarded; a nil link or network panics where it
is used. -/
def UpdateIpvlanTcConfig (env : HostEnv) (h : Host) (conf : GlueSubnetConf) :
    Outcome Unit × Host :=
  let link := linkOrNil (LinkByName env h conf.Master.Master)
  let linkto := linkOrNil (LinkByName env h DefaltGlueDeviceName)
  match addClsact env h link with
  | (.error e, h1) => (.error ("ERROR: add clsact failed - " ++ e ++ "\n"), h1)
  | (.crash, h1) => (.crash, h1)
  | (.ok _, h1) =>
    let svcnet := ParseCIDR env.p6 conf.ServiceCIDR
    match link with
    | none => (.crash, h1)
    | some link =>
      match createTCU32Filter link.Index svcnet with
      | .crash => (.crash, h1)
      | .error e => (.error e, h1)
      | .ok u32Filter =>
        match linkto with
        | none => (.crash, h1)
        | some linkto =>
          let u32Filter := { u32Filter with Actions := creatTCRedirectActions linkto.Index }
          let parent := egressParent
          match FilterList env h1 link parent with
          | .error e => (.error ("list egress filter for " ++ link.Name ++ " error, " ++ e), h1)
          | .ok filters =>
            match deleteMatching env u32Filter filters h1 with
            | (.crash, h2) => (.crash, h2)
            | (.error e, h2) => (.error e, h2)
            | (.ok _, h2) =>
              let u32Filter := { u32Filter with Attrs := { u32Filter.Attrs with Parent := parent } }
              match FilterAdd env h2 (.u32 u32Filter) with
              | (.error e, h3) =>
                (.error ("add filter for " ++ link.Name ++ " error, " ++ e), h3)
              | (.crash, h3) => (.crash, h3)
              | (.ok _, h3) => (.ok (), h3)

/-- The loop of Go `simpleMaskLength` that counts the leading one bits of a
byte and returns what is left of the byte. -/
def leadingOnes : Nat → Nat → Nat × Nat
  | 0, v => (0, v)
  | fuel + 1, v =>
    if v &&& 0x80 ≠ 0 then
      let r := leadingOnes fuel ((v <<< 1) % 256)
      (r.1 + 1, r.2)
    else (0, v)

/-- Go `simpleMaskLength`: the prefix length of a canonical mask, `none` (Go's
-1) for any other mask.  Eight steps exhaust the bits of a byte. -/
def simpleMaskLength : List Nat → Nat → Option Nat
  | [], n => some n
  | v :: rest, n =>
    if v = 0xff then simpleMaskLength rest (n + 8)
    else
      let r := leadingOnes 8 (v % 256)
      if r.2 ≠ 0 then none
      else if rest.all (fun b => b == 0) then some (n + r.1)
      else none

/-- Two lower-case hexadecimal digits of a byte (Go `IPMask.String`). -/
def hexByte (b : Nat) : String :=
  String.mk [Nat.digitChar (b / 16 % 16), Nat.digitChar (b % 16)]

/-- Go `IPNet.String`. -/
def IPNet.String (n : IPNet) : String :=
  let nn4 := IP.To4 n.IP
  let nn := if nn4.length ≠ 0 then nn4 else n.IP
  if nn4.length = 0 ∧ n.IP.length ≠ 16 then "<nil>"
  else if n.Mask.length = 4 ∧ nn.length ≠ 4 then "<nil>"
  else if n.Mask.length ≠ 4 ∧ n.Mask.length ≠ 16 then "<nil>"
  else
    let m := if n.Mask.length = 16 ∧ nn.length = 4 then n.Mask.drop 12 else n.Mask
    match simpleMaskLength m 0 with
    | none => Glue.IP.String nn ++ "/" ++ String.join (m.map hexByte)
    | some l => Glue.IP.String nn ++ "/" ++ toString l

/-- `UpdateGlueDev` of `device.go`.  A failing `AddrAdd` is only printed, the
results of `LinkSetUp` and of `UpdateIptables` are discarded.  The text of the
node address is parsed again by `netlink.ParseAddr`, its error discarded; a nil
address or a nil `myip` panics where it is used. -/
def UpdateGlueDev (env : HostEnv) (h : Host) (conf : GlueSubnetConf) : Outcome Unit × Host :=
  match CleanDevices env h with
  | (.error e, h1) => (.error ("ERROR: CleanDevices old config fail - " ++ e ++ "\n"), h1)
  | (.crash, h1) => (.crash, h1)
  | (.ok _, h1) =>
    match AddDevice env h1 conf with
    | (.error e, h2) => (.error ("ERROR: Add glue device fail, err=" ++ e ++ "\n"), h2)
    | (.crash, h2) => (.crash, h2)
    | (.ok _, h2) =>
      match LinkByName env h2 DefaltGlueDeviceName with
      | .error e => (.error e, h2)
      | .ok glueDev =>
        match getNetInfo env.p6 conf with
        | .error e => (.error e, h2)
        | .crash => (.crash, h2)
        | .ok ni =>
          match ParseCIDR env.p6 conf.PodCIDR with
          | none => (.crash, h2)
          | some myip =>
            let myip : IPNet := { myip with IP := ni.nodeIP }
            match ParseCIDR env.p6 myip.String with
            | none => (.crash, h2)
            | some _ =>
              let h3 := (AddrAdd env h2 glueDev myip.String).2
              let h4 := (LinkSetUp env h3 glueDev).2
              let h5 := (UpdateIptables env h4 conf).2
              if conf.Master.Typ = "ipvlan" then
                match UpdateIpvlanTcConfig env h5 conf with
                | (.error _, h6) => (.error "update ipvlan paras failed\n", h6)
                | (.crash, h6) => (.crash, h6)
                | (.ok _, h6) => (.ok (), h6)
              else (.ok (), h5)

/-- `CleanTcConfig` of `tc-config.go`, reading the global `subnetConf`.  The
error of `LinkByName` is discarded, and `link.Attrs()` panics on the nil
link. -/
def CleanTcConfig (env : HostEnv) (h : Host) (subnetConf : GlueSubnetConf) :
    Outcome Unit × Host :=
  match linkOrNil (LinkByName env h subnetConf.Master.Master) with
  | none => (.crash, h)
  | some link =>
    let filter : Filter := .u32
      { Attrs := { LinkIndex := link.Index, Handle := 0, Parent := egressParent, Priority := 0,
                   Protocol := 0 }
        Sel := none
        Actions := [] }
    (.ok (), (FilterDel env h filter).2)

/-- Go `os.Signal`, the signals `tearDown` tells apart. -/
inductive Signal where
  | SIGHUP | SIGINT | SIGTERM | SIGQUIT
  | other (n : Nat)
  deriving DecidableEq, Repr

/-- The globals of `main.go` that `tearDown` reads; `argSubnetFile = none` is
the nil pointer before `parseArg` has run. -/
structure Globals where
  subnetConf : GlueSubnetConf
  argSubnetFile : Option String
  deriving DecidableEq, Repr

/-- Go `os.Remove` in the daemon; every caller discards or only prints its
error. -/
def hostRemove (env : HostEnv) (h : Host) (path : String) : Host :=
  let h1 := h.log (.remove path)
  match env.removeErr path with
  | some _ => h1
  | none => { h1 with files := h1.files.filter (fun p => p ≠ path) }

/-- Go `strings.Split` with a separator of one character. -/
def splitOnChar (sep : Char) : List Char → List (List Char)
  | [] => [[]]
  | c :: rest =>
    if c = sep then [] :: splitOnChar sep rest
    else
      match splitOnChar sep rest with
      | [] => [[c]]
      | p :: ps => (c :: p) :: ps

/-- The loop of `tearDown` over the pairs of `GLUE_FILES_TO_COPY_ON_BOOT`. -/
def removeCopied (env : HostEnv) : List (List Char) → Host → Host
  | [], h => h
  | pair :: rest, h =>
    match splitOnChar ':' pair with
    | [_, dst] => removeCopied env rest (hostRemove env h (String.mk dst))
    | _ => removeCopied env rest h

/-- `tearDown` of `main.go`.  `os.Exit(0)` is the last call: the exit status is
recorded in the host.  The results of `CleanDevices` and `CleanIptables` are
discarded; a panic in `CleanTcConfig` ends the run. -/
def tearDown (env : HostEnv) (h : Host) (g : Globals) (s : Signal) : Outcome Unit × Host :=
  match s with
  | .other _ => (.ok (), h)
  | _ =>
    let h1 := (CleanDevices env h).2
    let h2 := (CleanIptables env h1).2
    match CleanTcConfig env h2 g.subnetConf with
    | (.crash, h3) => (.crash, h3)
    | (_, h3) =>
      match g.argSubnetFile with
      | none => (.crash, h3)
      | some file =>
        let h4 := hostRemove env h3 file
        let copied := env.getenv "GLUE_FILES_TO_COPY_ON_BOOT"
        let h5 := if copied ≠ "" then removeCopied env (splitOnChar ',' copied.toList) h4 else h4
        (.ok (), { (h5.log (.exit 0)) with exited := some 0 })

/-! ## A concrete host for the examples -/

/-- Host operations that never fail for an outside reason. -/
def quietHostEnv : HostEnv :=
  { p6 := noIPv6
    linkByNameErr := fun _ => none
    linkDelErr := fun _ => none
    linkAddErr := fun _ => none
    setPromiscErr := fun _ => none
    addrAddErr := fun _ => none
    linkSetUpErr := fun _ => none
    iptablesNewErr := none
    chainExistsErr := none
    newChainErr := none
    appendErr := none
    insertErr := none
    deleteErr := none
    clearChainErr := none
    deleteChainErr := none
    qdiscListErr := none
    qdiscReplaceErr := none
    filterListErr := none
    filterDelErr := fun _ => none
    filterAddErr := none
    removeErr := fun _ => none
    getenv := fun _ => "" }

/-- A host with the master interface `enp0s8` (index 2) and the topology file. -/
def exampleHost : Host :=
  { links := [{ Name := "enp0s8", Index := 2, ParentIndex := 0, Kind := .device,
                Promisc := false, Up := true, Addrs := [] }]
    qdiscs := []
    filters := []
    chains := ["PREROUTING", "POSTROUTING"]
    rules := []
    files := [defaultSubnetFile]
    exited := none
    trace := [] }

/-- The ipvlan topology of the examples in `main.go`: node block 172.24.6.0/24
of 172.24.0.0/21 with service network 172.23.0.0/24. -/
def ipvlanExample : GlueSubnetConf :=
  { PodCIDR := "172.24.0.0/21", ServiceCIDR := "172.23.0.0/24", NodeCIDR := "172.24.6.0/24",
    Master := { Typ := "ipvlan", Master := "enp0s8", Mode := "l2" },
    DefaultNeighMac := "00:11:11:22:22:33" }

/-- The macvlan topology of the examples in `main.go`. -/
def macvlanExample : GlueSubnetConf :=
  { PodCIDR := "172.24.0.0/21", ServiceCIDR := "", NodeCIDR := "172.24.0.0/24",
    Master := { Typ := "macvlan", Master := "enp0s8", Mode := "bridge" },
    DefaultNeighMac := "" }

/-- The example host after one pass of the reconciler for the ipvlan topology,
nothing failing. -/
def convergedHost : Host := (UpdateGlueDev quietHostEnv exampleHost ipvlanExample).2

/-- Host operations of which only the address assignment fails. -/
def addrFailingEnv : HostEnv :=
  { quietHostEnv with addrAddErr := fun _ => some "permission denied" }

/-- Host operations of which only the creation of the NAT chain fails. -/
def natFailingEnv : HostEnv :=
  { quietHostEnv with newChainErr := some "exit status 3: Permission denied" }

/-- Host operations of which only the deletion of a link fails. -/
def delFailingEnv : HostEnv :=
  { quietHostEnv with linkDelErr := fun _ => some "operation not permitted" }

/-- Host operations of which only the lookup of the master interface fails. -/
def masterLostEnv : HostEnv :=
  { quietHostEnv with
    linkByNameErr := fun n => if n = "enp0s8" then some "Link not found" else none }

/-- The globals of the daemon while it serves the ipvlan topology. -/
def exampleGlobals : Globals :=
  { subnetConf := ipvlanExample, argSubnetFile := some defaultSubnetFile }

/-- The converged example host with three filters on the egress of the master
interface: a filter of another kind, a copy of the filter the daemon installs
as the kernel lists it, and a u32 filter for another destination block. -/
def crowdedHost : Host :=
  { convergedHost with
    filters :=
      [.generic { LinkIndex := 2, Handle := 1, Parent := egressParent, Priority := 10,
                  Protocol := ETH_P_IP } "bpf",
       .u32 { Attrs := { LinkIndex := 2, Handle := 0x80000800, Parent := egressParent,
                         Priority := 40000, Protocol := ETH_P_IP }
              Sel := some { Flags := TC_U32_TERMINAL, Nkeys := 1,
                            Keys := [{ Mask := 0xFFFFFF00, Val := 0xAC170000, Off := 16,
                                       OffMask := 0 }] }
              Actions := [{ MirredAction := TCA_INGRESS_REDIR, Ifindex := 3 }] },
       .u32 { Attrs := { LinkIndex := 2, Handle := 0x80100800, Parent := egressParent,
                         Priority := 40001, Protocol := ETH_P_IP }
              Sel := some { Flags := TC_U32_TERMINAL, Nkeys := 1,
                            Keys := [{ Mask := 0xFFFF0000, Val := 0x0A000000, Off := 16,
                                       OffMask := 0 }] }
              Actions := [{ MirredAction := TCA_INGRESS_REDIR, Ifindex := 3 }] }] }

/-! ## Vocabulary of the filter properties (specification, section 4.3) -/

/-- What the specification compares of a key: mask, offset and value. -/
def keyCriteria (k : TcU32Key) : Nat × Nat × Nat := (k.Mask, k.Off, k.Val)

/-- The specification's "identical match criteria" (section 4.3, step 3): `f` is
a u32 filter with the same link, the same protocol, the same key count and, key
by key, the same mask, offset and value as `u`.  Written from the words of the
specification, to be compared with `filterMatch`. -/
def sameMatchCriteria (u : U32) (f : Filter) : Bool :=
  match f with
  | .generic _ _ => false
  | .u32 t =>
    match u.Sel, t.Sel with
    | some sel, some tsel =>
      decide (u.Attrs.LinkIndex = t.Attrs.LinkIndex ∧ u.Attrs.Protocol = t.Attrs.Protocol ∧
        sel.Keys.length = tsel.Keys.length ∧
        sel.Keys.map keyCriteria = tsel.Keys.map keyCriteria)
    | _, _ => false

/-! ## Theorems

### Bit-level and parsing lemmas -/

theorem shl_or_bytes (a b c d : Nat) (ha : a < 256) (hb : b < 256) (hc : c < 256) (hd : d < 256) :
    ((a % 256) <<< 24) ||| ((b % 256) <<< 16) ||| ((c % 256) <<< 8) ||| (d % 256)
      = a * 2 ^ 24 + b * 2 ^ 16 + c * 2 ^ 8 + d := by
  rw [Nat.mod_eq_of_lt ha, Nat.mod_eq_of_lt hb, Nat.mod_eq_of_lt hc, Nat.mod_eq_of_lt hd]
  simp only [Nat.shiftLeft_eq]
  have h1 : a * 2 ^ 24 ||| b * 2 ^ 16 = 2 ^ 16 * (a * 2 ^ 8 + b) := by
    have := Nat.mul_add_lt_is_or (i := 24) (b := b * 2 ^ 16) (by omega) a
    rw [Nat.mul_comm (2 ^ 24) a] at this
    rw [← this]; ring
  have h2 : 2 ^ 16 * (a * 2 ^ 8 + b) ||| c * 2 ^ 8 = 2 ^ 8 * (a * 2 ^ 16 + b * 2 ^ 8 + c) := by
    have := Nat.mul_add_lt_is_or (i := 16) (b := c * 2 ^ 8) (by omega) (a * 2 ^ 8 + b)
    rw [← this]; ring
  rw [h1, h2, ← Nat.mul_add_lt_is_or (by omega)]
  ring

set_option maxRecDepth 100000 in
theorem and_maskByte : ∀ k : Fin 9, ∀ a : Fin 256,
    a.val &&& cidrMaskByte k.val = a.val / 2 ^ (8 - k.val) * 2 ^ (8 - k.val) := by
  decide

theorem not32_eq (x : Nat) (hx : x < 2 ^ 32) : not32 x = 2 ^ 32 - 1 - x := by
  unfold not32
  rw [Nat.mod_eq_of_lt hx]
  apply Nat.eq_of_testBit_eq
  intro i
  have h : 2 ^ 32 - 1 - x = 2 ^ 32 - (x + 1) := by omega
  rw [h, Nat.testBit_two_pow_sub_succ hx, Nat.testBit_xor]
  have : (0xFFFFFFFF : Nat) = 2 ^ 32 - 1 := by norm_num
  rw [this, Nat.testBit_two_pow_sub_one]
  by_cases hi : i < 32
  · simp [hi]
  · simp [hi]
    exact Nat.testBit_lt_two_pow (lt_of_lt_of_le hx (Nat.pow_le_pow_right (by norm_num) (by omega)))

theorem Uint32ToIpv4_eq (x : Nat) : Uint32ToIpv4 x = ipOfUint32 x := by
  simp [Uint32ToIpv4, ipOfUint32, Nat.shiftRight_eq_div_pow]
theorem parseIPv4Fields_bound (s : List Char) : ∀ (val dl : Nat) (fs out : List Nat),
    parseIPv4Fields s val dl fs = some out → val ≤ 255 → (∀ x ∈ fs, x ≤ 255) →
    ∀ x ∈ out, x ≤ 255 := by
  induction s with
  | nil =>
    intro val dl fs out h hv hf x hx
    simp only [parseIPv4Fields] at h
    split at h
    · cases h
    · cases h
      rcases List.mem_append.1 hx with h1 | h1
      · exact hf x h1
      · simp at h1; omega
  | cons c rest ih =>
    intro val dl fs out h hv hf
    simp only [parseIPv4Fields] at h
    split at h
    · split at h
      · cases h
      · split at h
        · cases h
        · exact ih _ _ _ _ h (by omega) hf
    · split at h
      · split at h
        · cases h
        · split at h
          · cases h
          · refine ih _ _ _ _ h (by omega) ?_
            intro x hx
            rcases List.mem_append.1 hx with h1 | h1
            · exact hf x h1
            · simp at h1; omega
      · cases h

theorem parseIPv4_bound (s : List Char) (ad : Addr) (h : parseIPv4 s = some ad) :
    ∃ a b c d, ad = .v4 a b c d ∧ a < 256 ∧ b < 256 ∧ c < 256 ∧ d < 256 := by
  unfold parseIPv4 at h
  split at h
  · next a b c d heq =>
    cases h
    have hb := parseIPv4Fields_bound s 0 0 [] _ heq (by omega) (by simp)
    have ha := hb a (by simp)
    have hb' := hb b (by simp)
    have hc := hb c (by simp)
    have hd := hb d (by simp)
    exact ⟨a, b, c, d, rfl, by omega, by omega, by omega, by omega⟩
  · cases h

theorem parseAddrFrom_cases (p6 : List Char → Option (List Nat)) (s : List Char) :
    ∀ (t : List Char) (ad : Addr), parseAddrFrom p6 s t = some ad →
    (∃ a b c d, ad = .v4 a b c d ∧ a < 256 ∧ b < 256 ∧ c < 256 ∧ d < 256) ∨ ∃ bs, ad = .v6 bs := by
  intro t
  induction t with
  | nil => intro ad h; simp [parseAddrFrom] at h
  | cons c rest ih =>
    intro ad h
    simp only [parseAddrFrom] at h
    split at h
    · exact Or.inl (parseIPv4_bound s ad h)
    · split at h
      · right
        cases hp : p6 s with
        | none => simp [hp] at h
        | some bs => simp [hp] at h; exact ⟨bs, h.symm⟩
      · split at h
        · cases h
        · exact ih ad h

theorem CIDRMask_32 (n : Nat) (hn : n ≤ 32) :
    CIDRMask n 32 = [cidrMaskByte n, cidrMaskByte (n - 8), cidrMaskByte (n - 8 - 8),
      cidrMaskByte (n - 8 - 8 - 8)] := by
  unfold CIDRMask
  simp [show ¬ n > 32 by omega, cidrMaskLoop]

theorem CIDRMask_128_length (n : Nat) (hn : n ≤ 128) : (CIDRMask n 128).length = 16 := by
  unfold CIDRMask
  simp [show ¬ n > 128 by omega, cidrMaskLoop]

theorem IP_Mask_v4 (a b c d m0 m1 m2 m3 : Nat) :
    IP.Mask (IPv4 a b c d) [m0, m1, m2, m3] = [a &&& m0, b &&& m1, c &&& m2, d &&& m3] := by
  simp [IP.Mask, IPv4, v4InV6Prefix]

theorem ParseCIDR_v4 (p6 : List Char → Option (List Nat)) (s : String) (net : IPNet)
    (h : ParseCIDR p6 s = some net) (h4 : net.Mask.length = 4) :
    ∃ a b c d n, a < 256 ∧ b < 256 ∧ c < 256 ∧ d < 256 ∧ n ≤ 32 ∧
      net = { IP := IP.Mask (IPv4 a b c d) (CIDRMask n 32), Mask := CIDRMask n 32 } := by
  unfold ParseCIDR at h
  split at h
  · cases h
  · next addr mask _ =>
    split at h
    · cases h
    · next ipAddr hp =>
      simp only at h
      split at h
      · cases h
      · next hc =>
        simp only [not_or, not_not, Nat.not_lt] at hc
        cases h
        rcases parseAddrFrom_cases p6 addr addr ipAddr hp with ⟨a, b, c, d, rfl, ha, hb, hc', hd⟩ | ⟨bs, rfl⟩
        · exact ⟨a, b, c, d, (dtoi mask).1, ha, hb, hc', hd, by simpa [Addr.BitLen] using hc.2.2, rfl⟩
        · exfalso
          have := CIDRMask_128_length (dtoi mask).1 (by simpa [Addr.BitLen] using hc.2.2)
          simp [Addr.BitLen] at h4
          omega

theorem and_cidrMaskByte (a m : Nat) (ha : a < 256) :
    a &&& cidrMaskByte m = a / 2 ^ (8 - m) * 2 ^ (8 - m) := by
  by_cases hm : m ≥ 8
  · have h := and_maskByte ⟨8, by omega⟩ ⟨a, ha⟩
    have e : cidrMaskByte m = cidrMaskByte 8 := by simp [cidrMaskByte, hm]
    have e2 : 8 - m = 8 - 8 := by omega
    rw [e, e2]; exact h
  · exact and_maskByte ⟨m, by omega⟩ ⟨a, ha⟩

theorem cidrMaskByte_lt (m : Nat) : cidrMaskByte m < 256 := by
  unfold cidrMaskByte
  split
  · norm_num
  · exact Nat.lt_of_le_of_lt (Nat.sub_le _ _) (by norm_num)

theorem beUint32_CIDRMask : ∀ n : Fin 33,
    beUint32 (CIDRMask n.val 32) = 2 ^ 32 - 2 ^ (32 - n.val) := by
  decide

theorem beUint32_masked (a b c d n : Nat) (ha : a < 256) (hb : b < 256) (hc : c < 256)
    (hd : d < 256) (hn : n ≤ 32) :
    beUint32 (IP.Mask (IPv4 a b c d) (CIDRMask n 32))
      = beUint32 [a, b, c, d] / 2 ^ (32 - n) * 2 ^ (32 - n) := by
  rw [CIDRMask_32 n hn, IP_Mask_v4, and_cidrMaskByte a _ ha, and_cidrMaskByte b _ hb,
    and_cidrMaskByte c _ hc, and_cidrMaskByte d _ hd]
  simp only [beUint32]
  interval_cases n <;> norm_num <;> omega

/-- What `ParseCIDR` guarantees about an IPv4 block: the shape of its mask, the
alignment of its network address, and the values `getNetInfo` reads from it. -/
theorem v4_block_facts (p6 : List Char → Option (List Nat)) (s : String) (net : IPNet)
    (h : ParseCIDR p6 s = some net) (h4 : net.Mask.length = 4) :
    ∃ n, n ≤ 32 ∧ net.Mask = CIDRMask n 32 ∧ netSpan net = 2 ^ (32 - n) - 1 ∧
      netBase net % 2 ^ (32 - n) = 0 ∧ netBase net + netSpan net < 2 ^ 32 ∧
      Ipv4ToUint32 net.IP = .ok (netBase net) ∧
      Ipv4ToUint32 net.Mask = .ok (2 ^ 32 - 1 - netSpan net) := by
  obtain ⟨a, b, c, d, n, ha, hb, hc, hd, hn, rfl⟩ := ParseCIDR_v4 p6 s net h h4
  have hm := beUint32_CIDRMask ⟨n, by omega⟩
  simp only at hm
  have hbase := beUint32_masked a b c d n ha hb hc hd hn
  have hpos : 0 < 2 ^ (32 - n) := by positivity
  have hle : 2 ^ (32 - n) ≤ 2 ^ 32 := Nat.pow_le_pow_right (by norm_num) (by omega)
  have hX : beUint32 [a, b, c, d] < 2 ^ 32 := by simp only [beUint32]; omega
  have hdvd : 2 ^ (32 - n) ∣ 2 ^ 32 := Nat.pow_dvd_pow 2 (by omega)
  refine ⟨n, hn, rfl, ?_, ?_, ?_, ?_, ?_⟩
  · simp only [netSpan, hm]; omega
  · simp only [netBase, hbase]; exact Nat.mul_mod_left _ _
  · simp only [netBase, netSpan, hbase, hm]
    obtain ⟨q, hq⟩ := hdvd
    have h1 : beUint32 [a, b, c, d] / 2 ^ (32 - n) < q := by
      rw [Nat.div_lt_iff_lt_mul hpos]; rw [Nat.mul_comm]; omega
    have h2 : (beUint32 [a, b, c, d] / 2 ^ (32 - n) + 1) * 2 ^ (32 - n) ≤ q * 2 ^ (32 - n) :=
      Nat.mul_le_mul_right _ h1
    rw [Nat.mul_comm q] at h2
    rw [Nat.add_mul] at h2
    omega
  · rw [CIDRMask_32 n hn, IP_Mask_v4]
    simp only [Ipv4ToUint32, netBase, IP_Mask_v4, beUint32]
    rw [shl_or_bytes]
    all_goals exact Nat.lt_of_le_of_lt Nat.and_le_left (by assumption)
  · have e : 2 ^ 32 - 1 - netSpan ⟨IP.Mask (IPv4 a b c d) (CIDRMask n 32), CIDRMask n 32⟩
        = beUint32 (CIDRMask n 32) := by
      simp only [netSpan, hm]; omega
    rw [e, CIDRMask_32 n hn]
    simp only [Ipv4ToUint32, beUint32]
    rw [shl_or_bytes]
    all_goals exact cidrMaskByte_lt _

theorem getNetInfo_of_v4 (p6 : List Char → Option (List Nat)) (subnet : GlueSubnetConf)
    (nodeNet podNet : IPNet)
    (hn : ParseCIDR p6 subnet.NodeCIDR = some nodeNet) (hn4 : nodeNet.Mask.length = 4)
    (hp : ParseCIDR p6 subnet.PodCIDR = some podNet) (hp4 : podNet.Mask.length = 4) :
    getNetInfo p6 subnet = .ok (referencePlan (netBase nodeNet) (netSpan nodeNet)
      (netBase podNet) (netSpan podNet) subnet.Master.Typ).toNetInfo := by
  obtain ⟨n, -, -, -, -, hnle, hnip, hnmask⟩ := v4_block_facts p6 _ _ hn hn4
  obtain ⟨m, -, -, -, -, hple, hpip, hpmask⟩ := v4_block_facts p6 _ _ hp hp4
  have e1 : not32 (2 ^ 32 - 1 - netSpan nodeNet) = netSpan nodeNet := by
    rw [not32_eq _ (by omega)]; omega
  have e2 : not32 (2 ^ 32 - 1 - netSpan podNet) = netSpan podNet := by
    rw [not32_eq _ (by omega)]; omega
  simp only [getNetInfo, hn, hp, hnip, hnmask, hpip, hpmask, Outcome.bind, e1, e2,
    Uint32ToIpv4_eq, referencePlan, Plan.toNetInfo, add32, sub32]
  norm_num

theorem CIDRMask_inj : ∀ n m : Fin 33, CIDRMask n.val 32 = CIDRMask m.val 32 → n = m := by
  decide

theorem ipValue_ipOfUint32 (x : Nat) (hx : x < 2 ^ 32) : ipValue (ipOfUint32 x) = x := by
  simp only [ipValue, ipOfUint32, IP.To4, IPv4, v4InV6Prefix, beUint32]
  simp
  omega

/-- Arithmetic facts about a parsed IPv4 block of prefix length `l`: its span is
`2 ^ (32 - l) - 1`, its base is a multiple of `2 ^ (32 - l)`, and its last
address does not exceed `2 ^ 32 - 1`. -/
theorem block_arith (p6 : List Char → Option (List Nat)) (s : String) (net : IPNet) (l : Nat)
    (h : ParsesIPv4 p6 s net) (hl : hasPrefixLen net l) :
    netSpan net = 2 ^ (32 - l) - 1 ∧ 2 ^ (32 - l) ∣ netBase net ∧
      netBase net + netSpan net < 2 ^ 32 := by
  obtain ⟨n, hn, hmask, hspan, hmod, hlt, -, -⟩ := v4_block_facts p6 s net h.1 h.2
  have e : n = l := by
    have := CIDRMask_inj ⟨n, by omega⟩ ⟨l, by have := hl.1; omega⟩ (by rw [← hmask, ← hl.2])
    simpa using this
  subst e
  exact ⟨hspan, Nat.dvd_of_mod_eq_zero hmod, hlt⟩

theorem block_prefix_exists (p6 : List Char → Option (List Nat)) (s : String) (net : IPNet)
    (h : ParsesIPv4 p6 s net) : ∃ l, hasPrefixLen net l := by
  obtain ⟨n, hn, hmask, -⟩ := v4_block_facts p6 s net h.1 h.2
  exact ⟨n, hn, hmask⟩

theorem getNetInfo_values (p6 : List Char → Option (List Nat)) (subnet : GlueSubnetConf)
    (nodeNet podNet : IPNet)
    (hn : ParsesIPv4 p6 subnet.NodeCIDR nodeNet) (hp : ParsesIPv4 p6 subnet.PodCIDR podNet) :
    ∃ ni, getNetInfo p6 subnet = .ok ni ∧
      ipValue ni.rangStart = (referencePlan (netBase nodeNet) (netSpan nodeNet)
        (netBase podNet) (netSpan podNet) subnet.Master.Typ).RangeStart ∧
      ipValue ni.rangeEnd = (referencePlan (netBase nodeNet) (netSpan nodeNet)
        (netBase podNet) (netSpan podNet) subnet.Master.Typ).RangeEnd ∧
      ipValue ni.nodeIP = (referencePlan (netBase nodeNet) (netSpan nodeNet)
        (netBase podNet) (netSpan podNet) subnet.Master.Typ).NodeAddress ∧
      ipValue ni.ipvlangw = (referencePlan (netBase nodeNet) (netSpan nodeNet)
        (netBase podNet) (netSpan podNet) subnet.Master.Typ).PodGateway ∧
      ipValue ni.ipvlansvcgw = (referencePlan (netBase nodeNet) (netSpan nodeNet)
        (netBase podNet) (netSpan podNet) subnet.Master.Typ).ServiceGateway := by
  refine ⟨_, getNetInfo_of_v4 p6 subnet nodeNet podNet hn.1 hn.2 hp.1 hp.2, ?_, ?_, ?_, ?_, ?_⟩ <;>
    simp only [Plan.toNetInfo, referencePlan] <;>
    exact ipValue_ipOfUint32 _ (Nat.mod_lt _ (by norm_num))

theorem pow_facts (l : Nat) (hl : l ≤ 30) :
    4 ∣ 2 ^ (32 - l) ∧ 4 ≤ 2 ^ (32 - l) ∧ (l ≤ 29 → 8 ≤ 2 ^ (32 - l)) ∧
      (30 ≤ l → 2 ^ (32 - l) = 4) := by
  refine ⟨?_, ?_, ?_, ?_⟩
  · exact (show (4:Nat) = 2 ^ 2 by norm_num) ▸ Nat.pow_dvd_pow 2 (by omega)
  · exact (show (4:Nat) = 2 ^ 2 by norm_num) ▸ Nat.pow_le_pow_right (by norm_num) (by omega)
  · intro h
    exact (show (8:Nat) = 2 ^ 3 by norm_num) ▸ Nat.pow_le_pow_right (by norm_num) (by omega)
  · intro h
    have : l = 30 := by omega
    subst this; norm_num

theorem plan_valid (nb ns pb ps k : Nat) (ty : String) (hk : ns = k - 1)
    (h4 : k = 4 ∨ 8 ≤ k) (hlt : nb + ns < 2 ^ 32) (hplt : pb + ps < 2 ^ 32) :
    ((referencePlan nb ns pb ps ty).RangeStart ≤ (referencePlan nb ns pb ps ty).RangeEnd ↔
        (ty = "macvlan" ∨ 8 ≤ k ∨ ¬ (nb + ns = pb + ps))) ∧
      (nb ≤ (referencePlan nb ns pb ps ty).RangeStart ∧
        (referencePlan nb ns pb ps ty).RangeStart ≤ nb + ns) ∧
      (nb ≤ (referencePlan nb ns pb ps ty).RangeEnd ∧
        (referencePlan nb ns pb ps ty).RangeEnd ≤ nb + ns) ∧
      (referencePlan nb ns pb ps ty).NodeAddress + 1 = (referencePlan nb ns pb ps ty).RangeStart := by
  simp only [referencePlan]
  by_cases hm : ty = "macvlan"
  · simp only [hm, if_true, true_or, iff_true]
    split_ifs <;> omega
  · simp only [hm, if_false, false_or]
    split_ifs <;> omega

theorem pow_cases (m : Nat) : 2 ^ m = 1 ∨ 2 ^ m = 2 ∨ (4 ∣ 2 ^ m ∧ 4 ≤ 2 ^ m) := by
  rcases m with _ | _ | m
  · left; rfl
  · right; left; rfl
  · right; right
    have h : (4 : Nat) = 2 ^ 2 := by norm_num
    exact ⟨h ▸ Nat.pow_dvd_pow 2 (by omega), h ▸ Nat.pow_le_pow_right (by norm_num) (by omega)⟩

/-- Omega-ready facts about a parsed IPv4 block: no wrap-around, and the parity
and size of base and span. -/
theorem block_shape (p6 : List Char → Option (List Nat)) (s : String) (net : IPNet)
    (h : ParsesIPv4 p6 s net) :
    netBase net + netSpan net < 2 ^ 32 ∧
      (netSpan net = 0 ∨ (netSpan net = 1 ∧ netBase net % 2 = 0) ∨
        (3 ≤ netSpan net ∧ netSpan net % 4 = 3 ∧ netBase net % 4 = 0)) := by
  obtain ⟨l, hl⟩ := block_prefix_exists p6 s net h
  obtain ⟨hs, hd, hlt⟩ := block_arith p6 s net l h hl
  refine ⟨hlt, ?_⟩
  rcases pow_cases (32 - l) with h1 | h2 | ⟨h4, h4'⟩
  · left; rw [hs, h1]
  · right; left
    rw [h2] at hd
    exact ⟨by rw [hs, h2], Nat.mod_eq_zero_of_dvd hd⟩
  · right; right
    have hb : netBase net % 4 = 0 := Nat.mod_eq_zero_of_dvd (dvd_trans h4 hd)
    obtain ⟨q, hq⟩ := h4
    rw [hs]
    omega

theorem block_span_bounds (p6 : List Char → Option (List Nat)) (s : String) (net : IPNet)
    (l : Nat) (h : ParsesIPv4 p6 s net) (hl : hasPrefixLen net l) :
    (l ≤ 31 → 1 ≤ netSpan net) ∧ (l ≤ 30 → 3 ≤ netSpan net) := by
  obtain ⟨hs, -, -⟩ := block_arith p6 s net l h hl
  constructor
  · intro h31
    have : 2 ^ 1 ≤ 2 ^ (32 - l) := Nat.pow_le_pow_right (by norm_num) (by omega)
    omega
  · intro h30
    have : 2 ^ 2 ≤ 2 ^ (32 - l) := Nat.pow_le_pow_right (by norm_num) (by omega)
    omega

theorem plan_in_block (nb ns pb ps : Nat) (ty : String)
    (hlt : nb + ns < 2 ^ 32) (hltp : pb + ps < 2 ^ 32)
    (hsh : (ns = 1 ∧ nb % 2 = 0) ∨ 3 ≤ ns)
    (hs : pb ≤ nb ∧ nb + ns ≤ pb + ps) (hne : ¬ (nb = pb ∧ nb + ns = pb + ps)) :
    (nb ≤ (referencePlan nb ns pb ps ty).NodeAddress ∧
        (referencePlan nb ns pb ps ty).NodeAddress ≤ nb + ns) ∧
      (referencePlan nb ns pb ps ty).NodeAddress + 1 = (referencePlan nb ns pb ps ty).RangeStart ∧
      ((referencePlan nb ns pb ps ty).RangeStart ≤ (referencePlan nb ns pb ps ty).RangeEnd →
        nb ≤ (referencePlan nb ns pb ps ty).RangeStart ∧
          (referencePlan nb ns pb ps ty).RangeEnd ≤ nb + ns) := by
  simp only [referencePlan]
  by_cases hm : ty = "macvlan"
  · simp only [hm, if_true]
    split_ifs <;> omega
  · simp only [hm, if_false]
    split_ifs <;> omega

theorem plan_gateways (nb ns pb ps : Nat) (ty : String)
    (hlt : nb + ns < 2 ^ 32) (hltp : pb + ps < 2 ^ 32)
    (hsh : 3 ≤ ns ∧ ns % 4 = 3 ∧ nb % 4 = 0) (hshp : 3 ≤ ps ∧ ps % 4 = 3 ∧ pb % 4 = 0)
    (hs : pb ≤ nb ∧ nb + ns ≤ pb + ps)
    (hty : ty ≠ "macvlan" ∨ ¬ (nb + ns = pb + ps)) :
    ¬ ((referencePlan nb ns pb ps ty).RangeStart ≤ (referencePlan nb ns pb ps ty).PodGateway ∧
        (referencePlan nb ns pb ps ty).PodGateway ≤ (referencePlan nb ns pb ps ty).RangeEnd) ∧
      ¬ ((referencePlan nb ns pb ps ty).RangeStart ≤ (referencePlan nb ns pb ps ty).ServiceGateway ∧
        (referencePlan nb ns pb ps ty).ServiceGateway ≤ (referencePlan nb ns pb ps ty).RangeEnd) := by
  simp only [referencePlan]
  by_cases hm : ty = "macvlan"
  · simp only [hm, if_true]
    simp only [hm, ne_eq, not_true_eq_false, false_or] at hty
    constructor <;> split_ifs <;> omega
  · simp only [hm, if_false]
    constructor <;> split_ifs <;> omega

/-! ### Claims C1 to C4: the address plan -/

/-- C1: for every topology whose NodeCIDR and PodCIDR parse as IPv4 CIDRs,
`getNetInfo` returns exactly the reference plan of the specification, computed
on 32-bit unsigned integers from the network addresses and inverted netmasks of
the two blocks.  In particular PodCIDR 172.24.0.0/21 with NodeCIDR
172.24.0.0/24 and macvlan gives NodeAddress 172.24.0.1, RangeStart 172.24.0.2,
RangeEnd 172.24.0.255, and with NodeCIDR 172.24.7.0/24 and ipvlan gives
RangeEnd 172.24.7.252, PodGateway 172.24.7.254, ServiceGateway 172.24.7.253. -/
theorem C1_getNetInfo_reference_plan (p6 : List Char → Option (List Nat))
    (subnet : GlueSubnetConf) (nodeNet podNet : IPNet)
    (hn : ParsesIPv4 p6 subnet.NodeCIDR nodeNet) (hp : ParsesIPv4 p6 subnet.PodCIDR podNet) :
    getNetInfo p6 subnet = .ok (referencePlan (netBase nodeNet) (netSpan nodeNet)
        (netBase podNet) (netSpan podNet) subnet.Master.Typ).toNetInfo ∧
      (subnet.PodCIDR = "172.24.0.0/21" → subnet.NodeCIDR = "172.24.0.0/24" →
        subnet.Master.Typ = "macvlan" →
        ∃ ni, getNetInfo p6 subnet = .ok ni ∧ ni.nodeIP.String = "172.24.0.1" ∧
          ni.rangStart.String = "172.24.0.2" ∧ ni.rangeEnd.String = "172.24.0.255") ∧
      (subnet.PodCIDR = "172.24.0.0/21" → subnet.NodeCIDR = "172.24.7.0/24" →
        subnet.Master.Typ = "ipvlan" →
        ∃ ni, getNetInfo p6 subnet = .ok ni ∧ ni.rangeEnd.String = "172.24.7.252" ∧
          ni.ipvlangw.String = "172.24.7.254" ∧ ni.ipvlansvcgw.String = "172.24.7.253") := by
  have main := getNetInfo_of_v4 p6 subnet nodeNet podNet hn.1 hn.2 hp.1 hp.2
  refine ⟨main, ?_, ?_⟩
  · intro h1 h2 h3
    have en : ParseCIDR p6 "172.24.0.0/24" = some ⟨[172, 24, 0, 0], [255, 255, 255, 0]⟩ := rfl
    have ep : ParseCIDR p6 "172.24.0.0/21" = some ⟨[172, 24, 0, 0], [255, 255, 248, 0]⟩ := rfl
    have e1 := hn.1; rw [h2, en] at e1
    have e2 := hp.1; rw [h1, ep] at e2
    cases e1; cases e2
    rw [h3] at main
    exact ⟨_, main, by decide, by decide, by decide⟩
  · intro h1 h2 h3
    have en : ParseCIDR p6 "172.24.7.0/24" = some ⟨[172, 24, 7, 0], [255, 255, 255, 0]⟩ := rfl
    have ep : ParseCIDR p6 "172.24.0.0/21" = some ⟨[172, 24, 0, 0], [255, 255, 248, 0]⟩ := rfl
    have e1 := hn.1; rw [h2, en] at e1
    have e2 := hp.1; rw [h1, ep] at e2
    cases e1; cases e2
    rw [h3] at main
    exact ⟨_, main, by decide, by decide, by decide⟩

theorem C1_getNetInfo_reference_plan_witness :
    ParsesIPv4 noIPv6 "172.24.7.0/24" ⟨[172, 24, 7, 0], [255, 255, 255, 0]⟩ ∧
    ParsesIPv4 noIPv6 "172.24.0.0/21" ⟨[172, 24, 0, 0], [255, 255, 248, 0]⟩ ∧
    getNetInfo noIPv6 ⟨"172.24.0.0/21", "10.96.0.0/12", "172.24.7.0/24",
        ⟨"macvlan", "enp0s8", "bridge"⟩, ""⟩ =
      .ok ⟨IPv4 172 24 7 1, IPv4 172 24 7 254, IPv4 172 24 7 0, IPv4 172 24 7 254,
        IPv4 172 24 7 253⟩ :=
  ⟨by decide, by decide,
    (C1_getNetInfo_reference_plan noIPv6 ⟨"172.24.0.0/21", "10.96.0.0/12", "172.24.7.0/24",
        ⟨"macvlan", "enp0s8", "bridge"⟩, ""⟩ ⟨[172, 24, 7, 0], [255, 255, 255, 0]⟩
        ⟨[172, 24, 0, 0], [255, 255, 248, 0]⟩ (by decide) (by decide)).1.trans (by decide)⟩

/-- C2 as stated fails: PodCIDR 172.24.0.0/21 with NodeCIDR 172.24.7.252/30 (the
last block, prefix lengths 21 and 30) under ipvlan gives RangeStart
172.24.7.253 above RangeEnd 172.24.7.252. -/
theorem C2_partition_validity_counterexample :
    ParsesIPv4 noIPv6 (exampleTopology "172.24.7.252/30" "ipvlan").NodeCIDR
      ⟨[172, 24, 7, 252], [255, 255, 255, 252]⟩ ∧
    ParsesIPv4 noIPv6 (exampleTopology "172.24.7.252/30" "ipvlan").PodCIDR examplePodNet ∧
    blockSubset ⟨[172, 24, 7, 252], [255, 255, 255, 252]⟩ examplePodNet ∧
    hasPrefixLen ⟨[172, 24, 7, 252], [255, 255, 255, 252]⟩ 30 ∧
    hasPrefixLen examplePodNet 21 ∧
    ∃ ni, getNetInfo noIPv6 (exampleTopology "172.24.7.252/30" "ipvlan") = .ok ni ∧
      ni.rangStart.String = "172.24.7.253" ∧ ni.rangeEnd.String = "172.24.7.252" ∧
      ¬ (ipValue ni.rangStart ≤ ipValue ni.rangeEnd) :=
  ⟨by decide, by decide, by decide, by decide, by decide, _, rfl, by decide, by decide, by decide⟩

/-- C2 (amended): for IPv4 blocks with NodeCIDR contained in PodCIDR and both
prefix lengths between 21 and 30, `getNetInfo` returns a plan whose RangeStart
and RangeEnd are addresses of NodeCIDR and whose NodeAddress is RangeStart - 1;
RangeStart <= RangeEnd holds exactly when Master.Type is macvlan, or the
NodeCIDR prefix length is at most 29, or NodeCIDR is not the last block of
PodCIDR. -/
theorem C2_partition_validity_amended (p6 : List Char → Option (List Nat))
    (subnet : GlueSubnetConf) (nodeNet podNet : IPNet) (nl pl : Nat)
    (hn : ParsesIPv4 p6 subnet.NodeCIDR nodeNet) (hp : ParsesIPv4 p6 subnet.PodCIDR podNet)
    (_hsub : blockSubset nodeNet podNet)
    (hnl : hasPrefixLen nodeNet nl) (hpl : hasPrefixLen podNet pl)
    (hnr : 21 ≤ nl ∧ nl ≤ 30) (_hpr : 21 ≤ pl ∧ pl ≤ 30) :
    ∃ ni, getNetInfo p6 subnet = .ok ni ∧
      (ipValue ni.rangStart ≤ ipValue ni.rangeEnd ↔
        (subnet.Master.Typ = "macvlan" ∨ nl ≤ 29 ∨ ¬ isLastBlock nodeNet podNet)) ∧
      inBlock nodeNet (ipValue ni.rangStart) ∧ inBlock nodeNet (ipValue ni.rangeEnd) ∧
      ipValue ni.nodeIP + 1 = ipValue ni.rangStart := by
  obtain ⟨ni, hni, h1, h2, h3, -, -⟩ := getNetInfo_values p6 subnet nodeNet podNet hn hp
  obtain ⟨hns, -, hnlt⟩ := block_arith p6 _ _ nl hn hnl
  obtain ⟨-, -, hplt⟩ := block_arith p6 _ _ pl hp hpl
  obtain ⟨-, k4, k8, k30⟩ := pow_facts nl hnr.2
  have hk : 2 ^ (32 - nl) = 4 ∨ 8 ≤ 2 ^ (32 - nl) := by
    by_cases h : nl ≤ 29
    · exact Or.inr (k8 h)
    · exact Or.inl (k30 (by omega))
  have hiff : 8 ≤ 2 ^ (32 - nl) ↔ nl ≤ 29 := by
    constructor
    · intro h
      by_contra hc
      have := k30 (by omega)
      omega
    · exact k8
  obtain ⟨p1, p2, p3, p4⟩ := plan_valid (netBase nodeNet) (netSpan nodeNet) (netBase podNet)
    (netSpan podNet) _ subnet.Master.Typ hns hk hnlt hplt
  refine ⟨ni, hni, ?_, ?_, ?_, ?_⟩
  · rw [h1, h2, p1, hiff]; rfl
  · rw [h1]; exact p2
  · rw [h2]; exact p3
  · rw [h1, h3]; exact p4

theorem C2_partition_validity_amended_witness :
    ParsesIPv4 noIPv6 (exampleTopology "172.24.7.0/24" "macvlan").NodeCIDR
      ⟨[172, 24, 7, 0], [255, 255, 255, 0]⟩ ∧
    ParsesIPv4 noIPv6 (exampleTopology "172.24.7.0/24" "macvlan").PodCIDR examplePodNet ∧
    blockSubset ⟨[172, 24, 7, 0], [255, 255, 255, 0]⟩ examplePodNet ∧
    hasPrefixLen ⟨[172, 24, 7, 0], [255, 255, 255, 0]⟩ 24 ∧ hasPrefixLen examplePodNet 21 ∧
    (∃ ni, getNetInfo noIPv6 (exampleTopology "172.24.7.0/24" "macvlan") = .ok ni ∧
      (ipValue ni.rangStart ≤ ipValue ni.rangeEnd ↔
        ((exampleTopology "172.24.7.0/24" "macvlan").Master.Typ = "macvlan" ∨ 24 ≤ 29 ∨
          ¬ isLastBlock ⟨[172, 24, 7, 0], [255, 255, 255, 0]⟩ examplePodNet)) ∧
      inBlock ⟨[172, 24, 7, 0], [255, 255, 255, 0]⟩ (ipValue ni.rangStart) ∧
      inBlock ⟨[172, 24, 7, 0], [255, 255, 255, 0]⟩ (ipValue ni.rangeEnd) ∧
      ipValue ni.nodeIP + 1 = ipValue ni.rangStart) ∧
    (∃ ni, getNetInfo noIPv6 (exampleTopology "172.24.7.0/24" "macvlan") = .ok ni ∧
      ni.nodeIP.String = "172.24.7.0" ∧ ni.rangStart.String = "172.24.7.1" ∧
      ni.rangeEnd.String = "172.24.7.254") :=
  ⟨by decide, by decide, by decide, by decide, by decide,
    C2_partition_validity_amended noIPv6 (exampleTopology "172.24.7.0/24" "macvlan")
      ⟨[172, 24, 7, 0], [255, 255, 255, 0]⟩ examplePodNet 24 21
      (by decide) (by decide) (by decide) (by decide) (by decide) (by decide) (by decide),
    ⟨_, rfl, by decide, by decide, by decide⟩⟩

/-- C3 as stated fails: within PodCIDR 172.24.0.0/21 the distinct,
non-overlapping node blocks 172.24.0.0/32 and 172.24.0.1/32 both receive
NodeAddress 172.24.0.1. -/
theorem C3_disjointness_counterexample :
    ParsesIPv4 noIPv6 (exampleTopology "172.24.0.0/32" "macvlan").PodCIDR examplePodNet ∧
    ParsesIPv4 noIPv6 (exampleTopology "172.24.0.0/32" "macvlan").NodeCIDR
      ⟨[172, 24, 0, 0], [255, 255, 255, 255]⟩ ∧
    ParsesIPv4 noIPv6 (exampleTopology "172.24.0.1/32" "macvlan").NodeCIDR
      ⟨[172, 24, 0, 1], [255, 255, 255, 255]⟩ ∧
    blockSubset ⟨[172, 24, 0, 0], [255, 255, 255, 255]⟩ examplePodNet ∧
    blockSubset ⟨[172, 24, 0, 1], [255, 255, 255, 255]⟩ examplePodNet ∧
    blocksDisjoint ⟨[172, 24, 0, 0], [255, 255, 255, 255]⟩
      ⟨[172, 24, 0, 1], [255, 255, 255, 255]⟩ ∧
    ∃ a b, getNetInfo noIPv6 (exampleTopology "172.24.0.0/32" "macvlan") = .ok a ∧
      getNetInfo noIPv6 (exampleTopology "172.24.0.1/32" "macvlan") = .ok b ∧
      a.nodeIP.String = "172.24.0.1" ∧ b.nodeIP.String = "172.24.0.1" ∧
      ipValue a.nodeIP = ipValue b.nodeIP :=
  ⟨by decide, by decide, by decide, by decide, by decide, by decide, _, _, rfl, rfl,
    by decide, by decide, by decide⟩

/-- C3 (amended): for every PodCIDR and Master.Type and every two
non-overlapping IPv4 NodeCIDRs contained in that PodCIDR, both of prefix length
at most 31, the two plans returned by `getNetInfo` have non-intersecting
inclusive intervals [RangeStart, RangeEnd], different NodeAddress values, and
neither NodeAddress lies inside either interval. -/
theorem C3_disjointness_amended (p6 : List Char → Option (List Nat))
    (s1 s2 : GlueSubnetConf) (n1 n2 pod : IPNet) (l1 l2 : Nat)
    (hpod : s2.PodCIDR = s1.PodCIDR) (hty : s2.Master.Typ = s1.Master.Typ)
    (hp : ParsesIPv4 p6 s1.PodCIDR pod)
    (h1 : ParsesIPv4 p6 s1.NodeCIDR n1) (h2 : ParsesIPv4 p6 s2.NodeCIDR n2)
    (hs1 : blockSubset n1 pod) (hs2 : blockSubset n2 pod) (hd : blocksDisjoint n1 n2)
    (hl1 : hasPrefixLen n1 l1) (hl2 : hasPrefixLen n2 l2) (h31 : l1 ≤ 31 ∧ l2 ≤ 31) :
    ∃ a b, getNetInfo p6 s1 = .ok a ∧ getNetInfo p6 s2 = .ok b ∧
      (∀ x, ¬ (inRange a x ∧ inRange b x)) ∧
      ipValue a.nodeIP ≠ ipValue b.nodeIP ∧
      ¬ inRange a (ipValue a.nodeIP) ∧ ¬ inRange b (ipValue a.nodeIP) ∧
      ¬ inRange a (ipValue b.nodeIP) ∧ ¬ inRange b (ipValue b.nodeIP) := by
  have hp2 : ParsesIPv4 p6 s2.PodCIDR pod := hpod ▸ hp
  obtain ⟨a, ha, a1, a2, a3, -, -⟩ := getNetInfo_values p6 s1 n1 pod h1 hp
  obtain ⟨b, hb, b1, b2, b3, -, -⟩ := getNetInfo_values p6 s2 n2 pod h2 hp2
  rw [hty] at b1 b2 b3
  obtain ⟨hlt1, hsh1⟩ := block_shape p6 _ _ h1
  obtain ⟨hlt2, hsh2⟩ := block_shape p6 _ _ h2
  obtain ⟨hltp, -⟩ := block_shape p6 _ _ hp
  have hsp1 := (block_span_bounds p6 _ _ l1 h1 hl1).1 h31.1
  have hsp2 := (block_span_bounds p6 _ _ l2 h2 hl2).1 h31.2
  unfold blockSubset at hs1 hs2
  unfold blocksDisjoint at hd
  obtain ⟨pa1, pa2, pa3⟩ := plan_in_block (netBase n1) (netSpan n1) (netBase pod) (netSpan pod)
    s1.Master.Typ hlt1 hltp (by omega) hs1 (by omega)
  obtain ⟨pb1, pb2, pb3⟩ := plan_in_block (netBase n2) (netSpan n2) (netBase pod) (netSpan pod)
    s1.Master.Typ hlt2 hltp (by omega) hs2 (by omega)
  refine ⟨a, b, ha, hb, ?_⟩
  simp only [inRange]
  rw [a1, a2, a3, b1, b2, b3]
  refine ⟨fun x => ?_, ?_, ?_, ?_, ?_, ?_⟩ <;> omega

theorem C3_disjointness_amended_witness :
    ParsesIPv4 noIPv6 (exampleTopology "172.24.0.0/24" "ipvlan").PodCIDR examplePodNet ∧
    ParsesIPv4 noIPv6 (exampleTopology "172.24.0.0/24" "ipvlan").NodeCIDR
      ⟨[172, 24, 0, 0], [255, 255, 255, 0]⟩ ∧
    ParsesIPv4 noIPv6 (exampleTopology "172.24.7.0/24" "ipvlan").NodeCIDR
      ⟨[172, 24, 7, 0], [255, 255, 255, 0]⟩ ∧
    ∃ a b, getNetInfo noIPv6 (exampleTopology "172.24.0.0/24" "ipvlan") = .ok a ∧
      getNetInfo noIPv6 (exampleTopology "172.24.7.0/24" "ipvlan") = .ok b ∧
      (∀ x, ¬ (inRange a x ∧ inRange b x)) ∧
      ipValue a.nodeIP ≠ ipValue b.nodeIP ∧
      ¬ inRange a (ipValue a.nodeIP) ∧ ¬ inRange b (ipValue a.nodeIP) ∧
      ¬ inRange a (ipValue b.nodeIP) ∧ ¬ inRange b (ipValue b.nodeIP) :=
  ⟨by decide, by decide, by decide,
    C3_disjointness_amended noIPv6 (exampleTopology "172.24.0.0/24" "ipvlan")
      (exampleTopology "172.24.7.0/24" "ipvlan") ⟨[172, 24, 0, 0], [255, 255, 255, 0]⟩
      ⟨[172, 24, 7, 0], [255, 255, 255, 0]⟩ examplePodNet 24 24 rfl rfl
      (by decide) (by decide) (by decide) (by decide) (by decide) (by decide) (by decide)
      (by decide) (by decide)⟩

/-- C4 as stated fails: for PodCIDR 172.24.0.0/21 with the last block
172.24.7.0/24 under macvlan, RangeEnd 172.24.7.254 is PodGateway itself and
ServiceGateway 172.24.7.253 lies in the range; and under ipvlan the block
172.24.7.252/31 has the one-address range 172.24.7.253, the ServiceGateway. -/
theorem C4_gateway_reservation_counterexample :
    (ParsesIPv4 noIPv6 (exampleTopology "172.24.7.0/24" "macvlan").NodeCIDR
        ⟨[172, 24, 7, 0], [255, 255, 255, 0]⟩ ∧
      ParsesIPv4 noIPv6 (exampleTopology "172.24.7.0/24" "macvlan").PodCIDR examplePodNet ∧
      blockSubset ⟨[172, 24, 7, 0], [255, 255, 255, 0]⟩ examplePodNet ∧
      ∃ ni, getNetInfo noIPv6 (exampleTopology "172.24.7.0/24" "macvlan") = .ok ni ∧
        ni.rangeEnd.String = "172.24.7.254" ∧ ni.ipvlangw.String = "172.24.7.254" ∧
        inRange ni (ipValue ni.ipvlangw) ∧ inRange ni (ipValue ni.ipvlansvcgw)) ∧
    (ParsesIPv4 noIPv6 (exampleTopology "172.24.7.252/31" "ipvlan").NodeCIDR
        ⟨[172, 24, 7, 252], [255, 255, 255, 254]⟩ ∧
      blockSubset ⟨[172, 24, 7, 252], [255, 255, 255, 254]⟩ examplePodNet ∧
      ∃ ni, getNetInfo noIPv6 (exampleTopology "172.24.7.252/31" "ipvlan") = .ok ni ∧
        ni.rangStart.String = "172.24.7.253" ∧ ni.rangeEnd.String = "172.24.7.253" ∧
        ni.ipvlansvcgw.String = "172.24.7.253" ∧ inRange ni (ipValue ni.ipvlansvcgw)) :=
  ⟨⟨by decide, by decide, by decide, _, rfl, by decide, by decide, by decide, by decide⟩,
    ⟨by decide, by decide, _, rfl, by decide, by decide, by decide, by decide⟩⟩

/-- C4 (amended): for every topology with IPv4 NodeCIDR contained in IPv4
PodCIDR and NodeCIDR prefix length at most 30, in which Master.Type is not
macvlan or NodeCIDR is not the last block of PodCIDR, neither PodGateway nor
ServiceGateway returned by `getNetInfo` lies in the inclusive pod range
[RangeStart, RangeEnd]; in particular the last node's range under ipvlan
excludes both gateway addresses. -/
theorem C4_gateway_reservation_amended (p6 : List Char → Option (List Nat))
    (subnet : GlueSubnetConf) (nodeNet podNet : IPNet) (nl : Nat)
    (hn : ParsesIPv4 p6 subnet.NodeCIDR nodeNet) (hp : ParsesIPv4 p6 subnet.PodCIDR podNet)
    (hsub : blockSubset nodeNet podNet) (hnl : hasPrefixLen nodeNet nl) (h30 : nl ≤ 30)
    (hty : subnet.Master.Typ ≠ "macvlan" ∨ ¬ isLastBlock nodeNet podNet) :
    ∃ ni, getNetInfo p6 subnet = .ok ni ∧
      ¬ inRange ni (ipValue ni.ipvlangw) ∧ ¬ inRange ni (ipValue ni.ipvlansvcgw) := by
  obtain ⟨ni, hni, h1, h2, -, h4, h5⟩ := getNetInfo_values p6 subnet nodeNet podNet hn hp
  obtain ⟨hlt, hsh⟩ := block_shape p6 _ _ hn
  obtain ⟨hltp, hshp⟩ := block_shape p6 _ _ hp
  have hsp := (block_span_bounds p6 _ _ nl hn hnl).2 h30
  unfold blockSubset at hsub
  unfold isLastBlock at hty
  obtain ⟨g1, g2⟩ := plan_gateways (netBase nodeNet) (netSpan nodeNet) (netBase podNet)
    (netSpan podNet) subnet.Master.Typ hlt hltp (by omega) (by omega) hsub hty
  refine ⟨ni, hni, ?_, ?_⟩
  · simp only [inRange]; rw [h1, h2, h4]; exact g1
  · simp only [inRange]; rw [h1, h2, h5]; exact g2

theorem C4_gateway_reservation_amended_witness :
    ParsesIPv4 noIPv6 (exampleTopology "172.24.7.0/24" "ipvlan").NodeCIDR
      ⟨[172, 24, 7, 0], [255, 255, 255, 0]⟩ ∧
    ParsesIPv4 noIPv6 (exampleTopology "172.24.7.0/24" "ipvlan").PodCIDR examplePodNet ∧
    isLastBlock ⟨[172, 24, 7, 0], [255, 255, 255, 0]⟩ examplePodNet ∧
    ∃ ni, getNetInfo noIPv6 (exampleTopology "172.24.7.0/24" "ipvlan") = .ok ni ∧
      ¬ inRange ni (ipValue ni.ipvlangw) ∧ ¬ inRange ni (ipValue ni.ipvlansvcgw) :=
  ⟨by decide, by decide, by decide,
    C4_gateway_reservation_amended noIPv6 (exampleTopology "172.24.7.0/24" "ipvlan")
      ⟨[172, 24, 7, 0], [255, 255, 255, 0]⟩ examplePodNet 24
      (by decide) (by decide) (by decide) (by decide) (by decide) (by decide)⟩

/-! ### Claims C5 to C8: validation and the delegate configuration -/

/-- What `genDelegateInfo` does once `getNetInfo` has returned a plan: it panics
exactly on the ipvlan branch with a `ServiceCIDR` that does not parse, and
otherwise returns the delegate map with the IPAM entry, and the neighbour map. -/
theorem genDelegateInfo_of_plan (p6 : List Char → Option (List Nat)) (n : NetConf)
    (d0 : Delegate) (subnet : GlueSubnetConf) (ni : NetInfo)
    (hd : n.Delegate = some d0) (hni : getNetInfo p6 subnet = .ok ni) :
    ((subnet.Master.Typ = "ipvlan" ∧ ParseCIDR p6 subnet.ServiceCIDR = none) →
        genDelegateInfo p6 n subnet = .crash) ∧
      (¬ (subnet.Master.Typ = "ipvlan" ∧ ParseCIDR p6 subnet.ServiceCIDR = none) →
        ∃ d ipam, genDelegateInfo p6 n subnet = .ok ({ n with Delegate := some d },
            if subnet.Master.Typ = "ipvlan" then
              [(ni.ipvlansvcgw.String, subnet.DefaultNeighMac)] else []) ∧
          d "ipam" = some (.ipam ipam) ∧ ipam.typ = "host-local" ∧
          ipam.ranges = [[{
            subnet := subnet.PodCIDR
            rangeStart := ni.rangStart.String
            rangeEnd := ni.rangeEnd.String
            gateway := if subnet.Master.Typ = "macvlan" then ni.nodeIP.String
              else ni.ipvlangw.String }]] ∧
          ipam.routes = ({ Dst := { IP := IPv4 0 0 0 0, Mask := CIDRMask 0 32 }, GW := [] } ::
            if subnet.Master.Typ = "ipvlan" then
              match ParseCIDR p6 subnet.ServiceCIDR with
              | some svcNet => [{ Dst := svcNet, GW := ni.ipvlansvcgw }]
              | none => []
            else []) ∧
          d "type" = some (.str subnet.Master.Typ) ∧
          d "master" = some (.str subnet.Master.Master)) := by
  constructor
  · rintro ⟨ht, hs⟩
    simp [genDelegateInfo, hd, hni, Outcome.bind, ht, hs]
  · intro hc
    by_cases ht : subnet.Master.Typ = "ipvlan"
    · have hm : subnet.Master.Typ ≠ "macvlan" := by rw [ht]; decide
      cases hs : ParseCIDR p6 subnet.ServiceCIDR with
      | none => exact absurd ⟨ht, hs⟩ hc
      | some svcNet =>
        simp only [genDelegateInfo, hd, hni, Outcome.bind, ht, hs, if_true]
        refine ⟨_, ?w, rfl, ?h2, ?h3, ?h4, ?h5, ?h6, ?h7⟩
        case h2 => exact rfl
        case h3 => rfl
        case h4 => simp
        case h5 => simp
        case h6 => split <;> simp [Delegate.set]
        case h7 => split <;> simp [Delegate.set]
    · simp only [genDelegateInfo, hd, hni, Outcome.bind, ht, if_false]
      refine ⟨_, ?v, rfl, ?g2, ?g3, ?g4, ?g5, ?g6, ?g7⟩
      case g2 => exact rfl
      case g3 => rfl
      case g4 => by_cases hm : subnet.Master.Typ = "macvlan" <;> simp [hm]
      case g5 => simp
      case g6 => split <;> simp [Delegate.set]
      case g7 => split <;> simp [Delegate.set]

/-- C5 (code defect): with only PodCIDR malformed (NodeCIDR 172.24.0.0/24,
PodCIDR `172.24.0.0` without a prefix length) `getNetInfo` panics instead of
returning a non-nil error, because the error of its second `ParseCIDR` is
discarded and the nil `podIpv4Net` is dereferenced; with only NodeCIDR
malformed it returns the error `parse node CIDR failed`. -/
theorem C5_getNetInfo_malformed_PodCIDR_panics :
    ParseCIDR noIPv6 "172.24.0.0" = none ∧
    getNetInfo noIPv6
      { exampleTopology "172.24.0.0/24" "macvlan" with PodCIDR := "172.24.0.0" } = .crash ∧
    getNetInfo noIPv6 (exampleTopology "172.24.0.0" "macvlan") =
      .error "parse node CIDR failed" := by
  decide

/-- C6: for every topology record that was read and decoded, `loadGlueSubnet`
returns an error if and only if PodCIDR, NodeCIDR, Master.Type or Master.Master
is the empty string; otherwise it returns the record with every field
unchanged, except that an empty DefaultNeighMac is replaced by
`08:60:83:00:00:00` and a non-empty one is kept. -/
theorem C6_loadGlueSubnet_validation (env : Env) (w : World) (path : String) (b : Bytes)
    (s : GlueSubnetConf) (hread : ReadFile env w path = .data b)
    (hdec : env.decodeSubnet b = .ok s) :
    ((∃ e, loadGlueSubnet env w path = .error e) ↔
        (s.PodCIDR = "" ∨ s.NodeCIDR = "" ∨ s.Master.Typ = "" ∨ s.Master.Master = "")) ∧
      (¬ (s.PodCIDR = "" ∨ s.NodeCIDR = "" ∨ s.Master.Typ = "" ∨ s.Master.Master = "") →
        loadGlueSubnet env w path = .ok
          { PodCIDR := s.PodCIDR, ServiceCIDR := s.ServiceCIDR, NodeCIDR := s.NodeCIDR,
            Master := s.Master,
            DefaultNeighMac :=
              if s.DefaultNeighMac = "" then "08:60:83:00:00:00" else s.DefaultNeighMac }) := by
  simp only [loadGlueSubnet, hread, hdec]
  by_cases h1 : s.PodCIDR = "" ∨ s.NodeCIDR = ""
  · simp only [h1, if_true]
    constructor
    · simp only [Outcome.error.injEq, exists_eq', true_iff]
      rcases h1 with h | h
      · exact Or.inl h
      · exact Or.inr (Or.inl h)
    · intro hc
      exact absurd (by rcases h1 with h | h; exact Or.inl h; exact Or.inr (Or.inl h)) hc
  · simp only [h1, if_false]
    have h1a : s.PodCIDR ≠ "" := fun h => h1 (Or.inl h)
    have h1b : s.NodeCIDR ≠ "" := fun h => h1 (Or.inr h)
    by_cases h2 : s.Master.Typ = ""
    · simp [h2]
    · by_cases h3 : s.Master.Master = ""
      · simp [h2, h3]
      · by_cases h4 : s.DefaultNeighMac = ""
        · simp [h1a, h1b, h2, h3, h4]
        · simp [h1a, h1b, h2, h3, h4]

theorem C6_loadGlueSubnet_validation_witness :
    ReadFile exampleEnv exampleWorld defaultSubnetFile = .data [] ∧
    exampleEnv.decodeSubnet [] = .ok exampleSubnet ∧
    loadGlueSubnet exampleEnv exampleWorld defaultSubnetFile =
      .ok { exampleSubnet with DefaultNeighMac := "08:60:83:00:00:00" } :=
  ⟨by decide, rfl,
    ((C6_loadGlueSubnet_validation exampleEnv exampleWorld defaultSubnetFile [] exampleSubnet
      (by decide) rfl).2 (by decide)).trans (by decide)⟩

/-- C7: for every topology with valid IPv4 PodCIDR and NodeCIDR (and the
non-nil `Delegate` map that `loadNetConf` returns), `genDelegateInfo` builds a
delegate configuration unless Master.Type is ipvlan and ServiceCIDR does not
parse (the panic of C18), and the configuration it builds has IPAM type
`host-local` with exactly one address range whose subnet is PodCIDR, whose
rangeStart and rangeEnd are the RangeStart and RangeEnd of `getNetInfo`, and
whose gateway is NodeAddress for macvlan and PodGateway for ipvlan; its `type`
and `master` entries are Master.Type and Master.Master. -/
theorem C7_delegate_ipam_range (p6 : List Char → Option (List Nat)) (n : NetConf)
    (d0 : Delegate) (subnet : GlueSubnetConf) (nodeNet podNet : IPNet)
    (hd : n.Delegate = some d0)
    (hn : ParsesIPv4 p6 subnet.NodeCIDR nodeNet) (hp : ParsesIPv4 p6 subnet.PodCIDR podNet) :
    ∃ ni, getNetInfo p6 subnet = .ok ni ∧
      ((subnet.Master.Typ = "ipvlan" ∧ ParseCIDR p6 subnet.ServiceCIDR = none) →
        genDelegateInfo p6 n subnet = .crash) ∧
      (¬ (subnet.Master.Typ = "ipvlan" ∧ ParseCIDR p6 subnet.ServiceCIDR = none) →
        ∃ n1 nei d ipam r, genDelegateInfo p6 n subnet = .ok (n1, nei) ∧
          n1.Delegate = some d ∧ d "ipam" = some (.ipam ipam) ∧
          ipam.typ = "host-local" ∧ ipam.ranges = [[r]] ∧
          r.subnet = subnet.PodCIDR ∧ r.rangeStart = ni.rangStart.String ∧
          r.rangeEnd = ni.rangeEnd.String ∧
          (subnet.Master.Typ = "macvlan" → r.gateway = ni.nodeIP.String) ∧
          (subnet.Master.Typ = "ipvlan" → r.gateway = ni.ipvlangw.String) ∧
          d "type" = some (.str subnet.Master.Typ) ∧
          d "master" = some (.str subnet.Master.Master)) := by
  have hni := getNetInfo_of_v4 p6 subnet nodeNet podNet hn.1 hn.2 hp.1 hp.2
  obtain ⟨hcrash, hok⟩ := genDelegateInfo_of_plan p6 n d0 subnet _ hd hni
  refine ⟨_, hni, hcrash, fun hc => ?_⟩
  obtain ⟨d, ipam, h1, h2, h3, h4, -, h6, h7⟩ := hok hc
  refine ⟨_, _, d, ipam, _, h1, rfl, h2, h3, h4, rfl, rfl, rfl, ?_, ?_, h6, h7⟩
  · intro hm; simp [hm]
  · intro hi
    have hm : subnet.Master.Typ ≠ "macvlan" := by rw [hi]; decide
    simp [hm]

theorem C7_delegate_ipam_range_witness :
    ParsesIPv4 noIPv6 exampleSubnet.NodeCIDR ⟨[172, 24, 7, 0], [255, 255, 255, 0]⟩ ∧
    ParsesIPv4 noIPv6 exampleSubnet.PodCIDR examplePodNet ∧
    ∃ ni, getNetInfo noIPv6 exampleSubnet = .ok ni ∧
      ((exampleSubnet.Master.Typ = "ipvlan" ∧ ParseCIDR noIPv6 exampleSubnet.ServiceCIDR = none) →
        genDelegateInfo noIPv6 ⟨"0.3.1", "mynet", some Delegate.empty, "", ""⟩ exampleSubnet
          = .crash) ∧
      (¬ (exampleSubnet.Master.Typ = "ipvlan" ∧
          ParseCIDR noIPv6 exampleSubnet.ServiceCIDR = none) →
        ∃ n1 nei d ipam r,
          genDelegateInfo noIPv6 ⟨"0.3.1", "mynet", some Delegate.empty, "", ""⟩ exampleSubnet
            = .ok (n1, nei) ∧
          n1.Delegate = some d ∧ d "ipam" = some (.ipam ipam) ∧
          ipam.typ = "host-local" ∧ ipam.ranges = [[r]] ∧
          r.subnet = exampleSubnet.PodCIDR ∧ r.rangeStart = ni.rangStart.String ∧
          r.rangeEnd = ni.rangeEnd.String ∧
          (exampleSubnet.Master.Typ = "macvlan" → r.gateway = ni.nodeIP.String) ∧
          (exampleSubnet.Master.Typ = "ipvlan" → r.gateway = ni.ipvlangw.String) ∧
          d "type" = some (.str exampleSubnet.Master.Typ) ∧
          d "master" = some (.str exampleSubnet.Master.Master)) :=
  ⟨by decide, by decide,
    C7_delegate_ipam_range noIPv6 ⟨"0.3.1", "mynet", some Delegate.empty, "", ""⟩ Delegate.empty
      exampleSubnet ⟨[172, 24, 7, 0], [255, 255, 255, 0]⟩ examplePodNet rfl
      (by decide) (by decide)⟩

/-- C8: for every topology with valid IPv4 PodCIDR, NodeCIDR and ServiceCIDR,
`genDelegateInfo` returns the route list [default route 0.0.0.0/0 without
gateway, ServiceCIDR via ServiceGateway] and the neighbour map with the single
entry ServiceGateway -> DefaultNeighMac when Master.Type is ipvlan; for every
other Master.Type the route list is the gateway-less default route alone and
the neighbour map is empty. -/
theorem C8_service_gateway_ipvlan_only (p6 : List Char → Option (List Nat)) (n : NetConf)
    (d0 : Delegate) (subnet : GlueSubnetConf) (nodeNet podNet svcNet : IPNet)
    (hd : n.Delegate = some d0)
    (hn : ParsesIPv4 p6 subnet.NodeCIDR nodeNet) (hp : ParsesIPv4 p6 subnet.PodCIDR podNet)
    (hs : ParsesIPv4 p6 subnet.ServiceCIDR svcNet) :
    ∃ ni n1 nei d ipam, getNetInfo p6 subnet = .ok ni ∧
      genDelegateInfo p6 n subnet = .ok (n1, nei) ∧
      n1.Delegate = some d ∧ d "ipam" = some (.ipam ipam) ∧
      (subnet.Master.Typ = "ipvlan" →
        ipam.routes = [{ Dst := { IP := IPv4 0 0 0 0, Mask := [0, 0, 0, 0] }, GW := [] },
            { Dst := svcNet, GW := ni.ipvlansvcgw }] ∧
          nei = [(ni.ipvlansvcgw.String, subnet.DefaultNeighMac)]) ∧
      (subnet.Master.Typ ≠ "ipvlan" →
        ipam.routes = [{ Dst := { IP := IPv4 0 0 0 0, Mask := [0, 0, 0, 0] }, GW := [] }] ∧
          nei = []) := by
  have hni := getNetInfo_of_v4 p6 subnet nodeNet podNet hn.1 hn.2 hp.1 hp.2
  obtain ⟨-, hok⟩ := genDelegateInfo_of_plan p6 n d0 subnet _ hd hni
  have hc : ¬ (subnet.Master.Typ = "ipvlan" ∧ ParseCIDR p6 subnet.ServiceCIDR = none) := by
    rintro ⟨-, h⟩
    rw [hs.1] at h
    cases h
  obtain ⟨d, ipam, h1, h2, -, -, h5, -, -⟩ := hok hc
  have hm0 : CIDRMask 0 32 = [0, 0, 0, 0] := by decide
  refine ⟨_, _, _, d, ipam, hni, h1, rfl, h2, ?_, ?_⟩
  · intro hi
    rw [h5, hs.1, hm0]
    simp [hi]
  · intro hi
    rw [h5, hm0]
    simp [hi]

theorem C8_service_gateway_ipvlan_only_witness :
    ParsesIPv4 noIPv6 exampleSubnet.ServiceCIDR ⟨[10, 96, 0, 0], [255, 240, 0, 0]⟩ ∧
    ∃ ni n1 nei d ipam, getNetInfo noIPv6 exampleSubnet = .ok ni ∧
      genDelegateInfo noIPv6 ⟨"0.3.1", "mynet", some Delegate.empty, "", ""⟩ exampleSubnet
        = .ok (n1, nei) ∧
      n1.Delegate = some d ∧ d "ipam" = some (.ipam ipam) ∧
      (exampleSubnet.Master.Typ = "ipvlan" →
        ipam.routes = [{ Dst := { IP := IPv4 0 0 0 0, Mask := [0, 0, 0, 0] }, GW := [] },
            { Dst := ⟨[10, 96, 0, 0], [255, 240, 0, 0]⟩, GW := ni.ipvlansvcgw }] ∧
          nei = [(ni.ipvlansvcgw.String, exampleSubnet.DefaultNeighMac)]) ∧
      (exampleSubnet.Master.Typ ≠ "ipvlan" →
        ipam.routes = [{ Dst := { IP := IPv4 0 0 0 0, Mask := [0, 0, 0, 0] }, GW := [] }] ∧
          nei = []) :=
  ⟨by decide,
    C8_service_gateway_ipvlan_only noIPv6 ⟨"0.3.1", "mynet", some Delegate.empty, "", ""⟩
      Delegate.empty exampleSubnet ⟨[172, 24, 7, 0], [255, 255, 255, 0]⟩ examplePodNet
      ⟨[10, 96, 0, 0], [255, 240, 0, 0]⟩ rfl (by decide) (by decide) (by decide)⟩

/-! ### Claims C9 and C10: attach rollback and detach of an unknown container -/

theorem genDelegateInfo_ok_inv (p6 : List Char → Option (List Nat)) (n n1 : NetConf)
    (subnet : GlueSubnetConf) (neighs : List (String × String))
    (h : genDelegateInfo p6 n subnet = .ok (n1, neighs)) :
    Delegate.lookup n1.Delegate "type" = some (.str subnet.Master.Typ) ∧
      n1.DataDir = n.DataDir ∧ n1.CNIVersion = n.CNIVersion := by
  unfold genDelegateInfo at h
  cases hd : n.Delegate with
  | none => simp [hd] at h
  | some d0 =>
    cases hni : getNetInfo p6 subnet with
    | error e => simp [hd, hni, Outcome.bind] at h
    | crash => simp [hd, hni, Outcome.bind] at h
    | ok ni =>
      simp only [hd, hni, Outcome.bind] at h
      by_cases ht : subnet.Master.Typ = "ipvlan"
      · cases hs : ParseCIDR p6 subnet.ServiceCIDR with
        | none => simp [ht, hs] at h
        | some svcNet =>
          simp only [ht, hs, if_true, Outcome.ok.injEq, Prod.mk.injEq] at h
          obtain ⟨h1, -⟩ := h
          subst h1
          refine ⟨?_, rfl, rfl⟩
          simp only [Delegate.lookup]
          split <;> simp [Delegate.set, ht]
      · simp only [ht, if_false, Outcome.ok.injEq, Prod.mk.injEq] at h
        obtain ⟨h1, -⟩ := h
        subst h1
        refine ⟨?_, rfl, rfl⟩
        simp only [Delegate.lookup]
        split <;> simp [Delegate.set]

theorem updateNeighLoop_frame (env : Env) (netns : String) (l : List (String × String)) :
    ∀ w : World, (∃ rest, (updateNeighLoop env netns l w).2.trace = w.trace ++ rest) ∧
      (updateNeighLoop env netns l w).2.files = w.files := by
  induction l with
  | nil => intro w; exact ⟨⟨[], by simp [updateNeighLoop]⟩, rfl⟩
  | cons kv rest ih =>
    intro w
    obtain ⟨k, v⟩ := kv
    simp only [updateNeighLoop]
    split
    · next ip hw _ _ =>
      split
      · exact ⟨⟨[], by simp⟩, rfl⟩
      · next idx _ =>
        split
        · exact ⟨⟨[.neighAdd netns idx ip hw], by simp [World.log]⟩, rfl⟩
        · obtain ⟨⟨r, hr⟩, hf⟩ := ih
            { (w.log (.neighAdd netns idx ip hw)) with
              neighs := (w.log (.neighAdd netns idx ip hw)).neighs ++
                [{ netns := netns, linkIndex := idx, ip := ip, hw := hw }] }
          refine ⟨⟨.neighAdd netns idx ip hw :: r, ?_⟩, ?_⟩
          · rw [hr]; simp [World.log]
          · rw [hf]; rfl
    · exact ⟨⟨[], by simp⟩, rfl⟩

theorem updateNeigh_frame (env : Env) (w : World) (l : List (String × String)) (args : CmdArgs) :
    (∃ rest, (updateNeigh env w l args).2.trace = w.trace ++ rest) ∧
      (updateNeigh env w l args).2.files = w.files := by
  unfold updateNeigh
  split
  · exact ⟨⟨[], by simp⟩, rfl⟩
  · exact updateNeighLoop_frame env args.Netns l w

/-- The run of `cmdAdd` from the point where the delegate configuration has been
generated and the record has been written. -/
theorem cmdAdd_reaches_delegate (env : Env) (w : World) (args : CmdArgs) (n n1 : NetConf)
    (subnet : GlueSubnetConf) (neighs : List (String × String))
    (h1 : loadNetConf env args.StdinData = .ok n)
    (h2 : loadGlueSubnet env w n.SubnetFile = .ok subnet)
    (h3 : genDelegateInfo env.p6 n subnet = .ok (n1, neighs))
    (h4 : env.mkdirAllErr n1.DataDir = none)
    (h5 : env.writeErr (env.join n1.DataDir args.ContainerID) = none) :
    cmdAdd env w args =
      (match env.delegateAdd subnet.Master.Typ (env.marshal n1.Delegate) with
        | .error e => (.error e, osRemove env
            (({ (w.log (.mkdirAll n1.DataDir)).log (.writeFile
                  (env.join n1.DataDir args.ContainerID) (env.marshal n1.Delegate)) with
                files := fun p => if p = env.join n1.DataDir args.ContainerID
                  then some (env.marshal n1.Delegate) else w.files p } : World).log
              (.delegateAdd subnet.Master.Typ (env.marshal n1.Delegate)))
            (env.join n1.DataDir args.ContainerID))
        | .ok result =>
          (match env.printResultErr result n1.CNIVersion with
            | some e => .error e
            | none => .ok (),
           ((updateNeigh env
            (({ (w.log (.mkdirAll n1.DataDir)).log (.writeFile
                  (env.join n1.DataDir args.ContainerID) (env.marshal n1.Delegate)) with
                files := fun p => if p = env.join n1.DataDir args.ContainerID
                  then some (env.marshal n1.Delegate) else w.files p } : World).log
              (.delegateAdd subnet.Master.Typ (env.marshal n1.Delegate)))
            neighs args).2).log (.printResult n1.CNIVersion))) := by
  have ht := (genDelegateInfo_ok_inv env.p6 n n1 subnet neighs h3).1
  simp only [cmdAdd, h1, h2, h3, saveContNetConf, h4, h5, ht]
  cases env.delegateAdd subnet.Master.Typ (env.marshal n1.Delegate) with
  | error e => rfl
  | ok result =>
    simp only
    cases env.printResultErr result n1.CNIVersion <;> rfl

/-- C9 as stated fails: when the delegate add call fails and the removal of the
just-written record fails too (its error is discarded), `cmdAdd` returns the
delegate's error and the record `/var/lib/cni/glue/c1` still exists. -/
theorem C9_attach_rollback_counterexample :
    (cmdAdd failingEnv exampleWorld exampleArgs).1 = .error "delegate add failed" ∧
    (cmdAdd failingEnv exampleWorld exampleArgs).2.trace =
      [.mkdirAll "/var/lib/cni/glue", .writeFile "/var/lib/cni/glue/c1" [123, 125],
        .delegateAdd "ipvlan" [123, 125], .remove "/var/lib/cni/glue/c1"] ∧
    (cmdAdd failingEnv exampleWorld exampleArgs).2.files "/var/lib/cni/glue/c1"
      = some [123, 125] := by
  decide

/-- C9 (amended): in every run of `cmdAdd` that reaches the delegate driver, the
record dataDir/containerID is written before the driver is invoked; if the
delegate add call fails with error `e`, `cmdAdd` returns exactly `e`, removes
the record after the call, installs no neighbour entry and leaves every other
file unchanged; no record exists at dataDir/containerID afterwards provided
that removal succeeds, and the record stays when the removal fails. -/
theorem C9_attach_rollback_amended (env : Env) (w : World) (args : CmdArgs) (n n1 : NetConf)
    (subnet : GlueSubnetConf) (neighs : List (String × String))
    (h1 : loadNetConf env args.StdinData = .ok n)
    (h2 : loadGlueSubnet env w n.SubnetFile = .ok subnet)
    (h3 : genDelegateInfo env.p6 n subnet = .ok (n1, neighs))
    (h4 : env.mkdirAllErr n1.DataDir = none)
    (h5 : env.writeErr (env.join n1.DataDir args.ContainerID) = none) :
    (∃ rest, (cmdAdd env w args).2.trace = w.trace ++
        [.mkdirAll n1.DataDir,
          .writeFile (env.join n1.DataDir args.ContainerID) (env.marshal n1.Delegate),
          .delegateAdd subnet.Master.Typ (env.marshal n1.Delegate)] ++ rest) ∧
      (∀ e, env.delegateAdd subnet.Master.Typ (env.marshal n1.Delegate) = .error e →
        (cmdAdd env w args).1 = .error e ∧
        (cmdAdd env w args).2.trace = w.trace ++
          [.mkdirAll n1.DataDir,
            .writeFile (env.join n1.DataDir args.ContainerID) (env.marshal n1.Delegate),
            .delegateAdd subnet.Master.Typ (env.marshal n1.Delegate),
            .remove (env.join n1.DataDir args.ContainerID)] ∧
        (cmdAdd env w args).2.neighs = w.neighs ∧
        (∀ p, p ≠ env.join n1.DataDir args.ContainerID →
          (cmdAdd env w args).2.files p = w.files p) ∧
        (env.removeErr (env.join n1.DataDir args.ContainerID) = none →
          (cmdAdd env w args).2.files (env.join n1.DataDir args.ContainerID) = none) ∧
        (env.removeErr (env.join n1.DataDir args.ContainerID) ≠ none →
          (cmdAdd env w args).2.files (env.join n1.DataDir args.ContainerID)
            = some (env.marshal n1.Delegate))) := by
  have hrun := cmdAdd_reaches_delegate env w args n n1 subnet neighs h1 h2 h3 h4 h5
  constructor
  · rw [hrun]
    cases env.delegateAdd subnet.Master.Typ (env.marshal n1.Delegate) with
    | error e =>
      refine ⟨[.remove (env.join n1.DataDir args.ContainerID)], ?_⟩
      simp only [osRemove, World.log]
      split <;> simp
    | ok result =>
      obtain ⟨⟨r, hr⟩, -⟩ := updateNeigh_frame env
        (({ (w.log (.mkdirAll n1.DataDir)).log (.writeFile
              (env.join n1.DataDir args.ContainerID) (env.marshal n1.Delegate)) with
            files := fun p => if p = env.join n1.DataDir args.ContainerID
              then some (env.marshal n1.Delegate) else w.files p } : World).log
          (.delegateAdd subnet.Master.Typ (env.marshal n1.Delegate))) neighs args
      refine ⟨r ++ [.printResult n1.CNIVersion], ?_⟩
      simp only [World.log] at hr ⊢
      rw [hr]
      simp
  · intro e he
    rw [hrun, he]
    simp only [osRemove, World.log]
    cases hrm : env.removeErr (env.join n1.DataDir args.ContainerID) with
    | none =>
      refine ⟨by simp, by simp, by simp, ?_, ?_, ?_⟩
      · intro p hp; simp [hp]
      · intro _; simp
      · intro hc; exact absurd rfl hc
    | some x =>
      refine ⟨by simp, by simp, by simp, ?_, ?_, ?_⟩
      · intro p hp; simp [hp]
      · intro hc; cases hc
      · intro _; simp

theorem C9_attach_rollback_amended_witness :
    loadNetConf rejectingEnv exampleArgs.StdinData = .ok exampleNetConf ∧
    loadGlueSubnet rejectingEnv exampleWorld exampleNetConf.SubnetFile = .ok exampleLoadedSubnet ∧
    rejectingEnv.delegateAdd "ipvlan" [123, 125] = .error "delegate add failed" ∧
    (cmdAdd rejectingEnv exampleWorld exampleArgs).1 = .error "delegate add failed" ∧
    (cmdAdd rejectingEnv exampleWorld exampleArgs).2.files "/var/lib/cni/glue/c1" = none :=
  ⟨rfl, rfl, rfl,
    ((C9_attach_rollback_amended rejectingEnv exampleWorld exampleArgs exampleNetConf
      { exampleNetConf with Delegate := some exampleDelegate } exampleLoadedSubnet
      [("172.24.7.253", "08:60:83:00:00:00")] rfl rfl rfl rfl rfl).2
      "delegate add failed" rfl).1,
    ((C9_attach_rollback_amended rejectingEnv exampleWorld exampleArgs exampleNetConf
      { exampleNetConf with Delegate := some exampleDelegate } exampleLoadedSubnet
      [("172.24.7.253", "08:60:83:00:00:00")] rfl rfl rfl rfl rfl).2
      "delegate add failed" rfl).2.2.2.2.1 rfl⟩

/-- C10: for every well-formed plugin configuration and every container id whose
record file does not exist, `cmdDel` returns nil and leaves the world as it
was: no call is made to the delegate driver and the record store is unchanged.
Consequently, after a detach that returned nil and whose removal of the record
succeeded, a second detach returns nil again without any call. -/
theorem C10_detach_unknown_noop (env : Env) (w : World) (args : CmdArgs) (n : NetConf)
    (h1 : loadNetConf env args.StdinData = .ok n) :
    (w.files (env.join n.DataDir args.ContainerID) = none →
        cmdDel env w args = (.ok (), w)) ∧
      ((cmdDel env w args).1 = .ok () →
        env.removeErr (env.join n.DataDir args.ContainerID) = none →
        cmdDel env (cmdDel env w args).2 args = (.ok (), (cmdDel env w args).2)) := by
  have habs : ∀ w0 : World, w0.files (env.join n.DataDir args.ContainerID) = none →
      cmdDel env w0 args = (.ok (), w0) := by
    intro w0 h
    simp [cmdDel, h1, consumeContNetConf, ReadFile, h]
  refine ⟨habs w, fun hok hrm => ?_⟩
  apply habs
  cases hf : w.files (env.join n.DataDir args.ContainerID) with
  | none => rw [habs w hf]; exact hf
  | some b =>
    simp only [cmdDel, h1, consumeContNetConf, ReadFile, hf]
    cases hr : env.readErr (env.join n.DataDir args.ContainerID) with
    | some e => simp [cmdDel, h1, consumeContNetConf, ReadFile, hf, hr] at hok
    | none =>
      simp only
      cases hdec : env.decodeType b with
      | error e => simp [cmdDel, h1, consumeContNetConf, ReadFile, hf, hr, hdec] at hok
      | ok typ =>
        simp only [osRemove, hrm]
        cases env.delegateDel typ b <;> simp

theorem C10_detach_unknown_noop_witness :
    loadNetConf exampleEnv exampleArgs.StdinData = .ok exampleNetConf ∧
    exampleWorld.files (exampleEnv.join exampleNetConf.DataDir exampleArgs.ContainerID) = none ∧
    cmdDel exampleEnv exampleWorld exampleArgs = (.ok (), exampleWorld) :=
  ⟨rfl, rfl,
    (C10_detach_unknown_noop exampleEnv exampleWorld exampleArgs exampleNetConf rfl).1 rfl⟩

/-! ### Claims C11, C12 and C18: detach cleanup, round trip, totality of `genDelegateInfo` -/

/-- The run of `cmdDel` on a record that is there, reads and parses. -/
theorem cmdDel_of_record (env : Env) (w : World) (args : CmdArgs) (n : NetConf) (b : Bytes)
    (typ : String) (h1 : loadNetConf env args.StdinData = .ok n)
    (hrec : ReadFile env w (env.join n.DataDir args.ContainerID) = .data b)
    (hdec : env.decodeType b = .ok typ) :
    cmdDel env w args =
      (match env.delegateDel typ b with
        | some e => .error e
        | none => .ok (),
       osRemove env (w.log (.delegateDel typ b)) (env.join n.DataDir args.ContainerID)) := by
  simp only [cmdDel, h1, consumeContNetConf, hrec, hdec]
  cases env.delegateDel typ b <;> rfl

/-- C11: for every container id whose persisted record exists, reads and
parses, `cmdDel` invokes the delegate remove operation with the record's bytes
first and then calls `os.Remove` on dataDir/containerID whatever the remove
call returned; the result of `cmdDel` is exactly the result of the remove call,
also when deleting the record fails; when the deletion succeeds the record is
gone, and no other file changes. -/
theorem C11_detach_record_cleanup (env : Env) (w : World) (args : CmdArgs) (n : NetConf)
    (b : Bytes) (typ : String) (h1 : loadNetConf env args.StdinData = .ok n)
    (hrec : ReadFile env w (env.join n.DataDir args.ContainerID) = .data b)
    (hdec : env.decodeType b = .ok typ) :
    (cmdDel env w args).2.trace = w.trace ++
        [.delegateDel typ b, .remove (env.join n.DataDir args.ContainerID)] ∧
      (∀ e, env.delegateDel typ b = some e → (cmdDel env w args).1 = .error e) ∧
      (env.delegateDel typ b = none → (cmdDel env w args).1 = .ok ()) ∧
      (env.removeErr (env.join n.DataDir args.ContainerID) = none →
        (cmdDel env w args).2.files (env.join n.DataDir args.ContainerID) = none) ∧
      (∀ p, p ≠ env.join n.DataDir args.ContainerID →
        (cmdDel env w args).2.files p = w.files p) := by
  rw [cmdDel_of_record env w args n b typ h1 hrec hdec]
  refine ⟨?_, ?_, ?_, ?_, ?_⟩
  · simp only [osRemove, World.log]
    split <;> simp
  · intro e he; simp [he]
  · intro he; simp [he]
  · intro hr; simp [osRemove, hr]
  · intro p hp
    simp only [osRemove, World.log]
    split <;> simp [hp]

theorem C11_detach_record_cleanup_witness :
    loadNetConf exampleEnv exampleArgs.StdinData = .ok exampleNetConf ∧
    ReadFile exampleEnv attachedWorld "/var/lib/cni/glue/c1" = .data [123, 125] ∧
    (cmdDel exampleEnv attachedWorld exampleArgs).2.trace = attachedWorld.trace ++
      [.delegateDel "ipvlan" [123, 125], .remove "/var/lib/cni/glue/c1"] ∧
    (cmdDel exampleEnv attachedWorld exampleArgs).2.files "/var/lib/cni/glue/c1" = none :=
  ⟨rfl, by decide,
    (C11_detach_record_cleanup exampleEnv attachedWorld exampleArgs exampleNetConf [123, 125]
      "ipvlan" rfl (by decide) rfl).1,
    (C11_detach_record_cleanup exampleEnv attachedWorld exampleArgs exampleNetConf [123, 125]
      "ipvlan" rfl (by decide) rfl).2.2.2.1 rfl⟩

/-- A successful run of `cmdAdd`: the record was written with the marshalled
delegate map, the delegate add call received the same bytes, and the record is
still there at the end of the run. -/
theorem cmdAdd_success (env : Env) (w : World) (args : CmdArgs) (n n1 : NetConf)
    (subnet : GlueSubnetConf) (neighs : List (String × String))
    (h1 : loadNetConf env args.StdinData = .ok n)
    (h2 : loadGlueSubnet env w n.SubnetFile = .ok subnet)
    (h3 : genDelegateInfo env.p6 n subnet = .ok (n1, neighs))
    (hok : (cmdAdd env w args).1 = .ok ()) :
    (∃ rest, (cmdAdd env w args).2.trace = w.trace ++
        [.mkdirAll n1.DataDir,
          .writeFile (env.join n1.DataDir args.ContainerID) (env.marshal n1.Delegate),
          .delegateAdd subnet.Master.Typ (env.marshal n1.Delegate)] ++ rest) ∧
      (cmdAdd env w args).2.files (env.join n1.DataDir args.ContainerID)
        = some (env.marshal n1.Delegate) := by
  have ht := (genDelegateInfo_ok_inv env.p6 n n1 subnet neighs h3).1
  have h4 : env.mkdirAllErr n1.DataDir = none := by
    cases h : env.mkdirAllErr n1.DataDir with
    | none => rfl
    | some e => simp [cmdAdd, h1, h2, h3, saveContNetConf, h] at hok
  have h5 : env.writeErr (env.join n1.DataDir args.ContainerID) = none := by
    cases h : env.writeErr (env.join n1.DataDir args.ContainerID) with
    | none => rfl
    | some e => simp [cmdAdd, h1, h2, h3, saveContNetConf, h4, h] at hok
  have hrun := cmdAdd_reaches_delegate env w args n n1 subnet neighs h1 h2 h3 h4 h5
  rw [hrun] at hok ⊢
  cases hda : env.delegateAdd subnet.Master.Typ (env.marshal n1.Delegate) with
  | error e => simp [hda] at hok
  | ok result =>
    obtain ⟨⟨r, hr⟩, hf⟩ := updateNeigh_frame env
      (({ (w.log (.mkdirAll n1.DataDir)).log (.writeFile
            (env.join n1.DataDir args.ContainerID) (env.marshal n1.Delegate)) with
          files := fun p => if p = env.join n1.DataDir args.ContainerID
            then some (env.marshal n1.Delegate) else w.files p } : World).log
        (.delegateAdd subnet.Master.Typ (env.marshal n1.Delegate))) neighs args
    constructor
    · refine ⟨r ++ [.printResult n1.CNIVersion], ?_⟩
      simp only [World.log] at hr ⊢
      rw [hr]
      simp
    · simp only [World.log] at hf ⊢
      rw [hf]
      simp

/-- C12: after a successful `cmdAdd` of a container, a `cmdDel` with the same
container id and data directory, the record unchanged and readable, hands to
the delegate remove call byte for byte the bytes that `cmdAdd` persisted and
handed to the delegate add call (the marshalled delegate map with the IPAM
range generated at attach time); and, for a JSON codec that reads back the
`type` entry it wrote, the driver type `cmdDel` parses from them is the
topology's Master.Type. -/
theorem C12_attach_detach_round_trip (env : Env) (w : World) (args args2 : CmdArgs)
    (n n1 n2 : NetConf) (subnet : GlueSubnetConf) (neighs : List (String × String))
    (h1 : loadNetConf env args.StdinData = .ok n)
    (h2 : loadGlueSubnet env w n.SubnetFile = .ok subnet)
    (h3 : genDelegateInfo env.p6 n subnet = .ok (n1, neighs))
    (hok : (cmdAdd env w args).1 = .ok ())
    (hid : args2.ContainerID = args.ContainerID)
    (h1b : loadNetConf env args2.StdinData = .ok n2) (hdir : n2.DataDir = n1.DataDir)
    (hread : env.readErr (env.join n1.DataDir args.ContainerID) = none)
    (hcodec : ∀ typ, Delegate.lookup n1.Delegate "type" = some (.str typ) →
      env.decodeType (env.marshal n1.Delegate) = .ok typ) :
    (∃ rest, (cmdAdd env w args).2.trace = w.trace ++
        [.mkdirAll n1.DataDir,
          .writeFile (env.join n1.DataDir args.ContainerID) (env.marshal n1.Delegate),
          .delegateAdd subnet.Master.Typ (env.marshal n1.Delegate)] ++ rest) ∧
      (cmdDel env (cmdAdd env w args).2 args2).2.trace = (cmdAdd env w args).2.trace ++
        [.delegateDel subnet.Master.Typ (env.marshal n1.Delegate),
          .remove (env.join n1.DataDir args.ContainerID)] ∧
      env.decodeType (env.marshal n1.Delegate) = .ok subnet.Master.Typ := by
  obtain ⟨htr, hfile⟩ := cmdAdd_success env w args n n1 subnet neighs h1 h2 h3 hok
  have ht := (genDelegateInfo_ok_inv env.p6 n n1 subnet neighs h3).1
  have hdec := hcodec _ ht
  have hrec : ReadFile env (cmdAdd env w args).2 (env.join n2.DataDir args2.ContainerID)
      = .data (env.marshal n1.Delegate) := by
    rw [hdir, hid]
    simp [ReadFile, hfile, hread]
  have hdel := cmdDel_of_record env (cmdAdd env w args).2 args2 n2 _ _ h1b hrec hdec
  refine ⟨htr, ?_, hdec⟩
  rw [hdel, hdir, hid]
  simp only [osRemove, World.log]
  split <;> simp

theorem C12_attach_detach_round_trip_witness :
    (cmdAdd exampleEnv exampleWorld exampleArgs).1 = .ok () ∧
    (∃ rest, (cmdAdd exampleEnv exampleWorld exampleArgs).2.trace = exampleWorld.trace ++
        [.mkdirAll "/var/lib/cni/glue", .writeFile "/var/lib/cni/glue/c1" [123, 125],
          .delegateAdd "ipvlan" [123, 125]] ++ rest) ∧
      (cmdDel exampleEnv (cmdAdd exampleEnv exampleWorld exampleArgs).2 exampleArgs).2.trace =
        (cmdAdd exampleEnv exampleWorld exampleArgs).2.trace ++
          [.delegateDel "ipvlan" [123, 125], .remove "/var/lib/cni/glue/c1"] ∧
      exampleEnv.decodeType [123, 125] = .ok "ipvlan" :=
  ⟨by decide,
    C12_attach_detach_round_trip exampleEnv exampleWorld exampleArgs exampleArgs exampleNetConf
      { exampleNetConf with Delegate := some exampleDelegate } exampleNetConf
      exampleLoadedSubnet [("172.24.7.253", "08:60:83:00:00:00")] rfl rfl rfl (by decide) rfl rfl
      rfl rfl (fun typ h => by
        have e : Delegate.lookup (some exampleDelegate) "type" = some (.str "ipvlan") := rfl
        have h' : Delegate.lookup (some exampleDelegate) "type" = some (.str typ) := h
        rw [e] at h'
        cases h'
        rfl)⟩

/-- C18 (code defect): the topology file without a service network passes the
validation of `loadGlueSubnet`, and for this ipvlan topology with valid IPv4
PodCIDR and NodeCIDR `genDelegateInfo` panics on the nil result of
`ParseCIDR(ServiceCIDR)` instead of returning a configuration or an error, and
so does `cmdAdd`. -/
theorem C18_genDelegateInfo_panics_without_ServiceCIDR :
    loadGlueSubnet noServiceEnv exampleWorld defaultSubnetFile =
      .ok { noServiceSubnet with DefaultNeighMac := "08:60:83:00:00:00" } ∧
    ParsesIPv4 noIPv6 noServiceSubnet.PodCIDR examplePodNet ∧
    ParsesIPv4 noIPv6 noServiceSubnet.NodeCIDR ⟨[172, 24, 7, 0], [255, 255, 255, 0]⟩ ∧
    noServiceSubnet.Master.Typ = "ipvlan" ∧ noServiceSubnet.ServiceCIDR = "" ∧
    genDelegateInfo noIPv6 exampleNetConf
      { noServiceSubnet with DefaultNeighMac := "08:60:83:00:00:00" } = .crash ∧
    (cmdAdd noServiceEnv exampleWorld exampleArgs).1 = .crash :=
  ⟨by decide, by decide, by decide, by decide, by decide, rfl, by decide⟩

/-! ### Claim C17: the u32 key of the redirect filter -/

theorem or4_reverse (A B C D : Nat) : D ||| C ||| B ||| A = A ||| B ||| C ||| D := by
  apply Nat.eq_of_testBit_eq
  intro i
  simp only [Nat.testBit_or]
  cases A.testBit i <;> cases B.testBit i <;> cases C.testBit i <;> cases D.testBit i <;> rfl

theorem BigEndianUint32_bytes (a b c d : Nat) (ha : a < 256) (hb : b < 256) (hc : c < 256)
    (hd : d < 256) : BigEndianUint32 [a, b, c, d] = .ok (beUint32 [a, b, c, d]) := by
  have e := shl_or_bytes a b c d ha hb hc hd
  rw [← or4_reverse] at e
  simp only [BigEndianUint32, beUint32, e]

theorem and_mask32 (x j : Nat) (hx : x < 2 ^ 32) (hj : j ≤ 32) :
    x &&& (2 ^ 32 - 2 ^ j) = x / 2 ^ j * 2 ^ j := by
  have hM : 2 ^ 32 - 2 ^ j = 2 ^ j * (2 ^ (32 - j) - 1) := by
    rw [Nat.mul_sub, ← Nat.pow_add, Nat.mul_one]
    congr 2
    omega
  apply Nat.eq_of_testBit_eq
  intro i
  rw [Nat.testBit_and, hM, Nat.mul_comm (x / 2 ^ j), Nat.testBit_mul_pow_two,
    Nat.testBit_mul_pow_two, Nat.testBit_two_pow_sub_one, ← Nat.shiftRight_eq_div_pow,
    Nat.testBit_shiftRight]
  by_cases hi : j ≤ i
  · have e : j + (i - j) = i := by omega
    rw [e]
    by_cases h32 : i < 32
    · have : i - j < 32 - j := by omega
      simp [hi, this]
    · have : ¬ (i - j < 32 - j) := by omega
      have hb : x.testBit i = false :=
        Nat.testBit_lt_two_pow (lt_of_lt_of_le hx (Nat.pow_le_pow_right (by norm_num) (by omega)))
      simp [hi, this, hb]
  · simp [hi]

theorem beUint32_and_mask (a b c d k : Nat) (ha : a < 256) (hb : b < 256) (hc : c < 256)
    (hd : d < 256) (hk : k ≤ 32) :
    beUint32 [a &&& cidrMaskByte k, b &&& cidrMaskByte (k - 8), c &&& cidrMaskByte (k - 8 - 8),
        d &&& cidrMaskByte (k - 8 - 8 - 8)]
      = beUint32 [a, b, c, d] / 2 ^ (32 - k) * 2 ^ (32 - k) := by
  have h := beUint32_masked a b c d k ha hb hc hd hk
  rw [CIDRMask_32 k hk, IP_Mask_v4] at h
  exact h

theorem beUint32_inj (x0 x1 x2 x3 y0 y1 y2 y3 : Nat) (_h0 : x0 < 256) (h1 : x1 < 256)
    (h2 : x2 < 256) (h3 : x3 < 256) (_g0 : y0 < 256) (g1 : y1 < 256) (g2 : y2 < 256)
    (g3 : y3 < 256) (h : beUint32 [x0, x1, x2, x3] = beUint32 [y0, y1, y2, y3]) :
    [x0, x1, x2, x3] = [y0, y1, y2, y3] := by
  simp only [beUint32] at h
  have e0 : x0 = y0 := by omega
  have e1 : x1 = y1 := by omega
  have e2 : x2 = y2 := by omega
  have e3 : x3 = y3 := by omega
  rw [e0, e1, e2, e3]

theorem beUint32_bytes_of (x : Nat) (hx : x < 2 ^ 32) :
    beUint32 [x / 2 ^ 24 % 256, x / 2 ^ 16 % 256, x / 2 ^ 8 % 256, x % 256] = x := by
  simp only [beUint32]
  omega

theorem Contains_iff (a b c d k x : Nat) (ip : IP) (ha : a < 256) (hb : b < 256) (hc : c < 256)
    (hd : d < 256) (hk : k ≤ 32) (hip : ip = [a, b, c, d] ∨ ip = IPv4 a b c d)
    (hx : x < 2 ^ 32) :
    IPNet.Contains ⟨ip, CIDRMask k 32⟩ (ipOfUint32 x) = true ↔
      beUint32 [a, b, c, d] / 2 ^ (32 - k) * 2 ^ (32 - k) = x / 2 ^ (32 - k) * 2 ^ (32 - k) := by
  have hA := beUint32_and_mask a b c d k ha hb hc hd hk
  have hX := beUint32_and_mask (x / 2 ^ 24 % 256) (x / 2 ^ 16 % 256) (x / 2 ^ 8 % 256)
    (x % 256) k (Nat.mod_lt _ (by norm_num)) (Nat.mod_lt _ (by norm_num))
    (Nat.mod_lt _ (by norm_num)) (Nat.mod_lt _ (by norm_num)) hk
  rw [beUint32_bytes_of x hx] at hX
  have hC : IPNet.Contains ⟨ip, CIDRMask k 32⟩ (ipOfUint32 x) = true ↔
      [a &&& cidrMaskByte k, b &&& cidrMaskByte (k - 8), c &&& cidrMaskByte (k - 8 - 8),
        d &&& cidrMaskByte (k - 8 - 8 - 8)] =
      [x / 2 ^ 24 % 256 &&& cidrMaskByte k, x / 2 ^ 16 % 256 &&& cidrMaskByte (k - 8),
        x / 2 ^ 8 % 256 &&& cidrMaskByte (k - 8 - 8),
        x % 256 &&& cidrMaskByte (k - 8 - 8 - 8)] := by
    rw [CIDRMask_32 k hk]
    rcases hip with rfl | rfl <;>
      simp [IPNet.Contains, IP.To4, ipOfUint32, IPv4, v4InV6Prefix]
  rw [hC, ← hA, ← hX]
  constructor
  · intro h; rw [h]
  · intro h
    exact beUint32_inj _ _ _ _ _ _ _ _
      (Nat.lt_of_le_of_lt Nat.and_le_left ha) (Nat.lt_of_le_of_lt Nat.and_le_left hb)
      (Nat.lt_of_le_of_lt Nat.and_le_left hc) (Nat.lt_of_le_of_lt Nat.and_le_left hd)
      (Nat.lt_of_le_of_lt Nat.and_le_left (Nat.mod_lt _ (by norm_num)))
      (Nat.lt_of_le_of_lt Nat.and_le_left (Nat.mod_lt _ (by norm_num)))
      (Nat.lt_of_le_of_lt Nat.and_le_left (Nat.mod_lt _ (by norm_num)))
      (Nat.lt_of_le_of_lt Nat.and_le_left (Nat.mod_lt _ (by norm_num))) h

theorem createTCU32Filter_v4 (idx a b c d k : Nat) (ip : IP) (ha : a < 256) (hb : b < 256)
    (hc : c < 256) (hd : d < 256) (hk : k ≤ 32) (hip : ip = [a, b, c, d] ∨ ip = IPv4 a b c d) :
    createTCU32Filter idx (some ⟨ip, CIDRMask k 32⟩) =
      .ok { Attrs := { LinkIndex := idx, Handle := 0, Parent := 0, Priority := 40000,
                       Protocol := ETH_P_IP }
            Sel := some { Flags := TC_U32_TERMINAL, Nkeys := 1,
                          Keys := [{ Mask := 2 ^ 32 - 2 ^ (32 - k),
                                     Val := beUint32 [a, b, c, d] / 2 ^ (32 - k) * 2 ^ (32 - k),
                                     Off := 16, OffMask := 0 }] }
            Actions := [] } := by
  have hM := beUint32_CIDRMask ⟨k, by omega⟩
  simp only at hM
  have hA := beUint32_and_mask a b c d k ha hb hc hd hk
  rw [CIDRMask_32 k hk] at hM
  have e1 : IP.To4 (IP.Mask ip [cidrMaskByte k, cidrMaskByte (k - 8), cidrMaskByte (k - 8 - 8),
      cidrMaskByte (k - 8 - 8 - 8)]) = [a &&& cidrMaskByte k, b &&& cidrMaskByte (k - 8),
        c &&& cidrMaskByte (k - 8 - 8), d &&& cidrMaskByte (k - 8 - 8 - 8)] := by
    rcases hip with rfl | rfl <;> simp [IP.Mask, IP.To4, IPv4, v4InV6Prefix]
  have e2 : IP.To4 [cidrMaskByte k, cidrMaskByte (k - 8), cidrMaskByte (k - 8 - 8),
      cidrMaskByte (k - 8 - 8 - 8)] = [cidrMaskByte k, cidrMaskByte (k - 8),
        cidrMaskByte (k - 8 - 8), cidrMaskByte (k - 8 - 8 - 8)] := by
    simp [IP.To4]
  simp only [createTCU32Filter, CIDRMask_32 k hk, e1, e2]
  rw [BigEndianUint32_bytes _ _ _ _ (cidrMaskByte_lt _) (cidrMaskByte_lt _) (cidrMaskByte_lt _)
      (cidrMaskByte_lt _),
    BigEndianUint32_bytes _ _ _ _ (Nat.lt_of_le_of_lt Nat.and_le_left ha)
      (Nat.lt_of_le_of_lt Nat.and_le_left hb) (Nat.lt_of_le_of_lt Nat.and_le_left hc)
      (Nat.lt_of_le_of_lt Nat.and_le_left hd)]
  simp only [Outcome.bind, hM, hA]

/-- C17: for every IPv4 network (address bytes `a.b.c.d` in the 4-byte or the
16-byte form, host bits set or not, prefix length `k`) and every 32-bit
destination `dst`, `createTCU32Filter` returns a filter for protocol IPv4 with
the single key at offset 16 whose mask is the netmask and whose value is the
network address, both read big-endian, and `dst AND key.Mask = key.Val` holds
if and only if `dst` belongs to the network. -/
theorem C17_u32_filter_matches_ServiceCIDR (idx a b c d k dst : Nat) (ip : IP)
    (ha : a < 256) (hb : b < 256) (hc : c < 256) (hd : d < 256) (hk : k ≤ 32)
    (hip : ip = [a, b, c, d] ∨ ip = IPv4 a b c d) (hdst : dst < 2 ^ 32) :
    ∃ f sel key, createTCU32Filter idx (some ⟨ip, CIDRMask k 32⟩) = .ok f ∧
      f.Attrs.Protocol = ETH_P_IP ∧ f.Sel = some sel ∧ sel.Nkeys = 1 ∧ sel.Keys = [key] ∧
      key.Off = 16 ∧
      key.Mask = beUint32 (CIDRMask k 32) ∧
      key.Val = beUint32 [a, b, c, d] / 2 ^ (32 - k) * 2 ^ (32 - k) ∧
      key.Val = beUint32 (IP.To4 (IP.Mask ip (CIDRMask k 32))) ∧
      (dst &&& key.Mask = key.Val ↔
        IPNet.Contains ⟨ip, CIDRMask k 32⟩ (ipOfUint32 dst) = true) := by
  have hM := beUint32_CIDRMask ⟨k, by omega⟩
  simp only at hM
  refine ⟨_, _, _, createTCU32Filter_v4 idx a b c d k ip ha hb hc hd hk hip, rfl, rfl, rfl, rfl,
    rfl, hM.symm, rfl, ?_, ?_⟩
  · simp only
    rw [← beUint32_and_mask a b c d k ha hb hc hd hk, CIDRMask_32 k hk]
    rcases hip with rfl | rfl <;> simp [IP.Mask, IP.To4, IPv4, v4InV6Prefix]
  · simp only
    rw [Contains_iff a b c d k dst ip ha hb hc hd hk hip hdst,
      and_mask32 dst (32 - k) hdst (by omega)]
    constructor
    · intro h; exact h.symm
    · intro h; exact h.symm

theorem C17_u32_filter_matches_ServiceCIDR_witness :
    ∃ f sel key, createTCU32Filter 2 (some ⟨[172, 23, 0, 9], CIDRMask 24 32⟩) = .ok f ∧
      f.Attrs.Protocol = ETH_P_IP ∧ f.Sel = some sel ∧ sel.Nkeys = 1 ∧ sel.Keys = [key] ∧
      key.Off = 16 ∧
      key.Mask = beUint32 (CIDRMask 24 32) ∧
      key.Val = beUint32 [172, 23, 0, 9] / 2 ^ (32 - 24) * 2 ^ (32 - 24) ∧
      key.Val = beUint32 (IP.To4 (IP.Mask [172, 23, 0, 9] (CIDRMask 24 32))) ∧
      (0xac17004d &&& key.Mask = key.Val ↔
        IPNet.Contains ⟨[172, 23, 0, 9], CIDRMask 24 32⟩ (ipOfUint32 0xac17004d) = true) :=
  C17_u32_filter_matches_ServiceCIDR 2 172 23 0 9 24 0xac17004d [172, 23, 0, 9]
    (by decide) (by decide) (by decide) (by decide) (by decide) (Or.inl rfl) (by decide)

/-! ### Claims C13 to C16: the daemon's device, reconciler, filter and teardown -/

theorem LinkByName_mem (env : HostEnv) (h : Host) (name : String) (l : LinkRec)
    (hl : LinkByName env h name = .ok l) : l ∈ h.links ∧ l.Name = name := by
  unfold LinkByName at hl
  split at hl
  · cases hl
  · split at hl
    · next l2 hf =>
      cases hl
      exact ⟨List.mem_of_find?_eq_some hf, by simpa using List.find?_some hf⟩
    · cases hl

theorem LinkByName_congr (env : HostEnv) (h h2 : Host) (name : String)
    (hl : h2.links = h.links) : LinkByName env h2 name = LinkByName env h name := by
  unfold LinkByName
  rw [hl]

/-- C13: for every macvlan topology whose master interface exists, a successful
`AddDevice` creates the link `glue` parented to the master interface with the
mapped mode, and then calls `SetPromiscOn` for the new link `glue`, not for the
master interface: the host's earlier links, the master among them, are left as
they were. -/
theorem C13_promisc_set_on_managed_link (env : HostEnv) (h h2 : Host) (conf : GlueSubnetConf)
    (m : LinkRec) (hty : conf.Master.Typ = "macvlan")
    (hm : LinkByName env h conf.Master.Master = .ok m)
    (hok : AddDevice env h conf = (.ok (), h2)) :
    h2.trace = h.trace ++
      [.linkAdd { Name := "glue", Index := 0, ParentIndex := m.Index,
                  Kind := .macvlan (mapMacvlanMode conf.Master.Mode),
                  Promisc := false, Up := false, Addrs := [] },
       .setPromiscOn "glue"] ∧
    conf.Master.Master ≠ "glue" ∧
    (∃ g, h2.links = h.links ++ [g] ∧ g.Name = "glue" ∧ g.ParentIndex = m.Index ∧
      g.Kind = .macvlan (mapMacvlanMode conf.Master.Mode) ∧
      g.Promisc = (env.setPromiscErr "glue").isNone) ∧
    m ∈ h2.links := by
  obtain ⟨hmem, hname⟩ := LinkByName_mem env h _ m hm
  simp only [AddDevice, hm, hty, if_true, LinkAdd, Host.log, DefaltGlueDeviceName] at hok
  cases hadd : env.linkAddErr "glue" with
  | some e => simp [hadd] at hok
  | none =>
    simp only [hadd] at hok
    by_cases hany : (h.links.any fun l => decide (l.Name = "glue")) = true
    · simp [hany] at hok
    · have hany2 : (h.links.any fun l => decide (l.Name = "glue")) = false :=
        Bool.eq_false_iff.mpr hany
      simp only [hany2, Bool.false_eq_true, if_false] at hok
      have hno : ∀ l ∈ h.links, l.Name ≠ "glue" := by
        intro l hl hn
        apply hany
        simp only [List.any_eq_true, decide_eq_true_eq]
        exact ⟨l, hl, hn⟩
      have hmap : ∀ (f : LinkRec → LinkRec), h.links.map (fun l =>
          if sameLink { Name := "glue", Index := 0, ParentIndex := m.Index,
                        Kind := .macvlan (mapMacvlanMode conf.Master.Mode),
                        Promisc := false, Up := false, Addrs := [] } l = true
          then f l else l) = h.links := by
        intro f
        conv => rhs; rw [← List.map_id h.links]
        apply List.map_congr_left
        intro l hl
        have := hno l hl
        simp [sameLink, this]
      cases hp : env.setPromiscErr "glue" with
      | some e =>
        simp only [SetPromiscOn, Host.log, hp, if_false, Prod.mk.injEq, true_and] at hok
        subst hok
        refine ⟨by simp, ?_, ⟨_, rfl, rfl, rfl, rfl, by simp⟩, by simp [hmem]⟩
        rw [← hname]; exact hno m hmem
      | none =>
        simp only [SetPromiscOn, Host.log, hp, if_false, Prod.mk.injEq, true_and] at hok
        subst hok
        refine ⟨by simp, ?_,
          ⟨{ Name := "glue", Index := freshIndex h.links, ParentIndex := m.Index,
             Kind := .macvlan (mapMacvlanMode conf.Master.Mode), Promisc := true, Up := false,
             Addrs := [] }, ?_, rfl, rfl, rfl, by simp⟩, ?_⟩
        · rw [← hname]; exact hno m hmem
        · simp only [List.map_append, hmap, List.map_cons, List.map_nil]
          simp [sameLink]
        · simp only [List.map_append, hmap]
          simp [hmem]

theorem C13_promisc_set_on_managed_link_witness :
    (AddDevice quietHostEnv exampleHost macvlanExample).2.trace = exampleHost.trace ++
      [.linkAdd { Name := "glue", Index := 0, ParentIndex := 2,
                  Kind := .macvlan (mapMacvlanMode "bridge"),
                  Promisc := false, Up := false, Addrs := [] },
       .setPromiscOn "glue"] ∧
    "enp0s8" ≠ "glue" ∧
    (∃ g, (AddDevice quietHostEnv exampleHost macvlanExample).2.links = exampleHost.links ++ [g] ∧
      g.Name = "glue" ∧ g.ParentIndex = 2 ∧
      g.Kind = .macvlan (mapMacvlanMode "bridge") ∧
      g.Promisc = (quietHostEnv.setPromiscErr "glue").isNone) ∧
    ({ Name := "enp0s8", Index := 2, ParentIndex := 0, Kind := .device,
       Promisc := false, Up := true, Addrs := [] } : LinkRec) ∈
      (AddDevice quietHostEnv exampleHost macvlanExample).2.links :=
  C13_promisc_set_on_managed_link quietHostEnv exampleHost
    (AddDevice quietHostEnv exampleHost macvlanExample).2 macvlanExample
    { Name := "enp0s8", Index := 2, ParentIndex := 0, Kind := .device,
      Promisc := false, Up := true, Addrs := [] } rfl rfl rfl

/-- C14 (as claimed, refuted): on the example host with the ipvlan topology, a
failing address assignment does not end the pass: link-up, the NAT update and
the traffic-control update still run, the link `glue` is left without address
and `UpdateGlueDev` returns nil.  Likewise a failing NAT update (the chain
cannot be created, so no rule is appended) is followed by the traffic-control
update, and `UpdateGlueDev` returns nil. -/
theorem C14_failure_aborts_pass_counterexample :
    (AddrAdd addrFailingEnv exampleHost
      { Name := "glue", Index := 3, ParentIndex := 2, Kind := .ipvlan .L2, Promisc := false,
        Up := false, Addrs := [] } "172.24.6.0/21").1 = .error "permission denied" ∧
    (UpdateGlueDev addrFailingEnv exampleHost ipvlanExample).1 = .ok () ∧
    (UpdateGlueDev addrFailingEnv exampleHost ipvlanExample).2.trace =
      [.linkAdd { Name := "glue", Index := 0, ParentIndex := 2, Kind := .ipvlan .L2,
                  Promisc := false, Up := false, Addrs := [] },
       .addrAdd "glue" "172.24.6.0/21",
       .linkSetUp "glue",
       .iptNewChain "nat" "GLUE-PREROUTING",
       .iptAppend "nat" "GLUE-PREROUTING"
         ["-s", "172.24.6.0/24", "-d", "172.23.0.0/24", "-i", "glue", "-j", "KUBE-MARK-MASQ"],
       .iptInsert "nat" "PREROUTING" 1 ["-j", "GLUE-PREROUTING"],
       .qdiscReplace 2 "clsact",
       .filterAdd (.u32
         { Attrs := { LinkIndex := 2, Handle := 0, Parent := 0xFFFFFFF3, Priority := 40000,
                      Protocol := 0x0800 }
           Sel := some { Flags := 1, Nkeys := 1,
                         Keys := [{ Mask := 0xFFFFFF00, Val := 0xAC170000, Off := 16,
                                    OffMask := 0 }] }
           Actions := [{ MirredAction := 3, Ifindex := 3 }] })] ∧
    (UpdateGlueDev addrFailingEnv exampleHost ipvlanExample).2.links =
      [{ Name := "enp0s8", Index := 2, ParentIndex := 0, Kind := .device, Promisc := false,
         Up := true, Addrs := [] },
       { Name := "glue", Index := 3, ParentIndex := 2, Kind := .ipvlan .L2, Promisc := false,
         Up := true, Addrs := [] }] ∧
    (UpdateIptables natFailingEnv exampleHost ipvlanExample).1 =
      .error "exit status 3: Permission denied" ∧
    (UpdateGlueDev natFailingEnv exampleHost ipvlanExample).1 = .ok () ∧
    (UpdateGlueDev natFailingEnv exampleHost ipvlanExample).2.trace =
      [.linkAdd { Name := "glue", Index := 0, ParentIndex := 2, Kind := .ipvlan .L2,
                  Promisc := false, Up := false, Addrs := [] },
       .addrAdd "glue" "172.24.6.0/21",
       .linkSetUp "glue",
       .iptNewChain "nat" "GLUE-PREROUTING",
       .qdiscReplace 2 "clsact",
       .filterAdd (.u32
         { Attrs := { LinkIndex := 2, Handle := 0, Parent := 0xFFFFFFF3, Priority := 40000,
                      Protocol := 0x0800 }
           Sel := some { Flags := 1, Nkeys := 1,
                         Keys := [{ Mask := 0xFFFFFF00, Val := 0xAC170000, Off := 16,
                                    OffMask := 0 }] }
           Actions := [{ MirredAction := 3, Ifindex := 3 }] })] ∧
    (UpdateGlueDev natFailingEnv exampleHost ipvlanExample).2.rules = [] := by
  refine ⟨rfl, rfl, rfl, rfl, rfl, rfl, rfl, rfl⟩

/-- C14 (amended): for every topology, host and outcome of the external
operations, a failure of the device removal, of the device creation, of the
lookup of the created link, of the plan computation or (for ipvlan) of the
traffic-control update ends the pass in the state that step left, and
`UpdateGlueDev` returns a non-nil error; a failing address assignment does not
end the pass: when link-up, NAT update and traffic-control update succeed,
`UpdateGlueDev` returns nil whatever `AddrAdd` returned. -/
theorem C14_failure_aborts_pass_amended (env : HostEnv) (h : Host) (conf : GlueSubnetConf) :
    (∀ e h1, CleanDevices env h = (.error e, h1) →
      UpdateGlueDev env h conf =
        (.error ("ERROR: CleanDevices old config fail - " ++ e ++ "\n"), h1)) ∧
    (∀ h1 e h2, CleanDevices env h = (.ok (), h1) → AddDevice env h1 conf = (.error e, h2) →
      UpdateGlueDev env h conf =
        (.error ("ERROR: Add glue device fail, err=" ++ e ++ "\n"), h2)) ∧
    (∀ h1 h2 e, CleanDevices env h = (.ok (), h1) → AddDevice env h1 conf = (.ok (), h2) →
      LinkByName env h2 DefaltGlueDeviceName = .error e →
      UpdateGlueDev env h conf = (.error e, h2)) ∧
    (∀ h1 h2 glueDev e, CleanDevices env h = (.ok (), h1) →
      AddDevice env h1 conf = (.ok (), h2) →
      LinkByName env h2 DefaltGlueDeviceName = .ok glueDev →
      getNetInfo env.p6 conf = .error e →
      UpdateGlueDev env h conf = (.error e, h2)) ∧
    (∀ h1 h2 glueDev ni myip a h3 h4 h5,
      CleanDevices env h = (.ok (), h1) → AddDevice env h1 conf = (.ok (), h2) →
      LinkByName env h2 DefaltGlueDeviceName = .ok glueDev →
      getNetInfo env.p6 conf = .ok ni →
      ParseCIDR env.p6 conf.PodCIDR = some myip →
      ParseCIDR env.p6 (IPNet.String { myip with IP := ni.nodeIP }) = some a →
      h3 = (AddrAdd env h2 glueDev (IPNet.String { myip with IP := ni.nodeIP })).2 →
      h4 = (LinkSetUp env h3 glueDev).2 →
      h5 = (UpdateIptables env h4 conf).2 →
      (∀ e h6, conf.Master.Typ = "ipvlan" → UpdateIpvlanTcConfig env h5 conf = (.error e, h6) →
        UpdateGlueDev env h conf = (.error "update ipvlan paras failed\n", h6)) ∧
      ((LinkSetUp env h3 glueDev).1 = .ok () → (UpdateIptables env h4 conf).1 = .ok () →
        (conf.Master.Typ = "ipvlan" → (UpdateIpvlanTcConfig env h5 conf).1 = .ok ()) →
        (UpdateGlueDev env h conf).1 = .ok ())) := by
  refine ⟨?_, ?_, ?_, ?_, ?_⟩
  · intro e h1 hc
    simp only [UpdateGlueDev, hc]
  · intro h1 e h2 hc ha
    simp only [UpdateGlueDev, hc, ha]
  · intro h1 h2 e hc ha hl
    simp only [UpdateGlueDev, hc, ha, hl]
  · intro h1 h2 g e hc ha hl hn
    simp only [UpdateGlueDev, hc, ha, hl, hn]
  · intro h1 h2 g ni myip a h3 h4 h5 hc ha hl hn hp hp2 e3 e4 e5
    subst e3 e4 e5
    refine ⟨?_, ?_⟩
    · intro e h6 hty htc
      simp only [UpdateGlueDev, hc, ha, hl, hn, hp, hp2, hty, if_true, htc]
    · intro _ _ htc
      by_cases hty : conf.Master.Typ = "ipvlan"
      · have := htc hty
        simp only [UpdateGlueDev, hc, ha, hl, hn, hp, hp2, hty, if_true]
        revert this
        generalize UpdateIpvlanTcConfig env _ conf = r
        rcases r with ⟨o, hh⟩
        intro this
        simp only at this
        subst this
        rfl
      · simp only [UpdateGlueDev, hc, ha, hl, hn, hp, hp2, hty, if_false]

theorem C14_failure_aborts_pass_amended_witness :
    UpdateGlueDev delFailingEnv convergedHost ipvlanExample =
      (.error "ERROR: CleanDevices old config fail - operation not permitted\n",
       convergedHost.log (.linkDel "glue")) ∧
    (UpdateGlueDev addrFailingEnv exampleHost ipvlanExample).1 = .ok () :=
  ⟨(C14_failure_aborts_pass_amended delFailingEnv convergedHost ipvlanExample).1
    "operation not permitted" (convergedHost.log (.linkDel "glue")) rfl,
   ((C14_failure_aborts_pass_amended addrFailingEnv exampleHost ipvlanExample).2.2.2.2
    exampleHost (AddDevice addrFailingEnv exampleHost ipvlanExample).2
    { Name := "glue", Index := 3, ParentIndex := 2, Kind := .ipvlan .L2, Promisc := false,
      Up := false, Addrs := [] }
    _ _ _ _ _ _ rfl rfl rfl rfl rfl rfl rfl rfl rfl).2 rfl rfl (fun _ => rfl)⟩

theorem createTCU32Filter_shape (p6 : List Char → Option (List Nat)) (s : String) (net : IPNet)
    (idx : Nat) (hnet : ParsesIPv4 p6 s net) :
    ∃ key, createTCU32Filter idx (some net) =
      .ok { Attrs := { LinkIndex := idx, Handle := 0, Parent := 0, Priority := 40000,
                       Protocol := ETH_P_IP }
            Sel := some { Flags := TC_U32_TERMINAL, Nkeys := 1, Keys := [key] }
            Actions := [] } := by
  obtain ⟨a, b, c, d, n, ha, hb, hc, hd, hn, rfl⟩ := ParseCIDR_v4 p6 s net hnet.1 hnet.2
  rw [CIDRMask_32 n hn, IP_Mask_v4]
  exact ⟨_, rfl⟩

theorem filterMatch_listed (u : U32) (sel : TcU32Sel) (key : TcU32Key) (link : LinkRec)
    (parent : Nat) (f : Filter) (hu : u.Sel = some sel) (hk : sel.Keys = [key])
    (hf : listed link parent f = true) : ∃ b, filterMatch u f = .ok b := by
  cases f with
  | generic a k => exact ⟨false, rfl⟩
  | u32 t =>
    simp only [listed, Bool.and_eq_true] at hf
    obtain ⟨tsel, ht⟩ := Option.isSome_iff_exists.mp hf.2
    simp only [filterMatch, hu, ht, hk]
    split
    · exact ⟨false, rfl⟩
    · split
      · exact ⟨false, rfl⟩
      · next hlen =>
        cases hks : tsel.Keys with
        | nil => simp [hks] at hlen
        | cons tk rest =>
          simp only
          split
          · exact ⟨false, rfl⟩
          · exact ⟨true, rfl⟩

theorem filterMatch_self (u : U32) (sel : TcU32Sel) (key : TcU32Key) (hu : u.Sel = some sel)
    (hk : sel.Keys = [key]) : filterMatch u (.u32 u) = .ok true := by
  simp [filterMatch, hu, hk]

/-- `filterMatch` reads only link index, protocol and selector of the new
filter. -/
theorem filterMatch_congr (u v : U32) (f : Filter)
    (h1 : u.Attrs.LinkIndex = v.Attrs.LinkIndex) (h2 : u.Attrs.Protocol = v.Attrs.Protocol)
    (h3 : u.Sel = v.Sel) : filterMatch u f = filterMatch v f := by
  cases f with
  | generic a k => rfl
  | u32 t => simp only [filterMatch, h1, h2, h3]

theorem deleteMatching_spec (env : HostEnv) (u : U32) (hdel : ∀ f, env.filterDelErr f = none)
    (fs : List Filter) : ∀ (h : Host), (∀ f ∈ fs, ∃ b, filterMatch u f = .ok b) →
    (deleteMatching env u fs h).1 = .ok () ∧
    (deleteMatching env u fs h).2.filters =
      h.filters.filter (fun g => !(decide (g ∈ fs) && decide (filterMatch u g = .ok true))) ∧
    (deleteMatching env u fs h).2.links = h.links ∧
    (deleteMatching env u fs h).2.qdiscs = h.qdiscs := by
  induction fs with
  | nil => intro h _; simp [deleteMatching]
  | cons f rest ih =>
    intro h hall
    obtain ⟨b, hb⟩ := hall f (List.mem_cons_self _ _)
    have hrest : ∀ g ∈ rest, ∃ b, filterMatch u g = .ok b :=
      fun g hg => hall g (List.mem_cons_of_mem _ hg)
    cases b with
    | true =>
      simp only [deleteMatching, hb]
      obtain ⟨i1, i2, i3, i4⟩ := ih (FilterDel env h f).2 hrest
      refine ⟨i1, ?_, ?_, ?_⟩
      · rw [i2]
        simp only [FilterDel, Host.log, hdel, List.filter_filter]
        apply List.filter_congr
        intro g _
        by_cases hg : g = f
        · subst hg; simp [hb]
        · simp [hg]
      · rw [i3]; simp [FilterDel, Host.log, hdel]
      · rw [i4]; simp [FilterDel, Host.log, hdel]
    | false =>
      simp only [deleteMatching, hb]
      obtain ⟨i1, i2, i3, i4⟩ := ih h hrest
      refine ⟨i1, ?_, i3, i4⟩
      rw [i2]
      apply List.filter_congr
      intro g _
      by_cases hg : g = f
      · subst hg; simp [hb]
      · simp [hg]

theorem addClsact_ok (env : HostEnv) (h : Host) (l : LinkRec) (hq1 : env.qdiscListErr = none)
    (hq2 : env.qdiscReplaceErr = none) :
    ∃ h1, addClsact env h (some l) = (.ok (), h1) ∧ h1.filters = h.filters ∧
      h1.links = h.links := by
  simp only [addClsact, hq1, hq2, Host.log]
  split
  · exact ⟨_, rfl, rfl, rfl⟩
  · exact ⟨_, rfl, rfl, rfl⟩

/-- One run of `UpdateIpvlanTcConfig` with the external operations succeeding:
the listed filters that match are gone, the new filter is the last one. -/
theorem UpdateIpvlanTcConfig_run (env : HostEnv) (h : Host) (conf : GlueSubnetConf)
    (master glue : LinkRec) (svc : IPNet) (base : U32) (sel : TcU32Sel) (key : TcU32Key)
    (hq1 : env.qdiscListErr = none) (hq2 : env.qdiscReplaceErr = none)
    (hfl : env.filterListErr = none) (hfd : ∀ f, env.filterDelErr f = none)
    (hfa : env.filterAddErr = none)
    (hm : LinkByName env h conf.Master.Master = .ok master)
    (hg : LinkByName env h DefaltGlueDeviceName = .ok glue)
    (hsvc : ParseCIDR env.p6 conf.ServiceCIDR = some svc)
    (hbase : createTCU32Filter master.Index (some svc) = .ok base)
    (hsel : base.Sel = some sel) (hkeys : sel.Keys = [key]) :
    (UpdateIpvlanTcConfig env h conf).1 = .ok () ∧
    (UpdateIpvlanTcConfig env h conf).2.filters =
      h.filters.filter (fun g => !(listed master egressParent g &&
        decide (filterMatch base g = .ok true))) ++
      [.u32 { base with Attrs := { base.Attrs with Parent := egressParent },
                        Actions := creatTCRedirectActions glue.Index }] ∧
    (UpdateIpvlanTcConfig env h conf).2.links = h.links := by
  obtain ⟨h1, hc, hf1, hl1⟩ := addClsact_ok env h master hq1 hq2
  have hall : ∀ f ∈ h1.filters.filter (listed master egressParent),
      ∃ b, filterMatch { base with Actions := creatTCRedirectActions glue.Index } f = .ok b := by
    intro f hf
    exact filterMatch_listed _ sel key master egressParent f hsel hkeys (List.mem_filter.mp hf).2
  obtain ⟨d1, d2, d3, _⟩ := deleteMatching_spec env
    { base with Actions := creatTCRedirectActions glue.Index } hfd _ h1 hall
  simp only [UpdateIpvlanTcConfig, hm, hg, linkOrNil, hc, hsvc, hbase, FilterList, hfl]
  rcases hdm : deleteMatching env { base with Actions := creatTCRedirectActions glue.Index }
    (h1.filters.filter (listed master egressParent)) h1 with ⟨o, h2⟩
  rw [hdm] at d1 d2 d3
  simp only at d1 d2 d3
  subst d1
  simp only [FilterAdd, hfa, Host.log, d2, d3, hl1, hf1, true_and, and_true]
  congr 1
  apply List.filter_congr
  intro g hgm
  have e : filterMatch { base with Actions := creatTCRedirectActions glue.Index } g =
      filterMatch base g := filterMatch_congr _ _ g rfl rfl rfl
  rw [e]
  simp [List.mem_filter, hgm]


theorem filter_replace {α : Type} (L m : α → Bool) (xs : List α) (x : α) (hL : L x = true)
    (hm : m x = true) :
    (xs.filter (fun g => !(L g && m g)) ++ [x]).filter L =
      (xs.filter L).filter (fun f => !m f) ++ [x] ∧
    ((xs.filter L).filter (fun f => !m f) ++ [x]).filter m = [x] ∧
    (xs.filter (fun g => !(L g && m g)) ++ [x]).filter (fun g => !(L g && m g)) ++ [x] =
      xs.filter (fun g => !(L g && m g)) ++ [x] := by
  refine ⟨?_, ?_, ?_⟩
  · simp only [List.filter_append, List.filter_filter, List.filter_cons, hL, List.filter_nil,
      if_true]
    congr 1
    apply List.filter_congr
    intro g _
    cases L g <;> simp
  · simp only [List.filter_append, List.filter_filter, List.filter_cons, hm, List.filter_nil,
      if_true]
    have : List.filter (fun a => m a && (!m a && L a)) xs = [] := by
      rw [List.filter_eq_nil_iff]
      intro g _
      cases m g <;> simp
    rw [this, List.nil_append]
  · simp only [List.filter_append, List.filter_filter, List.filter_cons, hL, hm, List.filter_nil,
      Bool.and_self, Bool.not_true, Bool.false_eq_true, if_false, List.append_nil]

/-- The two runs of `UpdateIpvlanTcConfig` for a new filter `base` as
`createTCU32Filter` returns it. -/
theorem UpdateIpvlanTcConfig_twice (env : HostEnv) (h : Host) (conf : GlueSubnetConf)
    (master glue : LinkRec) (svc : IPNet) (base new : U32) (sel : TcU32Sel) (key : TcU32Key)
    (old : List Filter)
    (hq1 : env.qdiscListErr = none) (hq2 : env.qdiscReplaceErr = none)
    (hfl : env.filterListErr = none) (hfd : ∀ f, env.filterDelErr f = none)
    (hfa : env.filterAddErr = none)
    (hm : LinkByName env h conf.Master.Master = .ok master)
    (hg : LinkByName env h DefaltGlueDeviceName = .ok glue)
    (hsvc : ParseCIDR env.p6 conf.ServiceCIDR = some svc)
    (hbase : createTCU32Filter master.Index (some svc) = .ok base)
    (hsel : base.Sel = some sel) (hkeys : sel.Keys = [key])
    (hidx : base.Attrs.LinkIndex = master.Index)
    (hnew : new = { base with Attrs := { base.Attrs with Parent := egressParent },
                              Actions := creatTCRedirectActions glue.Index })
    (hold : FilterList env h master egressParent = .ok old) :
    ∃ h1 h2,
      UpdateIpvlanTcConfig env h conf = (.ok (), h1) ∧
      FilterList env h1 master egressParent =
        .ok (old.filter (fun f => !decide (filterMatch new f = .ok true)) ++ [Filter.u32 new]) ∧
      (old.filter (fun f => !decide (filterMatch new f = .ok true)) ++ [Filter.u32 new]).filter
        (fun f => decide (filterMatch new f = .ok true)) = [Filter.u32 new] ∧
      (∀ f ∈ old, filterMatch new f ≠ .ok true →
        f ∈ old.filter (fun f => !decide (filterMatch new f = .ok true)) ++ [Filter.u32 new]) ∧
      UpdateIpvlanTcConfig env h1 conf = (.ok (), h2) ∧
      h2.filters = h1.filters := by
  have hmn : ∀ f, filterMatch base f = filterMatch new f := by
    intro f; subst hnew; exact filterMatch_congr _ _ f rfl rfl rfl
  have hfun : (fun g => !(listed master egressParent g &&
      decide (filterMatch base g = .ok true))) =
      (fun g => !(listed master egressParent g && decide (filterMatch new g = .ok true))) := by
    funext g; rw [hmn]
  have hself : decide (filterMatch new (.u32 new) = .ok true) = true := by
    have : new.Sel = some sel := by subst hnew; exact hsel
    simp [filterMatch_self new sel key this hkeys]
  have hlist : listed master egressParent (.u32 new) = true := by
    subst hnew; simp [listed, Filter.attrs, hidx, hsel]
  have run1 := UpdateIpvlanTcConfig_run env h conf master glue svc base sel key hq1 hq2 hfl hfd
    hfa hm hg hsvc hbase hsel hkeys
  have hm2 := (LinkByName_congr env h _ conf.Master.Master run1.2.2).trans hm
  have hg2 := (LinkByName_congr env h _ DefaltGlueDeviceName run1.2.2).trans hg
  have run2 := UpdateIpvlanTcConfig_run env _ conf master glue svc base sel key hq1 hq2 hfl hfd
    hfa hm2 hg2 hsvc hbase hsel hkeys
  rw [← hnew, hfun] at run1 run2
  simp only [FilterList, hfl, Except.ok.injEq] at hold
  subst hold
  obtain ⟨l1, l2, l3⟩ := filter_replace (listed master egressParent)
    (fun f => decide (filterMatch new f = .ok true)) h.filters (.u32 new) hlist hself
  refine ⟨(UpdateIpvlanTcConfig env h conf).2,
    (UpdateIpvlanTcConfig env (UpdateIpvlanTcConfig env h conf).2 conf).2,
    Prod.ext run1.1 rfl, ?_, l2, ?_, Prod.ext run2.1 rfl, ?_⟩
  · simp only [FilterList, hfl, run1.2.1]
    rw [l1]
  · intro f hf hne
    apply List.mem_append_left
    rw [List.mem_filter]
    exact ⟨hf, by simpa using hne⟩
  · rw [run2.2.1, run1.2.1]
    exact l3

/-- For a new filter with exactly one key, `filterMatch` accepts a filter
exactly when it has the same match criteria in the specification's sense. -/
theorem filterMatch_iff_sameMatchCriteria (u : U32) (sel : TcU32Sel) (key : TcU32Key)
    (hu : u.Sel = some sel) (hk : sel.Keys = [key]) (f : Filter) :
    filterMatch u f = .ok true ↔ sameMatchCriteria u f = true := by
  cases f with
  | generic a k => simp [filterMatch, sameMatchCriteria]
  | u32 t =>
    cases ht : t.Sel with
    | none =>
      simp only [filterMatch, sameMatchCriteria, hu, ht]
      split <;> simp
    | some tsel =>
      simp only [filterMatch, sameMatchCriteria, hu, ht, hk, decide_eq_true_eq]
      rcases hks : tsel.Keys with _ | ⟨tk, _ | ⟨tk2, rest⟩⟩
      · by_cases h1 : u.Attrs.LinkIndex ≠ t.Attrs.LinkIndex ∨
            u.Attrs.Protocol ≠ t.Attrs.Protocol <;> simp [h1]
      · by_cases h1 : u.Attrs.LinkIndex ≠ t.Attrs.LinkIndex ∨
            u.Attrs.Protocol ≠ t.Attrs.Protocol
        · simp only [h1, if_true]
          constructor
          · intro h; cases h
          · rintro ⟨a, b, _⟩
            rcases h1 with h1 | h1
            · exact absurd a h1
            · exact absurd b h1
        · simp only [h1, if_false]
          have h2 := not_or.mp h1
          simp only [ne_eq, not_not] at h2
          by_cases h3 : key.Mask ≠ tk.Mask ∨ key.Off ≠ tk.Off ∨ key.Val ≠ tk.Val
          · simp only [List.length_singleton, ne_eq, not_true_eq_false, if_false, h3, if_true,
              List.map_cons, List.map_nil, keyCriteria, List.cons.injEq, Prod.mk.injEq, and_true]
            constructor
            · intro h; cases h
            · rintro ⟨_, _, _, a, b, c⟩
              rcases h3 with h3 | h3 | h3
              · exact absurd a h3
              · exact absurd b h3
              · exact absurd c h3
          · have h4 : key.Mask = tk.Mask ∧ key.Off = tk.Off ∧ key.Val = tk.Val := by
              simp only [not_or, ne_eq, not_not] at h3
              exact h3
            simp [h3, h2.1, h2.2, keyCriteria, h4.1, h4.2.1, h4.2.2]
      · by_cases h1 : u.Attrs.LinkIndex ≠ t.Attrs.LinkIndex ∨
            u.Attrs.Protocol ≠ t.Attrs.Protocol <;> simp [h1]


/-- For a filter with exactly one key, the specification's criteria spelled
out: same link, same protocol, one key, and that key's mask, offset and
value. -/
theorem sameMatchCriteria_one_key (u t : U32) (sel : TcU32Sel) (key : TcU32Key)
    (hu : u.Sel = some sel) (hk : sel.Keys = [key]) :
    sameMatchCriteria u (.u32 t) = true ↔
      t.Attrs.LinkIndex = u.Attrs.LinkIndex ∧ t.Attrs.Protocol = u.Attrs.Protocol ∧
      ∃ tsel tk, t.Sel = some tsel ∧ tsel.Keys = [tk] ∧ tk.Mask = key.Mask ∧
        tk.Off = key.Off ∧ tk.Val = key.Val := by
  cases ht : t.Sel with
  | none => simp [sameMatchCriteria, hu, ht]
  | some tsel =>
    simp only [sameMatchCriteria, hu, ht, hk, decide_eq_true_eq, Option.some.injEq,
      List.map_cons, List.map_nil, List.length_singleton]
    constructor
    · rintro ⟨a, b, c, d⟩
      rcases hks : tsel.Keys with _ | ⟨tk, _ | ⟨tk2, rest⟩⟩
      · rw [hks] at c; simp at c
      · rw [hks] at d
        simp only [List.map_cons, List.map_nil, keyCriteria, List.cons.injEq, Prod.mk.injEq,
          and_true] at d
        exact ⟨a.symm, b.symm, tsel, tk, rfl, hks, d.1.symm, d.2.1.symm, d.2.2.symm⟩
      · rw [hks] at c; simp at c
    · rintro ⟨a, b, tsel2, tk, e, hks, m, o, v⟩
      subst e
      rw [hks]
      simp [keyCriteria, a, b, m, o, v]

/-- The two runs of `UpdateIpvlanTcConfig`, told in the specification's
criteria and without reference to the order of the list. -/
theorem UpdateIpvlanTcConfig_criteria (env : HostEnv) (h : Host) (conf : GlueSubnetConf)
    (master glue : LinkRec) (svc : IPNet) (base new : U32) (sel : TcU32Sel) (key : TcU32Key)
    (old : List Filter)
    (hq1 : env.qdiscListErr = none) (hq2 : env.qdiscReplaceErr = none)
    (hfl : env.filterListErr = none) (hfd : ∀ f, env.filterDelErr f = none)
    (hfa : env.filterAddErr = none)
    (hm : LinkByName env h conf.Master.Master = .ok master)
    (hg : LinkByName env h DefaltGlueDeviceName = .ok glue)
    (hsvc : ParseCIDR env.p6 conf.ServiceCIDR = some svc)
    (hbase : createTCU32Filter master.Index (some svc) = .ok base)
    (hsel : base.Sel = some sel) (hkeys : sel.Keys = [key])
    (hidx : base.Attrs.LinkIndex = master.Index)
    (hnew : new = { base with Attrs := { base.Attrs with Parent := egressParent },
                              Actions := creatTCRedirectActions glue.Index })
    (hold : FilterList env h master egressParent = .ok old) :
    ∃ h1 after h2,
      UpdateIpvlanTcConfig env h conf = (.ok (), h1) ∧
      FilterList env h1 master egressParent = .ok after ∧
      after.Perm (old.filter (fun f => !sameMatchCriteria new f) ++ [Filter.u32 new]) ∧
      after.countP (sameMatchCriteria new) = 1 ∧
      (∀ f, sameMatchCriteria new f = false → after.count f = old.count f) ∧
      UpdateIpvlanTcConfig env h1 conf = (.ok (), h2) ∧
      h2.filters = h1.filters ∧
      FilterList env h2 master egressParent = .ok after := by
  obtain ⟨h1, h2, r1, r2, _, _, r5, r6⟩ := UpdateIpvlanTcConfig_twice env h conf master glue svc
    base new sel key old hq1 hq2 hfl hfd hfa hm hg hsvc hbase hsel hkeys hidx hnew hold
  have hnsel : new.Sel = some sel := by subst hnew; exact hsel
  have hfun : (fun f => !decide (filterMatch new f = .ok true)) =
      (fun f => !sameMatchCriteria new f) := by
    funext f
    congr 1
    rw [Bool.eq_iff_iff, decide_eq_true_eq]
    exact filterMatch_iff_sameMatchCriteria new sel key hnsel hkeys f
  rw [hfun] at r2
  have hself : sameMatchCriteria new (.u32 new) = true :=
    (filterMatch_iff_sameMatchCriteria new sel key hnsel hkeys _).mp
      (filterMatch_self new sel key hnsel hkeys)
  refine ⟨h1, _, h2, r1, r2, List.Perm.refl _, ?_, ?_, r5, r6, ?_⟩
  · rw [List.countP_append]
    have : List.countP (sameMatchCriteria new)
        (old.filter (fun f => !sameMatchCriteria new f)) = 0 := by
      rw [List.countP_eq_zero]
      intro f hf
      have := (List.mem_filter.mp hf).2
      simpa using this
    rw [this]
    simp only [List.countP_cons, List.countP_nil]
    rw [hself]
    rfl
  · intro f hf
    rw [List.count_append, List.count_filter (by simp [hf])]
    have hne : f ≠ Filter.u32 new := by
      intro e
      rw [e, hself] at hf
      cases hf
    simp [List.count_cons, hne.symm]
  · simp only [FilterList, hfl, r6] at r2 ⊢
    exact r2

/-- C15: for every host state (so for every initial list `old` of egress
filters on the master interface) and every topology whose ServiceCIDR is an
IPv4 block, when the external operations succeed, `UpdateIpvlanTcConfig`
returns success.  The new filter has one key; a filter has its match criteria,
in the words of the specification, exactly when it is a u32 filter on the
master's link index with protocol IP and one key of the same mask, offset and
value.  Afterwards the egress filter list holds, in some order, the old filters
without those that have the new filter's match criteria, and one added filter
with these criteria, at the egress attachment point, redirecting to `glue`:
exactly one listed filter has these criteria, and every filter without them is
listed as often as before.  A second run with the unchanged topology returns
success and leaves the same filters and the same egress filter list. -/
theorem C15_no_duplicate_filter (env : HostEnv) (h : Host) (conf : GlueSubnetConf)
    (master glue : LinkRec) (svc : IPNet) (old : List Filter)
    (hq1 : env.qdiscListErr = none) (hq2 : env.qdiscReplaceErr = none)
    (hfl : env.filterListErr = none) (hfd : ∀ f, env.filterDelErr f = none)
    (hfa : env.filterAddErr = none)
    (hm : LinkByName env h conf.Master.Master = .ok master)
    (hg : LinkByName env h DefaltGlueDeviceName = .ok glue)
    (hsvc : ParsesIPv4 env.p6 conf.ServiceCIDR svc)
    (hold : FilterList env h master egressParent = .ok old) :
    ∃ base sel key new h1 after added h2,
      createTCU32Filter master.Index (some svc) = .ok base ∧
      base.Sel = some sel ∧ sel.Keys = [key] ∧
      new = { base with Attrs := { base.Attrs with Parent := egressParent },
                        Actions := creatTCRedirectActions glue.Index } ∧
      (∀ t : U32, sameMatchCriteria new (.u32 t) = true ↔
        t.Attrs.LinkIndex = master.Index ∧ t.Attrs.Protocol = ETH_P_IP ∧
        ∃ tsel tk, t.Sel = some tsel ∧ tsel.Keys = [tk] ∧ tk.Mask = key.Mask ∧
          tk.Off = key.Off ∧ tk.Val = key.Val) ∧
      (∀ kind attrs, sameMatchCriteria new (.generic attrs kind) = false) ∧
      UpdateIpvlanTcConfig env h conf = (.ok (), h1) ∧
      FilterList env h1 master egressParent = .ok after ∧
      after.Perm (old.filter (fun f => !sameMatchCriteria new f) ++ [Filter.u32 added]) ∧
      sameMatchCriteria new (.u32 added) = true ∧
      added.Attrs.Parent = egressParent ∧ added.Attrs.Priority = 40000 ∧
      added.Actions = creatTCRedirectActions glue.Index ∧
      after.countP (sameMatchCriteria new) = 1 ∧
      (∀ f, sameMatchCriteria new f = false → after.count f = old.count f) ∧
      UpdateIpvlanTcConfig env h1 conf = (.ok (), h2) ∧
      h2.filters = h1.filters ∧
      FilterList env h2 master egressParent = .ok after := by
  obtain ⟨key, hbase⟩ := createTCU32Filter_shape env.p6 _ svc master.Index hsvc
  obtain ⟨h1, after, h2, r1, r2, r3, r4, r5, r6⟩ := UpdateIpvlanTcConfig_criteria env h conf
    master glue svc _ _ _ key old hq1 hq2 hfl hfd hfa hm hg hsvc.1 hbase rfl rfl rfl rfl hold
  exact ⟨_, _, key, _, h1, after, _, h2, hbase, rfl, rfl, rfl,
    fun t => sameMatchCriteria_one_key _ t _ key rfl rfl, fun _ _ => rfl, r1, r2, r3,
    (sameMatchCriteria_one_key _ _ _ key rfl rfl).mpr ⟨rfl, rfl, _, key, rfl, rfl, rfl, rfl, rfl⟩,
    rfl, rfl, rfl, r4, r5, r6⟩

theorem C15_no_duplicate_filter_witness :
    ∃ base sel key new h1 after added h2,
      createTCU32Filter 2 (some ⟨[172, 23, 0, 0], CIDRMask 24 32⟩) = .ok base ∧
      base.Sel = some sel ∧ sel.Keys = [key] ∧
      new = { base with Attrs := { base.Attrs with Parent := egressParent },
                        Actions := creatTCRedirectActions 3 } ∧
      (∀ t : U32, sameMatchCriteria new (.u32 t) = true ↔
        t.Attrs.LinkIndex = 2 ∧ t.Attrs.Protocol = ETH_P_IP ∧
        ∃ tsel tk, t.Sel = some tsel ∧ tsel.Keys = [tk] ∧ tk.Mask = key.Mask ∧
          tk.Off = key.Off ∧ tk.Val = key.Val) ∧
      (∀ kind attrs, sameMatchCriteria new (.generic attrs kind) = false) ∧
      UpdateIpvlanTcConfig quietHostEnv crowdedHost ipvlanExample = (.ok (), h1) ∧
      FilterList quietHostEnv h1
          { Name := "enp0s8", Index := 2, ParentIndex := 0, Kind := .device, Promisc := false,
            Up := true, Addrs := [] } egressParent = .ok after ∧
      after.Perm (crowdedHost.filters.filter (fun f => !sameMatchCriteria new f) ++
        [Filter.u32 added]) ∧
      sameMatchCriteria new (.u32 added) = true ∧
      added.Attrs.Parent = egressParent ∧ added.Attrs.Priority = 40000 ∧
      added.Actions = creatTCRedirectActions 3 ∧
      after.countP (sameMatchCriteria new) = 1 ∧
      (∀ f, sameMatchCriteria new f = false → after.count f = crowdedHost.filters.count f) ∧
      UpdateIpvlanTcConfig quietHostEnv h1 ipvlanExample = (.ok (), h2) ∧
      h2.filters = h1.filters ∧
      FilterList quietHostEnv h2
          { Name := "enp0s8", Index := 2, ParentIndex := 0, Kind := .device, Promisc := false,
            Up := true, Addrs := [] } egressParent = .ok after :=
  C15_no_duplicate_filter quietHostEnv crowdedHost ipvlanExample
    { Name := "enp0s8", Index := 2, ParentIndex := 0, Kind := .device, Promisc := false,
      Up := true, Addrs := [] }
    { Name := "glue", Index := 3, ParentIndex := 2, Kind := .ipvlan .L2, Promisc := false,
      Up := true, Addrs := ["172.24.6.0/21"] }
    ⟨[172, 23, 0, 0], CIDRMask 24 32⟩ crowdedHost.filters
    rfl rfl rfl (fun _ => rfl) rfl rfl rfl ⟨rfl, rfl⟩ rfl

theorem CleanDevices_keeps (env : HostEnv) (h : Host) :
    (CleanDevices env h).2.files = h.files ∧ (CleanDevices env h).2.exited = h.exited := by
  unfold CleanDevices
  split
  · exact ⟨rfl, rfl⟩
  · simp only [LinkDel, Host.log]
    split <;> exact ⟨rfl, rfl⟩

theorem CleanIptables_keeps (env : HostEnv) (h : Host) :
    (CleanIptables env h).2.files = h.files ∧ (CleanIptables env h).2.exited = h.exited := by
  unfold CleanIptables
  split
  · exact ⟨rfl, rfl⟩
  · simp only [Host.log]
    split <;> split <;> split <;> (try split) <;> exact ⟨rfl, rfl⟩

theorem CleanDevices_trace (env : HostEnv) (h : Host) (ev : HostEvent)
    (hev : ev ∈ (CleanDevices env h).2.trace) : ev ∈ h.trace ∨ ∃ n, ev = .linkDel n := by
  unfold CleanDevices at hev
  split at hev
  · exact Or.inl hev
  · simp only [LinkDel, Host.log] at hev
    split at hev <;> simp only [List.mem_append, List.mem_singleton] at hev <;>
      exact hev.imp id fun x => ⟨_, x⟩

theorem CleanIptables_trace (env : HostEnv) (h : Host) (ev : HostEvent)
    (hev : ev ∈ (CleanIptables env h).2.trace) :
    ev ∈ h.trace ∨ (∃ t c r, ev = .iptDelete t c r) ∨ (∃ t c, ev = .iptClearChain t c) ∨
      ∃ t c, ev = .iptDeleteChain t c := by
  unfold CleanIptables at hev
  split at hev
  · exact Or.inl hev
  · simp only [Host.log] at hev
    have key : ev ∈ h.trace ++ [.iptDelete "nat" "PREROUTING" ["-j", DefaultGluePREChainName],
        .iptClearChain "nat" DefaultGluePREChainName,
        .iptDeleteChain "nat" DefaultGluePREChainName] := by
      revert hev
      split <;> split <;> split <;> (try split) <;> simp
    simp only [List.mem_append, List.mem_cons, List.mem_singleton, List.not_mem_nil,
      or_false] at key
    rcases key with k | k | k | k
    · exact Or.inl k
    · exact Or.inr (Or.inl ⟨_, _, _, k⟩)
    · exact Or.inr (Or.inr (Or.inl ⟨_, _, k⟩))
    · exact Or.inr (Or.inr (Or.inr ⟨_, _, k⟩))

theorem cleanups_trace (env : HostEnv) (h : Host) (ev : HostEvent)
    (hev : ev ∈ (CleanIptables env (CleanDevices env h).2).2.trace)
    (h1 : ∀ n, ev ≠ .linkDel n) (h2 : ∀ t c r, ev ≠ .iptDelete t c r)
    (h3 : ∀ t c, ev ≠ .iptClearChain t c) (h4 : ∀ t c, ev ≠ .iptDeleteChain t c) :
    ev ∈ h.trace := by
  rcases CleanIptables_trace env _ ev hev with k | ⟨t, c, r, k⟩ | ⟨t, c, k⟩ | ⟨t, c, k⟩
  · rcases CleanDevices_trace env h ev k with k2 | ⟨n, k2⟩
    · exact k2
    · exact absurd k2 (h1 n)
  · exact absurd k (h2 t c r)
  · exact absurd k (h3 t c)
  · exact absurd k (h4 t c)

/-- C16: for each of the four signals, when the lookup of the master interface
fails, `tearDown` panics inside `CleanTcConfig` (the lookup error is discarded
and `link.Attrs()` is called on the nil link): the run ends in the state left
by `CleanDevices` and `CleanIptables`, the topology file is not removed and
the process does not reach `os.Exit(0)`. -/
theorem C16_tearDown_panics_without_master (env : HostEnv) (h : Host) (g : Globals)
    (s : Signal) (e : String)
    (hs : s = .SIGHUP ∨ s = .SIGINT ∨ s = .SIGTERM ∨ s = .SIGQUIT)
    (hfail : env.linkByNameErr g.subnetConf.Master.Master = some e) :
    tearDown env h g s = (.crash, (CleanIptables env (CleanDevices env h).2).2) ∧
    (tearDown env h g s).2.files = h.files ∧
    (tearDown env h g s).2.exited = h.exited ∧
    (∀ p, HostEvent.remove p ∈ (tearDown env h g s).2.trace → HostEvent.remove p ∈ h.trace) ∧
    (HostEvent.exit 0 ∈ (tearDown env h g s).2.trace → HostEvent.exit 0 ∈ h.trace) := by
  have hc : ∀ h2, CleanTcConfig env h2 g.subnetConf = (.crash, h2) := by
    intro h2
    simp [CleanTcConfig, LinkByName, hfail, linkOrNil]
  have ht : tearDown env h g s = (.crash, (CleanIptables env (CleanDevices env h).2).2) := by
    rcases hs with rfl | rfl | rfl | rfl <;> simp [tearDown, hc]
  refine ⟨ht, ?_, ?_, ?_, ?_⟩
  · rw [ht]; simp only
    rw [(CleanIptables_keeps env _).1, (CleanDevices_keeps env h).1]
  · rw [ht]; simp only
    rw [(CleanIptables_keeps env _).2, (CleanDevices_keeps env h).2]
  · intro p hp
    rw [ht] at hp
    exact cleanups_trace env h _ hp (by simp) (by simp) (by simp) (by simp)
  · intro hp
    rw [ht] at hp
    exact cleanups_trace env h _ hp (by simp) (by simp) (by simp) (by simp)

theorem C16_tearDown_panics_without_master_witness :
    tearDown masterLostEnv convergedHost exampleGlobals .SIGTERM =
      (.crash, (CleanIptables masterLostEnv (CleanDevices masterLostEnv convergedHost).2).2) ∧
    (tearDown masterLostEnv convergedHost exampleGlobals .SIGTERM).2.files = [defaultSubnetFile] ∧
    (tearDown masterLostEnv convergedHost exampleGlobals .SIGTERM).2.exited = none ∧
    (∀ p, HostEvent.remove p ∈ (tearDown masterLostEnv convergedHost exampleGlobals .SIGTERM).2.trace →
      HostEvent.remove p ∈ convergedHost.trace) ∧
    (HostEvent.exit 0 ∈ (tearDown masterLostEnv convergedHost exampleGlobals .SIGTERM).2.trace →
      HostEvent.exit 0 ∈ convergedHost.trace) :=
  C16_tearDown_panics_without_master masterLostEnv convergedHost exampleGlobals .SIGTERM
    "Link not found" (Or.inr (Or.inr (Or.inl rfl))) rfl

end Glue
